import Mathlib

/-!
# Chronicles engine: renderer backends

A shallow embedding of the three renderer backends of `src/Engine`
(`SDL2Renderer`, `D3D11Renderer`, `D3D12Renderer`) and of the engine functions of
`ChroniclesEngine.cpp` that select, construct and feed them, with theorems
about them.

Conventions of the embedding.

* `float` arithmetic is taken over an arbitrary field `α` (exact arithmetic);
  theorems are stated over `ℝ`, concrete evaluations are done over `ℚ`.
* `int` is `Int`; `m_nextTextureId++` wraps to 32 bits (`wrapInt32`).
* `UINT64` is `Nat` reduced modulo `2 ^ 64`.
* `std::map<int, T>` is `StdMap T`, a key-ordered association list.
* Results of driver and library calls (`HRESULT`s, returned handles, the
  back-buffer index reported by the swap chain, the progress of the GPU, the
  window messages, the environment variable) are explicit arguments of the
  operations; the preprocessor configuration is a `BuildConfig`.
-/

namespace Chronicles

/-! ## Machine integers -/

/-- Two's-complement reduction of an integer to the range of a 32-bit `int`. -/
def wrapInt32 (n : Int) : Int := (n + 2147483648) % 4294967296 - 2147483648

/-- Reduction of a natural number to the range of a `UINT64`. -/
def wrapUInt64 (n : Nat) : Nat := n % 18446744073709551616

/-! ## `std::map<int, T>` -/

/-- A `std::map<int, T>`: its entries, in iteration order. -/
structure StdMap (τ : Type) where
  entries : List (Int × τ)
deriving DecidableEq, Repr

namespace StdMap

variable {τ : Type}

/-- The default-constructed (empty) map. -/
def empty : StdMap τ := ⟨[]⟩

/-- Lookup in the entry list. -/
def findEntries : List (Int × τ) → Int → Option τ
  | [], _ => none
  | (k', v) :: m, k => if k' = k then some v else findEntries m k

/-- The call `m.find(k)`: `none` stands for `m.end()`. -/
def find (m : StdMap τ) (k : Int) : Option τ := findEntries m.entries k

/-- The call `m.erase(it)` for the iterator found at key `k`. -/
def erase (m : StdMap τ) (k : Int) : StdMap τ :=
  ⟨m.entries.filter (fun p => decide (p.1 ≠ k))⟩

/-- Insertion or overwrite in a key-ordered entry list. -/
def assignEntries : List (Int × τ) → Int → τ → List (Int × τ)
  | [], k, v => [(k, v)]
  | (k', v') :: m, k, v =>
    if k < k' then (k, v) :: (k', v') :: m
    else if k = k' then (k, v) :: m
    else (k', v') :: assignEntries m k v

/-- The assignment `m[k] = v`. -/
def assign (m : StdMap τ) (k : Int) (v : τ) : StdMap τ := ⟨assignEntries m.entries k v⟩

/-- The call `m.clear()`. -/
def clear (_ : StdMap τ) : StdMap τ := ⟨[]⟩

/-- The keys of the map, in iteration order. -/
def keys (m : StdMap τ) : List Int := m.entries.map Prod.fst

end StdMap

/-! ## DirectXMath -/

/-- The struct `DirectX::XMFLOAT2`. -/
structure XMFLOAT2 (α : Type) where
  x : α
  y : α
deriving DecidableEq, Repr

/-- The struct `DirectX::XMFLOAT3`. -/
structure XMFLOAT3 (α : Type) where
  x : α
  y : α
  z : α
deriving DecidableEq, Repr

/-- The struct `DirectX::XMFLOAT4`. -/
structure XMFLOAT4 (α : Type) where
  x : α
  y : α
  z : α
  w : α
deriving DecidableEq, Repr

/-- The type `DirectX::XMVECTOR`: four components. -/
structure XMVECTOR (α : Type) where
  x : α
  y : α
  z : α
  w : α
deriving DecidableEq, Repr

/-- The type `DirectX::XMMATRIX`: four rows (row-major, row-vector convention). -/
structure XMMATRIX (α : Type) where
  r0 : XMVECTOR α
  r1 : XMVECTOR α
  r2 : XMVECTOR α
  r3 : XMVECTOR α
deriving DecidableEq, Repr

/-- The sine and cosine used by `XMMatrixRotationZ` (`XMScalarSinCos`). -/
structure SinCos (α : Type) where
  sin : α → α
  cos : α → α

section DirectXMath

variable {α : Type} [Field α]

/-- The function `XMVectorSet`. -/
def XMVectorSet (x y z w : α) : XMVECTOR α := ⟨x, y, z, w⟩

/-- The function `XMVectorGetX`. -/
def XMVectorGetX (v : XMVECTOR α) : α := v.x

/-- The function `XMVectorGetY`. -/
def XMVectorGetY (v : XMVECTOR α) : α := v.y

/-- The function `XMMatrixIdentity`. -/
def XMMatrixIdentity : XMMATRIX α :=
  ⟨⟨1, 0, 0, 0⟩, ⟨0, 1, 0, 0⟩, ⟨0, 0, 1, 0⟩, ⟨0, 0, 0, 1⟩⟩

/-- The function `XMMatrixRotationZ(Angle)`: rows `(cos, sin, 0, 0)`, `(-sin, cos, 0, 0)`,
`(0, 0, 1, 0)`, `(0, 0, 0, 1)`. -/
def XMMatrixRotationZ (sc : SinCos α) (angle : α) : XMMATRIX α :=
  ⟨⟨sc.cos angle, sc.sin angle, 0, 0⟩, ⟨-sc.sin angle, sc.cos angle, 0, 0⟩,
   ⟨0, 0, 1, 0⟩, ⟨0, 0, 0, 1⟩⟩

/-- The function `XMVector3Transform(V, M)`: the row vector `(V.x, V.y, V.z, 1)` times `M`. -/
def XMVector3Transform (v : XMVECTOR α) (m : XMMATRIX α) : XMVECTOR α :=
  ⟨v.x * m.r0.x + (v.y * m.r1.x + (v.z * m.r2.x + m.r3.x)),
   v.x * m.r0.y + (v.y * m.r1.y + (v.z * m.r2.y + m.r3.y)),
   v.x * m.r0.z + (v.y * m.r1.z + (v.z * m.r2.z + m.r3.z)),
   v.x * m.r0.w + (v.y * m.r1.w + (v.z * m.r2.w + m.r3.w))⟩

end DirectXMath

/-! ## The Direct3D 11 backend (`D3D11Renderer.cpp`) -/

/-- The struct `Vertex` of `D3D11Renderer.cpp`. -/
structure Vertex (α : Type) where
  position : XMFLOAT3 α
  color : XMFLOAT4 α
  texCoord : XMFLOAT2 α
deriving DecidableEq, Repr

/-- The struct `ConstantBufferData`. -/
structure ConstantBufferData (α : Type) where
  worldViewProjection : XMMATRIX α
  tintColor : XMFLOAT4 α
deriving DecidableEq, Repr

/-- The struct `D3D11Texture`: the two COM objects are represented by handles. -/
structure D3D11Texture where
  texture : Nat
  shaderResourceView : Nat
  width : Int
  height : Int
deriving DecidableEq, Repr

/-- A shader resource view that can be bound to pixel-shader slot 0:
`m_whiteTextureSRV`, the view of the 1x1 texture with the single pixel
`0xFFFFFFFF` made by `CreateWhiteTexture`, or the view of a loaded texture. -/
inductive ShaderResourceView where
  | whiteTexture
  | loaded (srv : Nat)
deriving DecidableEq, Repr

/-- One `m_deviceContext->Draw(VertexCount, StartVertexLocation)` call, with the
pipeline inputs at the time of the call: the contents of the vertex buffer
bound to the input assembler and the resource in pixel-shader slot 0. -/
structure DrawCall (α : Type) where
  vertexCount : Nat
  startVertexLocation : Nat
  vertices : List (Vertex α)
  texture : Option ShaderResourceView
deriving DecidableEq, Repr

/-- Outcome of the driver calls made by one `DrawRect` or `DrawSprite`. -/
structure D3D11DrawEnv where
  createBufferOk : Bool
  mapVertexBufferOk : Bool
  mapConstantBufferOk : Bool
deriving DecidableEq, Repr

/-- Outcome of the WIC and device calls made by one `LoadTexture`. -/
structure D3D11LoadEnv where
  wicFactoryOk : Bool
  decoderOk : Bool
  frameOk : Bool
  width : Nat
  height : Nat
  converterOk : Bool
  converterInitOk : Bool
  copyPixelsOk : Bool
  createTexture2D : Option Nat
  createShaderResourceView : Option Nat
deriving DecidableEq, Repr

/-- Outcome of the steps of `D3D11Renderer::Initialize`, in call order. -/
structure D3D11InitEnv where
  createAppWindow : Option Nat
  createDevice : Bool
  createSwapChain : Bool
  createRenderTargetView : Bool
  createDepthStencilBuffer : Bool
  createDepthStencilState : Bool
  createRasterizerState : Bool
  createBlendState : Bool
  createShadersAndInputLayout : Bool
  createConstantBuffers : Bool
  createSamplerState : Bool
  createWhiteTexture : Bool
deriving DecidableEq, Repr

/-- A texture operation issued by the host: a `LoadTexture` call together with
the outcome of the library calls it makes, or an `UnloadTexture` call. -/
inductive TextureOp (Env : Type) where
  | load (env : Env)
  | unload (textureId : Int)
deriving DecidableEq, Repr

/-- The state of a `D3D11Renderer`, with the part of the device context that
the drawing operations act on. `m_vertexBuffer` holds the buffer contents. -/
structure D3D11Renderer (α : Type) where
  m_hwnd : Option Nat
  m_width : Int
  m_height : Int
  m_isRunning : Bool
  m_textures : StdMap D3D11Texture
  m_nextTextureId : Int
  m_vertexBuffer : Option (List (Vertex α))
  m_constantBuffer : Option (ConstantBufferData α)
  psShaderResource : Option ShaderResourceView
  iaVertexBufferSet : Bool
  draws : List (DrawCall α)
deriving DecidableEq

namespace D3D11Renderer

variable {α : Type} [Field α] [DecidableEq α]

/-- The constructor `D3D11Renderer::D3D11Renderer()`. -/
def new : D3D11Renderer α :=
  { m_hwnd := none, m_width := 0, m_height := 0, m_isRunning := false,
    m_textures := StdMap.empty, m_nextTextureId := 1,
    m_vertexBuffer := none, m_constantBuffer := none,
    psShaderResource := none, iaVertexBufferSet := false, draws := [] }

/-- The method `D3D11Renderer::Initialize`: the returned flag and the new state. -/
def Initialize (s : D3D11Renderer α) (env : D3D11InitEnv) (width height : Int) :
    Bool × D3D11Renderer α :=
  let s := { s with m_width := width, m_height := height }
  match env.createAppWindow with
  | none => (false, s)
  | some hwnd =>
    let s := { s with m_hwnd := some hwnd }
    if !env.createDevice then (false, s)
    else if !env.createSwapChain then (false, s)
    else if !env.createRenderTargetView then (false, s)
    else if !env.createDepthStencilBuffer then (false, s)
    else if !env.createDepthStencilState then (false, s)
    else if !env.createRasterizerState then (false, s)
    else if !env.createBlendState then (false, s)
    else if !env.createShadersAndInputLayout then (false, s)
    else if !env.createConstantBuffers then (false, s)
    else if !env.createSamplerState then (false, s)
    else if !env.createWhiteTexture then (false, s)
    else (true, { s with m_isRunning := true })

/-- The local array `vertices` of `DrawRect`. -/
def rectVertices (m_width m_height : Int) (x y width height r g b a : α) :
    List (Vertex α) :=
  let left := (x / (m_width : α)) * 2 - 1
  let right := ((x + width) / (m_width : α)) * 2 - 1
  let top := 1 - (y / (m_height : α)) * 2
  let bottom := 1 - ((y + height) / (m_height : α)) * 2
  [ ⟨⟨left, top, 0⟩, ⟨r, g, b, a⟩, ⟨0, 0⟩⟩,
    ⟨⟨right, top, 0⟩, ⟨r, g, b, a⟩, ⟨1, 0⟩⟩,
    ⟨⟨left, bottom, 0⟩, ⟨r, g, b, a⟩, ⟨0, 1⟩⟩,
    ⟨⟨right, top, 0⟩, ⟨r, g, b, a⟩, ⟨1, 0⟩⟩,
    ⟨⟨right, bottom, 0⟩, ⟨r, g, b, a⟩, ⟨1, 1⟩⟩,
    ⟨⟨left, bottom, 0⟩, ⟨r, g, b, a⟩, ⟨0, 1⟩⟩ ]

/-- The array `corners` of `DrawSprite` after the rotate-and-translate loop,
in the order top-left, top-right, bottom-left, bottom-right. -/
def spriteCorners (sc : SinCos α) (m_width m_height : Int)
    (x y width height rotation : α) : List (XMVECTOR α) :=
  let centerX := x + width / 2
  let centerY := y + height / 2
  let ndcCenterX := (centerX / (m_width : α)) * 2 - 1
  let ndcCenterY := 1 - (centerY / (m_height : α)) * 2
  let ndcWidth := (width / (m_width : α)) * 2
  let ndcHeight := (height / (m_height : α)) * 2
  let halfWidth := ndcWidth / 2
  let halfHeight := ndcHeight / 2
  let rotationMatrix : XMMATRIX α :=
    if rotation ≠ 0 then XMMatrixRotationZ sc rotation else XMMatrixIdentity
  let corners : List (XMVECTOR α) :=
    [ XMVectorSet (-halfWidth) halfHeight 0 1,
      XMVectorSet halfWidth halfHeight 0 1,
      XMVectorSet (-halfWidth) (-halfHeight) 0 1,
      XMVectorSet halfWidth (-halfHeight) 0 1 ]
  corners.map fun c =>
    let c' := XMVector3Transform c rotationMatrix
    let cornerX := XMVectorGetX c' + ndcCenterX
    let cornerY := XMVectorGetY c' + ndcCenterY
    XMVectorSet cornerX cornerY 0 1

/-- The local array `vertices` of `DrawSprite`, built from `corners[0..3]`. -/
def spriteVertices (sc : SinCos α) (m_width m_height : Int)
    (x y width height rotation : α) : List (Vertex α) :=
  match spriteCorners sc m_width m_height x y width height rotation with
  | [c0, c1, c2, c3] =>
    [ ⟨⟨XMVectorGetX c0, XMVectorGetY c0, 0⟩, ⟨1, 1, 1, 1⟩, ⟨0, 0⟩⟩,
      ⟨⟨XMVectorGetX c1, XMVectorGetY c1, 0⟩, ⟨1, 1, 1, 1⟩, ⟨1, 0⟩⟩,
      ⟨⟨XMVectorGetX c2, XMVectorGetY c2, 0⟩, ⟨1, 1, 1, 1⟩, ⟨0, 1⟩⟩,
      ⟨⟨XMVectorGetX c1, XMVectorGetY c1, 0⟩, ⟨1, 1, 1, 1⟩, ⟨1, 0⟩⟩,
      ⟨⟨XMVectorGetX c3, XMVectorGetY c3, 0⟩, ⟨1, 1, 1, 1⟩, ⟨1, 1⟩⟩,
      ⟨⟨XMVectorGetX c2, XMVectorGetY c2, 0⟩, ⟨1, 1, 1, 1⟩, ⟨0, 1⟩⟩ ]
  | _ => []

/-- The block "Create or update vertex buffer", shared by `DrawRect` and
`DrawSprite`: `none` when `CreateBuffer` fails (the caller returns), else the
new buffer contents. A failed `Map` leaves the old contents in place. -/
def updateVertexBuffer (s : D3D11Renderer α) (env : D3D11DrawEnv)
    (vertices : List (Vertex α)) : Option (List (Vertex α)) :=
  match s.m_vertexBuffer with
  | none => if env.createBufferOk then some vertices else none
  | some old => if env.mapVertexBufferOk then some vertices else some old

/-- The block "Update constant buffer with identity matrix". -/
def updateConstantBuffer (s : D3D11Renderer α) (env : D3D11DrawEnv) :
    Option (ConstantBufferData α) :=
  if env.mapConstantBufferOk then some ⟨XMMatrixIdentity, ⟨1, 1, 1, 1⟩⟩
  else s.m_constantBuffer

/-- The method `D3D11Renderer::DrawRect`. -/
def DrawRect (s : D3D11Renderer α) (env : D3D11DrawEnv)
    (x y width height r g b a : α) : D3D11Renderer α :=
  let vertices := rectVertices s.m_width s.m_height x y width height r g b a
  match updateVertexBuffer s env vertices with
  | none => s
  | some buf =>
    { s with
      m_vertexBuffer := some buf
      m_constantBuffer := updateConstantBuffer s env
      psShaderResource := some ShaderResourceView.whiteTexture
      iaVertexBufferSet := true
      draws := s.draws ++ [⟨6, 0, buf, some ShaderResourceView.whiteTexture⟩] }

/-- The method `D3D11Renderer::DrawSprite`. -/
def DrawSprite (sc : SinCos α) (s : D3D11Renderer α) (env : D3D11DrawEnv)
    (textureId : Int) (x y width height rotation : α) : D3D11Renderer α :=
  let srv : ShaderResourceView :=
    match s.m_textures.find textureId with
    | none => ShaderResourceView.whiteTexture
    | some t => ShaderResourceView.loaded t.shaderResourceView
  let s1 := { s with psShaderResource := some srv }
  let vertices := spriteVertices sc s.m_width s.m_height x y width height rotation
  match updateVertexBuffer s1 env vertices with
  | none => s1
  | some buf =>
    { s1 with
      m_vertexBuffer := some buf
      m_constantBuffer := updateConstantBuffer s1 env
      iaVertexBufferSet := true
      draws := s1.draws ++ [⟨6, 0, buf, some srv⟩] }

/-- The method `D3D11Renderer::LoadTexture`: the returned id and the new state. -/
def LoadTexture (s : D3D11Renderer α) (env : D3D11LoadEnv) : Int × D3D11Renderer α :=
  if !env.wicFactoryOk then (-1, s)
  else if !env.decoderOk then (-1, s)
  else if !env.frameOk then (-1, s)
  else if !env.converterOk then (-1, s)
  else if !env.converterInitOk then (-1, s)
  else if !env.copyPixelsOk then (-1, s)
  else
    match env.createTexture2D with
    | none => (-1, s)
    | some texture =>
      match env.createShaderResourceView with
      | none => (-1, s)
      | some shaderResourceView =>
        let textureId := s.m_nextTextureId
        let d3dTexture : D3D11Texture :=
          { texture := texture, shaderResourceView := shaderResourceView,
            width := wrapInt32 env.width, height := wrapInt32 env.height }
        (textureId,
          { s with
            m_nextTextureId := wrapInt32 (s.m_nextTextureId + 1)
            m_textures := s.m_textures.assign textureId d3dTexture })

/-- The method `D3D11Renderer::UnloadTexture`. -/
def UnloadTexture (s : D3D11Renderer α) (textureId : Int) : D3D11Renderer α :=
  match s.m_textures.find textureId with
  | some _ => { s with m_textures := s.m_textures.erase textureId }
  | none => s

/-- The method `D3D11Renderer::Shutdown`. -/
def Shutdown (s : D3D11Renderer α) : D3D11Renderer α :=
  if !s.m_isRunning then s
  else
    let s1 := { s with m_textures := s.m_textures.clear }
    let s2 := match s1.m_hwnd with
      | some _ => { s1 with m_hwnd := none }
      | none => s1
    { s2 with m_isRunning := false }

/-- Whether the calls of a `LoadTexture` all succeed. -/
def loadSucceeds (env : D3D11LoadEnv) : Bool :=
  env.wicFactoryOk && env.decoderOk && env.frameOk && env.converterOk &&
    env.converterInitOk && env.copyPixelsOk && env.createTexture2D.isSome &&
    env.createShaderResourceView.isSome

/-- A sequence of texture operations: the values returned by the `LoadTexture`
calls, in call order, and the final state. -/
def runTextureOps : D3D11Renderer α → List (TextureOp D3D11LoadEnv) →
    List Int × D3D11Renderer α
  | s, [] => ([], s)
  | s, TextureOp.load env :: ops =>
    let r := LoadTexture s env
    let rest := runTextureOps r.2 ops
    (r.1 :: rest.1, rest.2)
  | s, TextureOp.unload textureId :: ops => runTextureOps (UnloadTexture s textureId) ops

end D3D11Renderer

/-! ## The SDL2 backend (`SDL2Renderer.cpp`) -/

/-- The struct `SDL_Rect`. -/
structure SDL_Rect where
  x : Int
  y : Int
  w : Int
  h : Int
deriving DecidableEq, Repr

/-- The struct `SDL_Point`. -/
structure SDL_Point where
  x : Int
  y : Int
deriving DecidableEq, Repr

/-- The SDL library calls that the modelled operations of `SDL2Renderer` make. -/
inductive SDLCall (α : Type) where
  | FreeSurface (surface : Nat)
  | DestroyTexture (texture : Option Nat)
  | DestroyRenderer (renderer : Nat)
  | DestroyWindow (window : Nat)
  | Quit
  | RenderCopyEx (renderer : Option Nat) (texture : Option Nat) (dstrect : SDL_Rect)
      (angle : α) (center : SDL_Point)
  | SetRenderDrawColor (renderer : Option Nat) (r g b a : Int)
  | RenderClear (renderer : Option Nat)
  | RenderFillRect (renderer : Option Nat) (rect : SDL_Rect)
  | RenderPresent (renderer : Option Nat)
deriving DecidableEq, Repr

/-- Outcome of the SDL calls made by `SDL2Renderer::Initialize`: whether
`SDL_Init` succeeds, and the pointers returned by `SDL_CreateWindow` and
`SDL_CreateRenderer`. -/
structure SDL2InitEnv where
  sdlInitOk : Bool
  createWindow : Option Nat
  createRenderer : Option Nat
deriving DecidableEq, Repr

/-- Outcome of the SDL calls made by one `LoadTexture`: the surface returned by
`SDL_LoadBMP` and the texture returned by `SDL_CreateTextureFromSurface`
(`none` for a null pointer). -/
structure SDL2LoadEnv where
  loadBMP : Option Nat
  createTextureFromSurface : Option Nat
deriving DecidableEq, Repr

/-- The state of an `SDL2Renderer`, with the log of the SDL calls it has made.
Pointers are optional handles (`none` for a null pointer); `calls` records the
calls that release a resource, draw or present. -/
structure SDL2Renderer (α : Type) where
  m_window : Option Nat
  m_renderer : Option Nat
  m_windowWidth : Int
  m_windowHeight : Int
  m_isRunning : Bool
  m_textures : StdMap (Option Nat)
  m_nextTextureId : Int
  calls : List (SDLCall α)
deriving DecidableEq

namespace SDL2Renderer

variable {α : Type} [LinearOrderedField α] [FloorRing α]

/-- The conversion `static_cast<int>(x)` of a `float`: truncation toward zero. -/
def floatToInt (x : α) : Int := wrapInt32 (if 0 ≤ x then Int.floor x else Int.ceil x)

/-- The constructor `SDL2Renderer::SDL2Renderer()`. -/
def new : SDL2Renderer α :=
  { m_window := none, m_renderer := none, m_windowWidth := 0, m_windowHeight := 0,
    m_isRunning := false, m_textures := StdMap.empty, m_nextTextureId := 1, calls := [] }

/-- The method `SDL2Renderer::Initialize`: the returned flag and the new state. -/
def Initialize (s : SDL2Renderer α) (env : SDL2InitEnv) (width height : Int) :
    Bool × SDL2Renderer α :=
  if !env.sdlInitOk then (false, s)
  else
    let s := { s with m_window := env.createWindow }
    match s.m_window with
    | none => (false, { s with calls := s.calls ++ [SDLCall.Quit] })
    | some window =>
      let s := { s with m_renderer := env.createRenderer }
      match s.m_renderer with
      | none =>
        (false, { s with calls := s.calls ++ [SDLCall.DestroyWindow window, SDLCall.Quit] })
      | some _ =>
        (true, { s with m_windowWidth := width, m_windowHeight := height,
                        m_isRunning := true })

/-- The method `SDL2Renderer::DrawSprite`. -/
def DrawSprite (s : SDL2Renderer α) (textureId : Int) (x y width height rotation : α) :
    SDL2Renderer α :=
  match s.m_textures.find textureId with
  | none => s
  | some texture =>
    let destRect : SDL_Rect :=
      ⟨floatToInt x, floatToInt y, floatToInt width, floatToInt height⟩
    let center : SDL_Point := ⟨floatToInt (width / 2), floatToInt (height / 2)⟩
    let angle := rotation * (180 / 3.14159265359)
    { s with calls :=
        s.calls ++ [SDLCall.RenderCopyEx s.m_renderer texture destRect angle center] }

/-- The method `SDL2Renderer::LoadTexture`: the returned id and the new state. -/
def LoadTexture (s : SDL2Renderer α) (env : SDL2LoadEnv) : Int × SDL2Renderer α :=
  match env.loadBMP with
  | none => (-1, s)
  | some surface =>
    let s1 := { s with calls := s.calls ++ [SDLCall.FreeSurface surface] }
    match env.createTextureFromSurface with
    | none => (-1, s1)
    | some texture =>
      let textureId := s1.m_nextTextureId
      (textureId,
        { s1 with
          m_nextTextureId := wrapInt32 (s1.m_nextTextureId + 1)
          m_textures := s1.m_textures.assign textureId (some texture) })

/-- The method `SDL2Renderer::UnloadTexture`. -/
def UnloadTexture (s : SDL2Renderer α) (textureId : Int) : SDL2Renderer α :=
  match s.m_textures.find textureId with
  | some texture =>
    { s with
      calls := s.calls ++ [SDLCall.DestroyTexture texture]
      m_textures := s.m_textures.erase textureId }
  | none => s

/-- The method `SDL2Renderer::Shutdown`. -/
def Shutdown (s : SDL2Renderer α) : SDL2Renderer α :=
  match s.m_renderer with
  | none => s
  | some renderer =>
    let destroyed : List (SDLCall α) :=
      s.m_textures.entries.filterMap fun p =>
        p.2.map fun texture => SDLCall.DestroyTexture (some texture)
    let s1 := { s with calls := s.calls ++ destroyed, m_textures := s.m_textures.clear }
    let s2 := { s1 with calls := s1.calls ++ [SDLCall.DestroyRenderer renderer],
                        m_renderer := none }
    let s3 := match s2.m_window with
      | some window => { s2 with calls := s2.calls ++ [SDLCall.DestroyWindow window],
                                 m_window := none }
      | none => s2
    { s3 with calls := s3.calls ++ [SDLCall.Quit], m_isRunning := false }

/-- The conversion `static_cast<Uint8>(x)` of a `float`: truncation toward
zero, kept to its low eight bits. -/
def floatToUint8 (x : α) : Int := (if 0 ≤ x then Int.floor x else Int.ceil x) % 256

/-- The method `SDL2Renderer::BeginFrame`: it does nothing. -/
def BeginFrame (s : SDL2Renderer α) : SDL2Renderer α := s

/-- The method `SDL2Renderer::EndFrame`: it does nothing. -/
def EndFrame (s : SDL2Renderer α) : SDL2Renderer α := s

/-- The method `SDL2Renderer::Present`. -/
def Present (s : SDL2Renderer α) : SDL2Renderer α :=
  { s with calls := s.calls ++ [SDLCall.RenderPresent s.m_renderer] }

/-- The method `SDL2Renderer::Clear`. -/
def Clear (s : SDL2Renderer α) (r g b a : α) : SDL2Renderer α :=
  { s with calls :=
      s.calls ++
        [SDLCall.SetRenderDrawColor s.m_renderer (floatToUint8 (r * 255))
           (floatToUint8 (g * 255)) (floatToUint8 (b * 255)) (floatToUint8 (a * 255)),
         SDLCall.RenderClear s.m_renderer] }

/-- The method `SDL2Renderer::DrawRect`. -/
def DrawRect (s : SDL2Renderer α) (x y width height r g b a : α) : SDL2Renderer α :=
  let rect : SDL_Rect := ⟨floatToInt x, floatToInt y, floatToInt width, floatToInt height⟩
  { s with calls :=
      s.calls ++
        [SDLCall.SetRenderDrawColor s.m_renderer (floatToUint8 (r * 255))
           (floatToUint8 (g * 255)) (floatToUint8 (b * 255)) (floatToUint8 (a * 255)),
         SDLCall.RenderFillRect s.m_renderer rect] }

/-- Whether the calls of a `LoadTexture` all succeed. -/
def loadSucceeds (env : SDL2LoadEnv) : Bool :=
  env.loadBMP.isSome && env.createTextureFromSurface.isSome

/-- A sequence of texture operations: the values returned by the `LoadTexture`
calls, in call order, and the final state. -/
def runTextureOps : SDL2Renderer α → List (TextureOp SDL2LoadEnv) →
    List Int × SDL2Renderer α
  | s, [] => ([], s)
  | s, TextureOp.load env :: ops =>
    let r := LoadTexture s env
    let rest := runTextureOps r.2 ops
    (r.1 :: rest.1, rest.2)
  | s, TextureOp.unload textureId :: ops => runTextureOps (UnloadTexture s textureId) ops

end SDL2Renderer

/-! ## The Direct3D 12 backend (`D3D12Renderer.cpp`) -/

/-- The struct `Texture` of `D3D12Renderer.h`; resources are handles. -/
structure Texture where
  resource : Nat
  uploadHeap : Nat
  srvHandle : Nat
  width : Int
  height : Int
deriving DecidableEq, Repr

/-- An entry of the GPU command queue: a command list submitted by
`ExecuteCommandLists`, identified by the allocator it was recorded with, or a
`Signal(fence, value)`. -/
inductive QueueItem where
  | executeCommandList (allocator : Fin 2)
  | signal (value : Nat)
deriving DecidableEq, Repr

/-- The object `ID3D12CommandQueue`: the entries the GPU has not executed yet
(oldest first) and every entry ever submitted (newest first). -/
structure CommandQueue where
  pending : List QueueItem
  submitted : List QueueItem
deriving DecidableEq, Repr

/-- The object `ID3D12Fence`: the value returned by `GetCompletedValue`. -/
structure Fence where
  completedValue : Nat
deriving DecidableEq, Repr

/-- The object `ID3D12GraphicsCommandList`: the allocator it records into. -/
structure CommandList where
  allocator : Fin 2
deriving DecidableEq, Repr

/-- Outcome of the steps of `D3D12Renderer::Initialize`. A step that fails
either returns `false` or throws; `Initialize` returns `false` in both cases. -/
structure D3D12InitEnv where
  createAppWindow : Option Nat
  createDevice : Bool
  createCommandQueue : Bool
  createSwapChain : Option (Fin 2)
  createDescriptorHeaps : Bool
  createRenderTargets : Bool
  createDepthStencil : Bool
  createRootSignature : Bool
  createPipelineStates : Bool
  createFence : Bool
  createEvent : Option Nat
  createCommandAllocators : Bool
  createCommandList : Bool
  closeCommandList : Bool
deriving DecidableEq, Repr

/-- What happens around one frame cycle: how many queue entries the GPU
finishes before `BeginFrame`, how many more it finishes before
`MoveToNextFrame` reads `GetCompletedValue`, and the index returned by
`GetCurrentBackBufferIndex` after the present. -/
structure FrameEnv where
  gpuBeforeBegin : Nat
  gpuBeforeFenceCheck : Nat
  backBufferIndex : Fin 2
deriving DecidableEq, Repr

/-- The state of a `D3D12Renderer` (`FrameCount = 2`). A `ComPtr` is `true` or
`some` when it holds an object. The command queue and the fence carry the
state of the GPU side. -/
structure D3D12Renderer where
  m_device : Bool
  m_commandQueue : Option CommandQueue
  m_swapChain : Bool
  m_descriptorHeaps : Bool
  m_renderTargets : Bool
  m_depthStencil : Bool
  m_rootSignature : Bool
  m_pipelineState : Bool
  m_commandAllocators : Bool
  m_commandList : Option CommandList
  m_fence : Option Fence
  m_fenceValues : Fin 2 → Nat
  m_fenceEvent : Option Nat
  m_frameIndex : Fin 2
  m_hwnd : Option Nat
  m_width : Int
  m_height : Int
  m_isRunning : Bool
  m_textures : StdMap Texture
  m_nextTextureId : Int

/-- The values of the `Signal` entries of a list of queue entries, in order. -/
def signalValues (items : List QueueItem) : List Nat :=
  items.filterMap fun item =>
    match item with
    | QueueItem.signal v => some v
    | QueueItem.executeCommandList _ => none

namespace CommandQueue

/-- A call of `ExecuteCommandLists` or `Signal` on the queue. -/
def submit (q : CommandQueue) (item : QueueItem) : CommandQueue :=
  { pending := q.pending ++ [item], submitted := item :: q.submitted }

/-- The values passed to `Signal` so far, oldest first. -/
def signalled (q : CommandQueue) : List Nat := signalValues q.submitted.reverse

end CommandQueue

/-- The GPU executes up to `k` pending queue entries, oldest first, starting
with the fence at `completed`; executing a `Signal` sets the completed value of
the fence. The result is the entries left and the completed value reached. -/
def gpuExecute : Nat → List QueueItem → Nat → List QueueItem × Nat
  | 0, pending, completed => (pending, completed)
  | _ + 1, [], completed => ([], completed)
  | k + 1, QueueItem.executeCommandList _ :: rest, completed => gpuExecute k rest completed
  | k + 1, QueueItem.signal v :: rest, _ => gpuExecute k rest v

/-- The GPU runs until the fence has reached `target`: `none` when the pending
entries run out first. -/
def gpuRunUntil (target : Nat) : List QueueItem → Nat → Option (List QueueItem × Nat)
  | [], completed => if target ≤ completed then some ([], completed) else none
  | item :: rest, completed =>
    if target ≤ completed then some (item :: rest, completed)
    else
      match item with
      | QueueItem.signal v => gpuRunUntil target rest v
      | QueueItem.executeCommandList _ => gpuRunUntil target rest completed

/-- Scan of a submission log, newest entry first: the value of the `Signal`
that directly followed the most recent command list recorded with `allocator`;
`next` is the closest signal value after the entries still to be scanned. -/
def signalAfterLastUse (allocator : Fin 2) : List QueueItem → Option Nat → Option Nat
  | [], _ => none
  | QueueItem.signal v :: older, _ => signalAfterLastUse allocator older (some v)
  | QueueItem.executeCommandList a :: older, next =>
    if a = allocator then next else signalAfterLastUse allocator older next

namespace D3D12Renderer

/-- The constructor `D3D12Renderer::D3D12Renderer()`. -/
def new : D3D12Renderer :=
  { m_device := false, m_commandQueue := none, m_swapChain := false,
    m_descriptorHeaps := false, m_renderTargets := false, m_depthStencil := false,
    m_rootSignature := false, m_pipelineState := false, m_commandAllocators := false,
    m_commandList := none, m_fence := none, m_fenceValues := fun _ => 0,
    m_fenceEvent := none, m_frameIndex := 0, m_hwnd := none, m_width := 0,
    m_height := 0, m_isRunning := false, m_textures := StdMap.empty,
    m_nextTextureId := 1 }

/-- The method `D3D12Renderer::Initialize`: the returned flag and the new state. -/
def Initialize (s : D3D12Renderer) (env : D3D12InitEnv) (width height : Int) :
    Bool × D3D12Renderer :=
  let s := { s with m_width := width, m_height := height }
  match env.createAppWindow with
  | none => (false, s)
  | some hwnd =>
    let s := { s with m_hwnd := some hwnd }
    if !env.createDevice then (false, s) else
    let s := { s with m_device := true }
    if !env.createCommandQueue then (false, s) else
    let s := { s with m_commandQueue := some ⟨[], []⟩ }
    match env.createSwapChain with
    | none => (false, s)
    | some backBufferIndex =>
      let s := { s with m_swapChain := true, m_frameIndex := backBufferIndex }
      if !env.createDescriptorHeaps then (false, s) else
      let s := { s with m_descriptorHeaps := true }
      if !env.createRenderTargets then (false, s) else
      let s := { s with m_renderTargets := true }
      if !env.createDepthStencil then (false, s) else
      let s := { s with m_depthStencil := true }
      if !env.createRootSignature then (false, s) else
      let s := { s with m_rootSignature := true }
      if !env.createPipelineStates then (false, s) else
      let s := { s with m_pipelineState := true }
      if !env.createFence then (false, s) else
      let s := { s with m_fence := some ⟨0⟩ }
      match env.createEvent with
      | none => (false, s)
      | some fenceEvent =>
        let s := { s with m_fenceEvent := some fenceEvent }
        if !env.createCommandAllocators then (false, s) else
        let s := { s with m_commandAllocators := true }
        if !env.createCommandList then (false, s) else
        let s := { s with m_commandList := some ⟨s.m_frameIndex⟩ }
        if !env.closeCommandList then (false, s) else
        (true, { s with m_isRunning := true })

/-- The GPU makes progress on the command queue of the renderer: it executes
up to `k` pending entries. -/
def gpuAdvance (k : Nat) (s : D3D12Renderer) : D3D12Renderer :=
  match s.m_commandQueue, s.m_fence with
  | some q, some f =>
    let r := gpuExecute k q.pending f.completedValue
    { s with m_commandQueue := some { q with pending := r.1 }, m_fence := some ⟨r.2⟩ }
  | _, _ => s

/-- The calls `m_fence->SetEventOnCompletion(target, m_fenceEvent)` and
`WaitForSingleObject(m_fenceEvent, INFINITE)`: the caller is blocked while the
GPU runs until the fence has reached `target`; `none` when that never happens
or the fence is missing. With a null event handle `SetEventOnCompletion` itself
blocks until the value is reached and `WaitForSingleObject` returns at once, so
the event handle does not change the outcome. -/
def waitForFence (s : D3D12Renderer) (target : Nat) : Option D3D12Renderer :=
  match s.m_commandQueue, s.m_fence with
  | some q, some f =>
    match gpuRunUntil target q.pending f.completedValue with
    | none => none
    | some (pending, completed) =>
      some { s with m_commandQueue := some { q with pending := pending },
                    m_fence := some ⟨completed⟩ }
  | _, _ => none

/-- The method `D3D12Renderer::BeginFrame`: `none` when an object it uses is
missing. -/
def BeginFrame (s : D3D12Renderer) : Option D3D12Renderer :=
  if !s.m_commandAllocators then none
  else
    match s.m_commandList with
    | none => none
    | some _ =>
      if !(s.m_rootSignature && s.m_renderTargets && s.m_descriptorHeaps) then none
      else some { s with m_commandList := some ⟨s.m_frameIndex⟩ }

/-- The method `D3D12Renderer::Clear`: it records two clears into the open
command list; the colour does not enter the state kept here. -/
def Clear (s : D3D12Renderer) : Option D3D12Renderer :=
  if !s.m_descriptorHeaps then none
  else
    match s.m_commandList with
    | none => none
    | some _ => some s

/-- The method `D3D12Renderer::EndFrame`. -/
def EndFrame (s : D3D12Renderer) : Option D3D12Renderer :=
  if !s.m_renderTargets then none
  else
    match s.m_commandList, s.m_commandQueue with
    | some commandList, some q =>
      let item := QueueItem.executeCommandList commandList.allocator
      some { s with m_commandQueue := some (q.submit item) }
    | _, _ => none

/-- The method `D3D12Renderer::MoveToNextFrame`. -/
def MoveToNextFrame (s : D3D12Renderer) (gpuBeforeFenceCheck : Nat)
    (backBufferIndex : Fin 2) : Option D3D12Renderer :=
  let currentFenceValue := s.m_fenceValues s.m_frameIndex
  match s.m_commandQueue, s.m_fence with
  | some q, some _ =>
    let s1 := { s with m_commandQueue := some (q.submit (QueueItem.signal currentFenceValue)),
                       m_frameIndex := backBufferIndex }
    let s2 := gpuAdvance gpuBeforeFenceCheck s1
    match s2.m_fence with
    | none => none
    | some f =>
      let waited :=
        if f.completedValue < s2.m_fenceValues s2.m_frameIndex then
          waitForFence s2 (s2.m_fenceValues s2.m_frameIndex)
        else some s2
      waited.map fun s3 =>
        let next := wrapUInt64 (currentFenceValue + 1)
        { s3 with m_fenceValues := Function.update s3.m_fenceValues s3.m_frameIndex next }
  | _, _ => none

/-- The method `D3D12Renderer::Present`. -/
def Present (s : D3D12Renderer) (gpuBeforeFenceCheck : Nat) (backBufferIndex : Fin 2) :
    Option D3D12Renderer :=
  if !s.m_swapChain then none
  else MoveToNextFrame s gpuBeforeFenceCheck backBufferIndex

/-- The method `D3D12Renderer::UnloadTexture`. -/
def UnloadTexture (s : D3D12Renderer) (textureId : Int) : D3D12Renderer :=
  match s.m_textures.find textureId with
  | some _ => { s with m_textures := s.m_textures.erase textureId }
  | none => s

/-- One frame cycle `BeginFrame`, `Clear`, `EndFrame`, `Present`, started in the
state in which `BeginFrame` resets the allocator. -/
def frameCycle (s : D3D12Renderer) (env : FrameEnv) : Option D3D12Renderer :=
  (((BeginFrame s).bind Clear).bind EndFrame).bind fun s3 =>
    Present s3 env.gpuBeforeFenceCheck env.backBufferIndex

/-- A run of frame cycles: the states in which `BeginFrame` reset its
allocator, in order, and the final state; `none` when a call fails or blocks
forever. -/
def runFrames : D3D12Renderer → List FrameEnv → Option (List D3D12Renderer × D3D12Renderer)
  | s, [] => some ([], s)
  | s, env :: envs =>
    let s0 := gpuAdvance env.gpuBeforeBegin s
    match frameCycle s0 env with
    | none => none
    | some s1 =>
      match runFrames s1 envs with
      | none => none
      | some (resets, final) => some (s0 :: resets, final)

end D3D12Renderer

/-! ## The Direct3D 12 backend: stubs, `WaitForGPU` and `Shutdown` -/

namespace D3D12Renderer

/-- The method `D3D12Renderer::DrawRect`: a stub that ignores its arguments. -/
def DrawRect {α : Type} (s : D3D12Renderer) (_x _y _width _height _r _g _b _a : α) :
    D3D12Renderer := s

/-- The method `D3D12Renderer::DrawSprite`: a stub that ignores its arguments. -/
def DrawSprite {α : Type} (s : D3D12Renderer) (_textureId : Int)
    (_x _y _width _height _rotation : α) : D3D12Renderer := s

/-- The method `D3D12Renderer::LoadTexture`: it prints the path and returns
`m_nextTextureId++`; no file is opened. -/
def LoadTexture (s : D3D12Renderer) (_filePath : String) : Int × D3D12Renderer :=
  (s.m_nextTextureId, { s with m_nextTextureId := wrapInt32 (s.m_nextTextureId + 1) })

/-- Successive `LoadTexture` calls, one per path: the returned values, in call
order, and the final state. -/
def loadTextures : D3D12Renderer → List String → List Int × D3D12Renderer
  | s, [] => ([], s)
  | s, filePath :: rest =>
    let r := LoadTexture s filePath
    let tail := loadTextures r.2 rest
    (r.1 :: tail.1, tail.2)

/-- The method `D3D12Renderer::SetRunning`. -/
def SetRunning (s : D3D12Renderer) (running : Bool) : D3D12Renderer :=
  { s with m_isRunning := running }

/-- The method `D3D12Renderer::WaitForGPU`: `none` when the command queue or the
fence is missing, or when the wait never returns. -/
def WaitForGPU (s : D3D12Renderer) : Option D3D12Renderer :=
  match s.m_commandQueue, s.m_fence with
  | some q, some _ =>
    let target := s.m_fenceValues s.m_frameIndex
    let s1 := { s with m_commandQueue := some (q.submit (QueueItem.signal target)) }
    match waitForFence s1 target with
    | none => none
    | some s2 =>
      let next := wrapUInt64 (s2.m_fenceValues s2.m_frameIndex + 1)
      some { s2 with m_fenceValues := Function.update s2.m_fenceValues s2.m_frameIndex next }
  | _, _ => none

/-- The method `D3D12Renderer::Shutdown`: `none` when `WaitForGPU` fails. -/
def Shutdown (s : D3D12Renderer) : Option D3D12Renderer :=
  if !s.m_device then some s
  else
    match WaitForGPU s with
    | none => none
    | some s1 =>
      let s2 := { s1 with m_textures := s1.m_textures.clear }
      let s3 := match s2.m_fenceEvent with
        | some _ => { s2 with m_fenceEvent := none }
        | none => s2
      let s4 := match s3.m_hwnd with
        | some _ => { s3 with m_hwnd := none }
        | none => s3
      some { s4 with m_isRunning := false }

end D3D12Renderer

/-! ## The engine (`ChroniclesEngine.cpp`) -/

/-- The enum `RendererBackend` of `IRenderer.h`. -/
inductive RendererBackend where
  | SDL2
  | DirectX11
  | DirectX12
  | Vulkan
deriving DecidableEq, Repr

/-- The preprocessor configuration of a build: whether `_WIN32` is defined and
whether `HAS_SDL2` is defined. -/
structure BuildConfig where
  win32 : Bool
  hasSDL2 : Bool
deriving DecidableEq, Repr

/-- The object held by `g_renderer`: one of the three implementations of
`IRenderer`. -/
inductive Renderer (α : Type) where
  | sdl2 (r : SDL2Renderer α)
  | d3d11 (r : D3D11Renderer α)
  | d3d12 (r : D3D12Renderer)

/-- Outcome of the library calls of `g_renderer->Initialize`, for whichever
backend is constructed. -/
structure RendererInitEnv where
  sdl2 : SDL2InitEnv
  d3d11 : D3D11InitEnv
  d3d12 : D3D12InitEnv

/-- The window messages that the window procedures distinguish. -/
inductive WindowMessage where
  | WM_CREATE
  | WM_DESTROY
  | WM_CLOSE
  | WM_QUIT
  | WM_KEYDOWN
  | WM_KEYUP
  | WM_MOUSEMOVE
  | WM_LBUTTONDOWN
  | WM_LBUTTONUP
  | WM_RBUTTONDOWN
  | WM_RBUTTONUP
  | WM_MBUTTONDOWN
  | WM_MBUTTONUP
  | other (code : Nat)
deriving DecidableEq, Repr

/-- The struct `MSG`: a message with its two parameters. -/
structure MSG where
  message : WindowMessage
  wParam : Int
  lParam : Int
deriving DecidableEq, Repr

/-- The globals of `ChroniclesEngine.cpp`, without the clock (`g_deltaTime`,
`g_totalTime`, `g_lastFrameTime`). `g_errorMessage` is the 256-byte buffer;
`inputCallbackCalls` records the calls made through `g_inputCallback`. -/
structure EngineState (α : Type) where
  g_isInitialized : Bool
  g_isRunning : Bool
  g_renderer : Option (Renderer α)
  g_windowWidth : Int
  g_windowHeight : Int
  g_keyStates : StdMap Bool
  g_keyPressed : StdMap Bool
  g_keyReleased : StdMap Bool
  g_mouseX : α
  g_mouseY : α
  g_mouseButtonStates : StdMap Bool
  g_mouseButtonPressed : StdMap Bool
  g_mouseButtonReleased : StdMap Bool
  g_inputCallback : Option Nat
  g_collisionCallback : Option Nat
  g_lastError : Int
  g_errorMessage : List Nat
  inputCallbackCalls : List (Int × Bool)

/-- The bytes of a string literal of the source (ASCII), without the
terminating NUL. -/
def cBytes (text : String) : List Nat := text.toList.map Char.toNat

/-- The function `strlen`: the number of bytes before the first NUL. -/
def strlen (message : List Nat) : Nat := (message.takeWhile fun b => decide (b ≠ 0)).length

/-- Two's-complement reduction of an integer to the range of a 16-bit `short`. -/
def wrapInt16 (n : Int) : Int := (n + 32768) % 65536 - 32768

/-- The macro `GET_X_LPARAM`: the low word of `lParam` as a signed 16-bit value. -/
def GET_X_LPARAM (lParam : Int) : Int := wrapInt16 (lParam % 65536)

/-- The macro `GET_Y_LPARAM`: the high word of the low 32 bits of `lParam` as a
signed 16-bit value. -/
def GET_Y_LPARAM (lParam : Int) : Int := wrapInt16 ((lParam / 65536) % 65536)

/-- The value `lParam & 0x40000000`: bit 30 of `lParam`, in place. -/
def maskRepeatBit (lParam : Int) : Int := if lParam.testBit 30 then 1073741824 else 0

section Engine

variable {α : Type}

/-- The globals at program start. -/
def EngineState.initial [Zero α] : EngineState α :=
  { g_isInitialized := false, g_isRunning := false, g_renderer := none,
    g_windowWidth := 0, g_windowHeight := 0,
    g_keyStates := StdMap.empty, g_keyPressed := StdMap.empty, g_keyReleased := StdMap.empty,
    g_mouseX := 0, g_mouseY := 0,
    g_mouseButtonStates := StdMap.empty, g_mouseButtonPressed := StdMap.empty,
    g_mouseButtonReleased := StdMap.empty,
    g_inputCallback := none, g_collisionCallback := none, g_lastError := 0,
    g_errorMessage := cBytes "No error" ++ List.replicate 248 0,
    inputCallbackCalls := [] }

/-- The function `SetError`, with `sizeof(g_errorMessage) = 256`. -/
def SetError (e : EngineState α) (message : List Nat) : EngineState α :=
  let len := strlen message
  let copyLen := if len < 256 - 1 then len else 256 - 1
  let copied := message.take copyLen ++ e.g_errorMessage.drop copyLen
  { e with g_errorMessage := copied.set copyLen 0 }

/-- The function `Engine_GetLastError`. -/
def Engine_GetLastError (e : EngineState α) : Int := e.g_lastError

/-- The function `Engine_GetErrorMessage`: the C string that starts at
`g_errorMessage`, up to the first NUL. -/
def Engine_GetErrorMessage (e : EngineState α) : List Nat :=
  e.g_errorMessage.takeWhile fun b => decide (b ≠ 0)

/-- The function `GetRendererBackend`; `rendererEnv` is the value of the
environment variable `CHRONICLES_RENDERER`, `none` when it is not set. -/
def GetRendererBackend (cfg : BuildConfig) (rendererEnv : Option String) : RendererBackend :=
  match rendererEnv with
  | some backend =>
    if backend = "dx11" ∨ backend = "directx11" ∨ backend = "d3d11" then
      if cfg.win32 then RendererBackend.DirectX11
      else if cfg.hasSDL2 then RendererBackend.SDL2
      else RendererBackend.SDL2
    else if backend = "dx12" ∨ backend = "directx12" ∨ backend = "d3d12" then
      if cfg.win32 then RendererBackend.DirectX12
      else if cfg.hasSDL2 then RendererBackend.SDL2
      else RendererBackend.SDL2
    else RendererBackend.DirectX11
  | none =>
    if cfg.win32 then RendererBackend.DirectX11
    else if cfg.hasSDL2 then RendererBackend.SDL2
    else RendererBackend.SDL2

/-- The `switch (backend)` of `Engine_Initialize`: the renderer it constructs,
or the message it passes to `SetError` before returning `false`. The
constructors are taken not to throw. -/
def createRenderer (cfg : BuildConfig) (backend : RendererBackend) :
    Except (List Nat) (Renderer α) :=
  match backend with
  | RendererBackend.DirectX11 =>
    if cfg.win32 then Except.ok (Renderer.d3d11 D3D11Renderer.new)
    else Except.error (cBytes "DirectX 11 not available on this platform")
  | RendererBackend.DirectX12 =>
    if cfg.win32 then Except.ok (Renderer.d3d12 D3D12Renderer.new)
    else Except.error (cBytes "DirectX 12 not available on this platform")
  | _ =>
    if cfg.hasSDL2 then Except.ok (Renderer.sdl2 SDL2Renderer.new)
    else Except.error (cBytes
      "SDL2 not available. Install SDL2 development libraries or use DirectX on Windows.")

/-- The virtual call `g_renderer->Initialize(width, height, title)`. -/
def Renderer.Initialize (renderer : Renderer α) (env : RendererInitEnv) (width height : Int) :
    Bool × Renderer α :=
  match renderer with
  | Renderer.sdl2 r =>
    let x := SDL2Renderer.Initialize r env.sdl2 width height
    (x.1, Renderer.sdl2 x.2)
  | Renderer.d3d11 r =>
    let x := D3D11Renderer.Initialize r env.d3d11 width height
    (x.1, Renderer.d3d11 x.2)
  | Renderer.d3d12 r =>
    let x := D3D12Renderer.Initialize r env.d3d12 width height
    (x.1, Renderer.d3d12 x.2)

/-- The virtual call `g_renderer->Shutdown()`, which is also what the
destructor of each backend runs: `none` when it fails. -/
def Renderer.Shutdown (renderer : Renderer α) : Option (Renderer α) :=
  match renderer with
  | Renderer.sdl2 r => some (Renderer.sdl2 (SDL2Renderer.Shutdown r))
  | Renderer.d3d11 r => some (Renderer.d3d11 (D3D11Renderer.Shutdown r))
  | Renderer.d3d12 r => (D3D12Renderer.Shutdown r).map Renderer.d3d12

/-- The virtual call `g_renderer->IsRunning()`. -/
def Renderer.IsRunning (renderer : Renderer α) : Bool :=
  match renderer with
  | Renderer.sdl2 r => r.m_isRunning
  | Renderer.d3d11 r => r.m_isRunning
  | Renderer.d3d12 r => r.m_isRunning

/-- The function `Engine_Initialize`: the returned flag and the new globals;
`none` when the destructor of a renderer fails. Assigning to `g_renderer` and
`g_renderer.reset()` destroy the object held before. The clock and the call
`SDL_Init(SDL_INIT_EVENTS)` made for the DirectX backends are outside the state
kept here. -/
def Engine_Initialize (cfg : BuildConfig) (e : EngineState α) (rendererEnv : Option String)
    (env : RendererInitEnv) (width height : Int) (_title : String) :
    Option (Bool × EngineState α) :=
  if e.g_isInitialized then some (true, e)
  else
    match createRenderer cfg (GetRendererBackend cfg rendererEnv) with
    | Except.error message => some (false, SetError e message)
    | Except.ok renderer =>
      let previous : Option Unit :=
        match e.g_renderer with
        | some old => (Renderer.Shutdown old).map fun _ => ()
        | none => some ()
      match previous with
      | none => none
      | some _ =>
        let r := Renderer.Initialize renderer env width height
        if !r.1 then
          match Renderer.Shutdown r.2 with
          | none => none
          | some _ =>
            let e1 := SetError e (cBytes "Renderer initialization failed")
            some (false, { e1 with g_renderer := none })
        else
          some (true,
            { e with g_renderer := some r.2, g_windowWidth := width, g_windowHeight := height,
                     g_isInitialized := true, g_isRunning := true })

/-- The function `Engine_SetKeyState`. -/
def Engine_SetKeyState (e : EngineState α) (keyCode : Int) (isDown isPressed : Bool) :
    EngineState α :=
  let e1 :=
    if isDown then
      let e0 := { e with g_keyStates := e.g_keyStates.assign keyCode true }
      if isPressed then { e0 with g_keyPressed := e0.g_keyPressed.assign keyCode true }
      else e0
    else
      { e with g_keyStates := e.g_keyStates.assign keyCode false,
               g_keyReleased := e.g_keyReleased.assign keyCode true }
  match e1.g_inputCallback with
  | some _ => { e1 with inputCallbackCalls := e1.inputCallbackCalls ++ [(keyCode, isDown)] }
  | none => e1

/-- The function `Engine_SetMousePosition`. -/
def Engine_SetMousePosition (e : EngineState α) (x y : α) : EngineState α :=
  { e with g_mouseX := x, g_mouseY := y }

/-- The function `Engine_SetMouseButtonState`. -/
def Engine_SetMouseButtonState (e : EngineState α) (button : Int) (isDown : Bool) :
    EngineState α :=
  if isDown then
    { e with g_mouseButtonStates := e.g_mouseButtonStates.assign button true,
             g_mouseButtonPressed := e.g_mouseButtonPressed.assign button true }
  else
    { e with g_mouseButtonStates := e.g_mouseButtonStates.assign button false,
             g_mouseButtonReleased := e.g_mouseButtonReleased.assign button true }

/-- The method `SDL2Renderer::SetRunning`. -/
def SDL2Renderer.SetRunning (s : SDL2Renderer α) (running : Bool) : SDL2Renderer α :=
  { s with m_isRunning := running }

/-- The method `D3D11Renderer::SetRunning`. -/
def D3D11Renderer.SetRunning (s : D3D11Renderer α) (running : Bool) : D3D11Renderer α :=
  { s with m_isRunning := running }

/-- The static method `D3D11Renderer::WindowProc`, acting on the renderer and on
the globals of the engine. `hasRenderer` tells whether the window user data
holds the renderer (it does once `WM_CREATE` has been handled). What
`PostQuitMessage` and `DefWindowProc` do is outside the state kept here. -/
def D3D11Renderer.WindowProc [IntCast α] (hasRenderer : Bool) (s : D3D11Renderer α)
    (e : EngineState α) (message : WindowMessage) (wParam lParam : Int) :
    D3D11Renderer α × EngineState α :=
  match message with
  | WindowMessage.WM_CLOSE =>
    (if hasRenderer then D3D11Renderer.SetRunning s false else s, e)
  | WindowMessage.WM_DESTROY => (s, e)
  | WindowMessage.WM_KEYDOWN =>
    if maskRepeatBit lParam = 0 then (s, Engine_SetKeyState e (wrapInt32 wParam) true true)
    else (s, e)
  | WindowMessage.WM_KEYUP => (s, Engine_SetKeyState e (wrapInt32 wParam) false false)
  | WindowMessage.WM_MOUSEMOVE =>
    (s, Engine_SetMousePosition e ((GET_X_LPARAM lParam : Int) : α)
      ((GET_Y_LPARAM lParam : Int) : α))
  | WindowMessage.WM_LBUTTONDOWN => (s, Engine_SetMouseButtonState e 0 true)
  | WindowMessage.WM_LBUTTONUP => (s, Engine_SetMouseButtonState e 0 false)
  | WindowMessage.WM_RBUTTONDOWN => (s, Engine_SetMouseButtonState e 1 true)
  | WindowMessage.WM_RBUTTONUP => (s, Engine_SetMouseButtonState e 1 false)
  | WindowMessage.WM_MBUTTONDOWN => (s, Engine_SetMouseButtonState e 2 true)
  | WindowMessage.WM_MBUTTONUP => (s, Engine_SetMouseButtonState e 2 false)
  | _ => (s, e)

/-- The static method `D3D12Renderer::WindowProc`, acting on the renderer and on
the globals of the engine. `hasRenderer` tells whether the window user data
holds the renderer. `WM_CLOSE` calls `DestroyWindow`, which sends `WM_DESTROY`
to this procedure before it returns; what `PostQuitMessage` and `DefWindowProc`
do is outside the state kept here. -/
def D3D12Renderer.WindowProc [IntCast α] (hasRenderer : Bool) (s : D3D12Renderer)
    (e : EngineState α) (message : WindowMessage) (wParam lParam : Int) :
    D3D12Renderer × EngineState α :=
  match message with
  | WindowMessage.WM_CREATE => (s, e)
  | WindowMessage.WM_DESTROY =>
    (if hasRenderer then D3D12Renderer.SetRunning s false else s, e)
  | WindowMessage.WM_CLOSE =>
    let s1 := if hasRenderer then D3D12Renderer.SetRunning s false else s
    (if hasRenderer then D3D12Renderer.SetRunning s1 false else s1, e)
  | WindowMessage.WM_KEYDOWN =>
    if maskRepeatBit lParam = 0 then (s, Engine_SetKeyState e (wrapInt32 wParam) true true)
    else (s, e)
  | WindowMessage.WM_KEYUP => (s, Engine_SetKeyState e (wrapInt32 wParam) false false)
  | WindowMessage.WM_MOUSEMOVE =>
    (s, Engine_SetMousePosition e ((GET_X_LPARAM lParam : Int) : α)
      ((GET_Y_LPARAM lParam : Int) : α))
  | WindowMessage.WM_LBUTTONDOWN => (s, Engine_SetMouseButtonState e 0 true)
  | WindowMessage.WM_LBUTTONUP => (s, Engine_SetMouseButtonState e 0 false)
  | WindowMessage.WM_RBUTTONDOWN => (s, Engine_SetMouseButtonState e 1 true)
  | WindowMessage.WM_RBUTTONUP => (s, Engine_SetMouseButtonState e 1 false)
  | WindowMessage.WM_MBUTTONDOWN => (s, Engine_SetMouseButtonState e 2 true)
  | WindowMessage.WM_MBUTTONUP => (s, Engine_SetMouseButtonState e 2 false)
  | _ => (s, e)

/-- The method `D3D11Renderer::BeginFrame`: the loop over the messages that
`PeekMessage` returns, in order. `WM_QUIT` clears the running flag and has no
window to be dispatched to; every other message is dispatched to `WindowProc`. -/
def D3D11Renderer.BeginFrame [IntCast α] :
    D3D11Renderer α → EngineState α → List MSG → D3D11Renderer α × EngineState α
  | s, e, [] => (s, e)
  | s, e, msg :: rest =>
    if msg.message = WindowMessage.WM_QUIT then
      D3D11Renderer.BeginFrame { s with m_isRunning := false } e rest
    else
      let r := D3D11Renderer.WindowProc true s e msg.message msg.wParam msg.lParam
      D3D11Renderer.BeginFrame r.1 r.2 rest

end Engine

/-! ## The engine: frames, shutdown, the renderer wrappers and the queries -/

/-- The method `D3D11Renderer::EndFrame`: it does nothing. -/
def D3D11Renderer.EndFrame {α : Type} (s : D3D11Renderer α) : D3D11Renderer α := s

/-- The method `D3D11Renderer::Present`: it presents the swap chain, which is
outside the state kept here. -/
def D3D11Renderer.Present {α : Type} (s : D3D11Renderer α) : D3D11Renderer α := s

/-- The method `D3D11Renderer::Clear`: it stores the colour in `m_clearColor`,
which nothing else reads, and clears the two views; neither is part of the
state kept here. -/
def D3D11Renderer.Clear {α : Type} (s : D3D11Renderer α) (_r _g _b _a : α) :
    D3D11Renderer α := s

/-- The events that `SDL_PollEvent` can return, with the fields that the event
loop of `Engine_BeginFrame` reads; `keyRepeat` is `event.key.repeat`. -/
inductive SDL_Event where
  | SDL_QUIT
  | SDL_KEYDOWN (sym : Int) (keyRepeat : Nat)
  | SDL_KEYUP (sym : Int)
  | SDL_MOUSEMOTION (x y : Int)
  | SDL_MOUSEBUTTONDOWN (button : Nat)
  | SDL_MOUSEBUTTONUP (button : Nat)
  | other (type : Nat)
deriving DecidableEq, Repr

/-- Outcome of the library calls of `g_renderer->LoadTexture`, for whichever
backend is held. -/
structure RendererLoadEnv where
  sdl2 : SDL2LoadEnv
  d3d11 : D3D11LoadEnv
deriving DecidableEq, Repr

section EngineFrames

variable {α : Type}

/-- The virtual call `g_renderer->SetRunning(running)`. -/
def Renderer.SetRunning (renderer : Renderer α) (running : Bool) : Renderer α :=
  match renderer with
  | Renderer.sdl2 r => Renderer.sdl2 (SDL2Renderer.SetRunning r running)
  | Renderer.d3d11 r => Renderer.d3d11 (D3D11Renderer.SetRunning r running)
  | Renderer.d3d12 r => Renderer.d3d12 (D3D12Renderer.SetRunning r running)

/-- The virtual call `g_renderer->UnloadTexture(textureId)`. -/
def Renderer.UnloadTexture (renderer : Renderer α) (textureId : Int) : Renderer α :=
  match renderer with
  | Renderer.sdl2 r => Renderer.sdl2 (SDL2Renderer.UnloadTexture r textureId)
  | Renderer.d3d11 r => Renderer.d3d11 (D3D11Renderer.UnloadTexture r textureId)
  | Renderer.d3d12 r => Renderer.d3d12 (D3D12Renderer.UnloadTexture r textureId)

/-- The virtual call `g_renderer->LoadTexture(filePath)`: the returned id and
the new state of the renderer. -/
def Renderer.LoadTexture (renderer : Renderer α) (env : RendererLoadEnv) (filePath : String) :
    Int × Renderer α :=
  match renderer with
  | Renderer.sdl2 r =>
    let x := SDL2Renderer.LoadTexture r env.sdl2
    (x.1, Renderer.sdl2 x.2)
  | Renderer.d3d11 r =>
    let x := D3D11Renderer.LoadTexture r env.d3d11
    (x.1, Renderer.d3d11 x.2)
  | Renderer.d3d12 r =>
    let x := D3D12Renderer.LoadTexture r filePath
    (x.1, Renderer.d3d12 x.2)

/-- The virtual call `g_renderer->EndFrame()`: `none` when it fails. -/
def Renderer.EndFrame (renderer : Renderer α) : Option (Renderer α) :=
  match renderer with
  | Renderer.sdl2 r => some (Renderer.sdl2 (SDL2Renderer.EndFrame r))
  | Renderer.d3d11 r => some (Renderer.d3d11 (D3D11Renderer.EndFrame r))
  | Renderer.d3d12 r => (D3D12Renderer.EndFrame r).map Renderer.d3d12

/-- The virtual call `g_renderer->Present()`: `none` when it fails. The last
two arguments are the progress of the GPU and the next back-buffer index, which
only the Direct3D 12 backend reads. -/
def Renderer.Present (renderer : Renderer α) (gpuBeforeFenceCheck : Nat)
    (backBufferIndex : Fin 2) : Option (Renderer α) :=
  match renderer with
  | Renderer.sdl2 r => some (Renderer.sdl2 (SDL2Renderer.Present r))
  | Renderer.d3d11 r => some (Renderer.d3d11 (D3D11Renderer.Present r))
  | Renderer.d3d12 r =>
    (D3D12Renderer.Present r gpuBeforeFenceCheck backBufferIndex).map Renderer.d3d12

/-- The function `Engine_Shutdown`: `none` when shutting the renderer down
fails. `g_renderer.reset()` runs the destructor of the renderer, which calls
`Shutdown` once more. What `SDL_Quit` does is outside the state kept here. -/
def Engine_Shutdown (e : EngineState α) : Option (EngineState α) :=
  if !e.g_isInitialized then some e
  else
    let released : Option (EngineState α) :=
      match e.g_renderer with
      | some renderer =>
        match Renderer.Shutdown renderer with
        | none => none
        | some r1 =>
          match Renderer.Shutdown r1 with
          | none => none
          | some _ => some { e with g_renderer := none }
      | none => some e
    released.map fun e1 => { e1 with g_isInitialized := false, g_isRunning := false }

/-- The function `Engine_IsRunning`. -/
def Engine_IsRunning (e : EngineState α) : Bool :=
  e.g_isRunning &&
    match e.g_renderer with
    | some renderer => Renderer.IsRunning renderer
    | none => false

/-- The block "Clear previous frame input states" of `Engine_BeginFrame`. -/
def clearPreviousFrameInput (e : EngineState α) : EngineState α :=
  { e with g_keyPressed := e.g_keyPressed.clear, g_keyReleased := e.g_keyReleased.clear,
           g_mouseButtonPressed := e.g_mouseButtonPressed.clear,
           g_mouseButtonReleased := e.g_mouseButtonReleased.clear }

/-- The body of the `switch (event.type)` in the event loop of
`Engine_BeginFrame`, for one event returned by `SDL_PollEvent`. -/
def handleSDLEvent [IntCast α] (e : EngineState α) (event : SDL_Event) : EngineState α :=
  match event with
  | SDL_Event.SDL_QUIT =>
    let e1 := { e with g_isRunning := false }
    match e1.g_renderer with
    | some renderer => { e1 with g_renderer := some (Renderer.SetRunning renderer false) }
    | none => e1
  | SDL_Event.SDL_KEYDOWN sym keyRepeat =>
    if keyRepeat = 0 then
      let e1 := { e with g_keyStates := e.g_keyStates.assign sym true }
      let e2 := { e1 with g_keyPressed := e1.g_keyPressed.assign sym true }
      match e2.g_inputCallback with
      | some _ => { e2 with inputCallbackCalls := e2.inputCallbackCalls ++ [(sym, true)] }
      | none => e2
    else e
  | SDL_Event.SDL_KEYUP sym =>
    let e1 := { e with g_keyStates := e.g_keyStates.assign sym false }
    let e2 := { e1 with g_keyReleased := e1.g_keyReleased.assign sym true }
    match e2.g_inputCallback with
    | some _ => { e2 with inputCallbackCalls := e2.inputCallbackCalls ++ [(sym, false)] }
    | none => e2
  | SDL_Event.SDL_MOUSEMOTION x y => { e with g_mouseX := (x : α), g_mouseY := (y : α) }
  | _ => e

/-- The block "Begin renderer frame" of `Engine_BeginFrame`: the virtual call
`g_renderer->BeginFrame()` when a renderer is held; `messages` are the window
messages that `PeekMessage` returns in `D3D11Renderer::BeginFrame`; `none` when
the call fails. -/
def beginRendererFrame [IntCast α] (e : EngineState α) (messages : List MSG) :
    Option (EngineState α) :=
  match e.g_renderer with
  | none => some e
  | some (Renderer.sdl2 r) => some { e with g_renderer := some (Renderer.sdl2 r.BeginFrame) }
  | some (Renderer.d3d11 r) =>
    let x := D3D11Renderer.BeginFrame r e messages
    some { x.2 with g_renderer := some (Renderer.d3d11 x.1) }
  | some (Renderer.d3d12 r) =>
    (D3D12Renderer.BeginFrame r).map fun r1 =>
      { e with g_renderer := some (Renderer.d3d12 r1) }

/-- The function `Engine_BeginFrame`, without the clock: `events` are the
events that `SDL_PollEvent` returns, in order, and `messages` the window
messages that `PeekMessage` returns in `D3D11Renderer::BeginFrame`; `none` when
`g_renderer->BeginFrame()` fails. -/
def Engine_BeginFrame [IntCast α] (cfg : BuildConfig) (e : EngineState α)
    (events : List SDL_Event) (messages : List MSG) : Option (EngineState α) :=
  let e1 := clearPreviousFrameInput e
  let e2 := if cfg.hasSDL2 then events.foldl handleSDLEvent e1 else e1
  beginRendererFrame e2 messages

/-- The function `Engine_EndFrame`: `none` when `g_renderer->EndFrame()` fails. -/
def Engine_EndFrame (e : EngineState α) : Option (EngineState α) :=
  match e.g_renderer with
  | none => some e
  | some renderer =>
    (Renderer.EndFrame renderer).map fun r1 => { e with g_renderer := some r1 }

/-- The function `Renderer_LoadTexture`: the returned id and the new globals. -/
def Renderer_LoadTexture (e : EngineState α) (env : RendererLoadEnv) (filePath : String) :
    Int × EngineState α :=
  match e.g_renderer with
  | none => (-1, e)
  | some renderer =>
    let x := Renderer.LoadTexture renderer env filePath
    (x.1, { e with g_renderer := some x.2 })

/-- The function `Renderer_UnloadTexture`. -/
def Renderer_UnloadTexture (e : EngineState α) (textureId : Int) : EngineState α :=
  match e.g_renderer with
  | none => e
  | some renderer => { e with g_renderer := some (Renderer.UnloadTexture renderer textureId) }

/-- The function `Renderer_Present`: `none` when `g_renderer->Present()` fails. -/
def Renderer_Present (e : EngineState α) (gpuBeforeFenceCheck : Nat)
    (backBufferIndex : Fin 2) : Option (EngineState α) :=
  match e.g_renderer with
  | none => some e
  | some renderer =>
    (Renderer.Present renderer gpuBeforeFenceCheck backBufferIndex).map fun r1 =>
      { e with g_renderer := some r1 }

/-- The function `Input_IsKeyPressed`. -/
def Input_IsKeyPressed (e : EngineState α) (keyCode : Int) : Bool :=
  (e.g_keyPressed.find keyCode).isSome

/-- The function `Input_IsKeyDown`. -/
def Input_IsKeyDown (e : EngineState α) (keyCode : Int) : Bool :=
  match e.g_keyStates.find keyCode with
  | some down => down
  | none => false

/-- The function `Input_IsKeyReleased`. -/
def Input_IsKeyReleased (e : EngineState α) (keyCode : Int) : Bool :=
  (e.g_keyReleased.find keyCode).isSome

/-- The function `Input_GetMousePosition`: the values written to `*outX` and
`*outY`. -/
def Input_GetMousePosition (e : EngineState α) : α × α := (e.g_mouseX, e.g_mouseY)

/-- The function `Input_IsMouseButtonPressed`. -/
def Input_IsMouseButtonPressed (e : EngineState α) (button : Int) : Bool :=
  (e.g_mouseButtonPressed.find button).isSome

/-- The function `Engine_RegisterInputCallback`; `none` is a null pointer. -/
def Engine_RegisterInputCallback (e : EngineState α) (callback : Option Nat) :
    EngineState α :=
  { e with g_inputCallback := callback }

/-- The function `Engine_RegisterCollisionCallback`; `none` is a null pointer. -/
def Engine_RegisterCollisionCallback (e : EngineState α) (callback : Option Nat) :
    EngineState α :=
  { e with g_collisionCallback := callback }

end EngineFrames

section EngineDrawing

variable {α : Type} [LinearOrderedField α] [FloorRing α]

/-- The virtual call `g_renderer->DrawSprite(...)`; `env` is the outcome of the
driver calls, which only the Direct3D 11 backend makes. -/
def Renderer.DrawSprite (sc : SinCos α) (renderer : Renderer α) (env : D3D11DrawEnv)
    (textureId : Int) (x y width height rotation : α) : Renderer α :=
  match renderer with
  | Renderer.sdl2 r => Renderer.sdl2 (SDL2Renderer.DrawSprite r textureId x y width height rotation)
  | Renderer.d3d11 r =>
    Renderer.d3d11 (D3D11Renderer.DrawSprite sc r env textureId x y width height rotation)
  | Renderer.d3d12 r =>
    Renderer.d3d12 (D3D12Renderer.DrawSprite r textureId x y width height rotation)

/-- The virtual call `g_renderer->DrawRect(...)`; `env` is the outcome of the
driver calls, which only the Direct3D 11 backend makes. -/
def Renderer.DrawRect (renderer : Renderer α) (env : D3D11DrawEnv)
    (x y width height r g b a : α) : Renderer α :=
  match renderer with
  | Renderer.sdl2 s => Renderer.sdl2 (SDL2Renderer.DrawRect s x y width height r g b a)
  | Renderer.d3d11 s => Renderer.d3d11 (D3D11Renderer.DrawRect s env x y width height r g b a)
  | Renderer.d3d12 s => Renderer.d3d12 (D3D12Renderer.DrawRect s x y width height r g b a)

/-- The virtual call `g_renderer->Clear(r, g, b, a)`: `none` when it fails. -/
def Renderer.Clear (renderer : Renderer α) (r g b a : α) : Option (Renderer α) :=
  match renderer with
  | Renderer.sdl2 s => some (Renderer.sdl2 (SDL2Renderer.Clear s r g b a))
  | Renderer.d3d11 s => some (Renderer.d3d11 (D3D11Renderer.Clear s r g b a))
  | Renderer.d3d12 s => (D3D12Renderer.Clear s).map Renderer.d3d12

/-- The function `Renderer_DrawSprite`. -/
def Renderer_DrawSprite (sc : SinCos α) (e : EngineState α) (env : D3D11DrawEnv)
    (textureId : Int) (x y width height rotation : α) : EngineState α :=
  match e.g_renderer with
  | none => e
  | some renderer =>
    let r1 := Renderer.DrawSprite sc renderer env textureId x y width height rotation
    { e with g_renderer := some r1 }

/-- The function `Renderer_Clear`: `none` when `g_renderer->Clear(...)` fails. -/
def Renderer_Clear (e : EngineState α) (r g b a : α) : Option (EngineState α) :=
  match e.g_renderer with
  | none => some e
  | some renderer =>
    (Renderer.Clear renderer r g b a).map fun r1 => { e with g_renderer := some r1 }

/-- The function `Renderer_DrawRect`. -/
def Renderer_DrawRect (e : EngineState α) (env : D3D11DrawEnv)
    (x y width height r g b a : α) : EngineState α :=
  match e.g_renderer with
  | none => e
  | some renderer =>
    { e with g_renderer := some (Renderer.DrawRect renderer env x y width height r g b a) }

/-- The function `Physics_CheckCollision`. -/
def Physics_CheckCollision (x1 y1 w1 h1 x2 y2 w2 h2 : α) : Bool :=
  decide (x1 < x2 + w2) && decide (x1 + w1 > x2) && decide (y1 < y2 + h2) &&
    decide (y1 + h1 > y2)

end EngineDrawing

/-! ## The Direct3D 11 rasterizer state (`CreateRasterizerState`) -/

/-- The values of `D3D11_CULL_MODE`. -/
inductive D3D11_CULL_MODE where
  | D3D11_CULL_NONE
  | D3D11_CULL_FRONT
  | D3D11_CULL_BACK
deriving DecidableEq, Repr

/-- The fields of `D3D11_RASTERIZER_DESC` that decide which triangles are
rasterized. -/
structure D3D11_RASTERIZER_DESC where
  CullMode : D3D11_CULL_MODE
  FrontCounterClockwise : Bool
deriving DecidableEq, Repr

/-- The descriptor that `D3D11Renderer::CreateRasterizerState` fills in and
binds with `RSSetState`. -/
def D3D11Renderer.rasterizerDesc : D3D11_RASTERIZER_DESC :=
  { CullMode := D3D11_CULL_MODE.D3D11_CULL_BACK, FrontCounterClockwise := false }

/-! ## Definitions used to state the properties -/

/-- Rotation of the plane vector `(a, b)` by the angle whose cosine is `c` and
whose sine is `s` (counter-clockwise for `y` pointing up). -/
def rotate {α : Type} [Field α] (c s a b : α) : α × α := (a * c - b * s, a * s + b * c)

/-- The values that a sequence of texture operations is expected to return
when the next free id is `next`: a load that succeeds returns `next` and moves
on to `next + 1`, a load that fails returns `-1` and keeps `next`, an unload
returns nothing and keeps `next`. -/
def predictedIds {Env : Type} (succeeds : Env → Bool) : Int → List (TextureOp Env) → List Int
  | _, [] => []
  | next, TextureOp.load env :: ops =>
    if succeeds env then next :: predictedIds succeeds (next + 1) ops
    else -1 :: predictedIds succeeds next ops
  | next, TextureOp.unload _ :: ops => predictedIds succeeds next ops

/-- The number of loads in a sequence of texture operations that succeed. -/
def successfulLoads {Env : Type} (succeeds : Env → Bool) : List (TextureOp Env) → Nat
  | [] => 0
  | TextureOp.load env :: ops =>
    if succeeds env then successfulLoads succeeds ops + 1 else successfulLoads succeeds ops
  | TextureOp.unload _ :: ops => successfulLoads succeeds ops

/-- The next-id counter is at least 1, and every key of the texture table is at
least 1 and below the counter. -/
def KeysInRange {τ : Type} (m : StdMap τ) (next : Int) : Prop :=
  1 ≤ next ∧ ∀ k ∈ m.keys, 1 ≤ k ∧ k < next

instance {τ : Type} (m : StdMap τ) (next : Int) : Decidable (KeysInRange m next) := by
  unfold KeysInRange; infer_instance

/-- An `Initialize` of the Direct3D 11 backend in which every step succeeds. -/
def D3D11InitEnv.allOk : D3D11InitEnv :=
  ⟨some 1, true, true, true, true, true, true, true, true, true, true, true⟩

/-- A draw call of the Direct3D 11 backend in which every driver call succeeds. -/
def D3D11DrawEnv.allOk : D3D11DrawEnv := ⟨true, true, true⟩

/-- A `LoadTexture` of the Direct3D 11 backend that succeeds for a 64x32 image. -/
def D3D11LoadEnv.allOk (texture srv : Nat) : D3D11LoadEnv :=
  ⟨true, true, true, 64, 32, true, true, true, some texture, some srv⟩

/-- A `LoadTexture` of the Direct3D 11 backend whose file cannot be decoded. -/
def D3D11LoadEnv.noDecoder : D3D11LoadEnv :=
  ⟨true, false, true, 0, 0, true, true, true, none, none⟩

/-- The Direct3D 11 renderer after a successful `Initialize(800, 600, title)`. -/
def D3D11Renderer.window800x600 {α : Type} [Field α] [DecidableEq α] : D3D11Renderer α :=
  (D3D11Renderer.Initialize D3D11Renderer.new D3D11InitEnv.allOk 800 600).2

/-- An `Initialize` of the SDL2 backend in which every call succeeds. -/
def SDL2InitEnv.allOk : SDL2InitEnv := ⟨true, some 1, some 2⟩

/-- The SDL2 renderer after a successful `Initialize(800, 600, title)`. -/
def SDL2Renderer.window800x600 {α : Type} [LinearOrderedField α] [FloorRing α] :
    SDL2Renderer α :=
  (SDL2Renderer.Initialize SDL2Renderer.new SDL2InitEnv.allOk 800 600).2

/-- An `Initialize` of the Direct3D 12 backend in which every step succeeds and
the swap chain reports `backBufferIndex` as its first back buffer. -/
def D3D12InitEnv.allOk (backBufferIndex : Fin 2) : D3D12InitEnv :=
  ⟨some 1, true, true, some backBufferIndex, true, true, true, true, true, true, some 7,
    true, true, true⟩

/-- A `LoadTexture` of the SDL2 backend in which both SDL calls succeed. -/
def SDL2LoadEnv.allOk (surface texture : Nat) : SDL2LoadEnv := ⟨some surface, some texture⟩

/-- A `LoadTexture` of the SDL2 backend whose file cannot be read. -/
def SDL2LoadEnv.noFile : SDL2LoadEnv := ⟨none, none⟩

/-- A sample run of the SDL2 backend: a load, a failed load, an unload of the
first texture and another load. -/
def SDL2Renderer.sampleOps : List (TextureOp SDL2LoadEnv) :=
  [TextureOp.load (SDL2LoadEnv.allOk 5 9), TextureOp.load SDL2LoadEnv.noFile,
   TextureOp.unload 1, TextureOp.load (SDL2LoadEnv.allOk 6 10)]

/-- A sample run of the Direct3D 11 backend: a load, a failed load, an unload of
the first texture and another load. -/
def D3D11Renderer.sampleOps : List (TextureOp D3D11LoadEnv) :=
  [TextureOp.load (D3D11LoadEnv.allOk 10 11), TextureOp.load D3D11LoadEnv.noDecoder,
   TextureOp.unload 1, TextureOp.load (D3D11LoadEnv.allOk 12 13)]

/-- Four frame cycles with two alternating back buffers and a GPU that executes
nothing unless the CPU waits for it. -/
def FrameEnv.alternating4 : List FrameEnv := [⟨0, 0, 1⟩, ⟨0, 0, 0⟩, ⟨0, 0, 1⟩, ⟨0, 0, 0⟩]

/-- The fence can still reach `target`: it has reached it, or a pending
`Signal` carries a value at least `target`. -/
def FenceCanReach (target : Nat) (pending : List QueueItem) (completed : Nat) : Prop :=
  target ≤ completed ∨ ∃ v ∈ signalValues pending, target ≤ v

/-- The completed value followed by the pending signal values is ascending and
bounded by `n`. -/
def GpuOrdered (n : Nat) (pending : List QueueItem) (completed : Nat) : Prop :=
  List.Pairwise (· ≤ ·) (completed :: signalValues pending)
    ∧ ∀ v ∈ completed :: signalValues pending, v ≤ n

/-- Invariant of the Direct3D 12 frame loop after `n` frame cycles, for the
renderer `s` with command queue `q` and fence `f`. -/
structure FrameInv (n : Nat) (s : D3D12Renderer) (q : CommandQueue) (f : Fence) : Prop where
  queue : s.m_commandQueue = some q
  fence : s.m_fence = some f
  allocators : s.m_commandAllocators = true
  rootSignature : s.m_rootSignature = true
  renderTargets : s.m_renderTargets = true
  descriptorHeaps : s.m_descriptorHeaps = true
  swapChain : s.m_swapChain = true
  commandList : ∃ cl, s.m_commandList = some cl
  fenceEvent : ∃ ev, s.m_fenceEvent = some ev
  signalled : q.signalled = List.range n
  current : s.m_fenceValues s.m_frameIndex = n
  bound : ∀ j, s.m_fenceValues j ≤ n
  boundary : q.submitted = [] ∨ ∃ v rest, q.submitted = QueueItem.signal v :: rest
  lastUse : ∀ j v, signalAfterLastUse j q.submitted none = some v →
    (j = s.m_frameIndex → v ≤ f.completedValue) ∧ (j ≠ s.m_frameIndex → v ≤ s.m_fenceValues j)
  gpu : GpuOrdered n q.pending f.completedValue

/-- The Direct3D 11 renderer after a successful `Initialize(800, 600, title)` and
one successful `LoadTexture`, which returned id 1. -/
def D3D11Renderer.loaded800x600 {α : Type} [Field α] [DecidableEq α] : D3D11Renderer α :=
  (D3D11Renderer.LoadTexture D3D11Renderer.window800x600 (D3D11LoadEnv.allOk 10 11)).2

/-- The Direct3D 12 renderer after a successful `Initialize(800, 600, title)`,
with back buffer 0 current. -/
def D3D12Renderer.window800x600 : D3D12Renderer :=
  (D3D12Renderer.Initialize D3D12Renderer.new (D3D12InitEnv.allOk 0) 800 600).2

/-- An `Initialize` that succeeds whichever backend is constructed. -/
def RendererInitEnv.allOk : RendererInitEnv :=
  ⟨SDL2InitEnv.allOk, D3D11InitEnv.allOk, D3D12InitEnv.allOk 0⟩

/-- A draw call of the Direct3D 11 backend in which mapping the vertex buffer
fails and every other driver call succeeds. -/
def D3D11DrawEnv.mapFails : D3D11DrawEnv := ⟨true, false, true⟩

/-- A build without `_WIN32` and with `HAS_SDL2`. -/
def BuildConfig.sdl2Only : BuildConfig := ⟨false, true⟩

/-- A build with `_WIN32` and without `HAS_SDL2`. -/
def BuildConfig.windowsOnly : BuildConfig := ⟨true, false⟩

/-- The globals after `Engine_Initialize(800, 600, title)` has succeeded at
program start, for the given build and value of `CHRONICLES_RENDERER`; the
globals at program start when it has not. -/
def EngineState.initialized (cfg : BuildConfig) (rendererEnv : Option String) : EngineState ℚ :=
  match Engine_Initialize cfg EngineState.initial rendererEnv RendererInitEnv.allOk 800 600
      "Chronicles" with
  | some (true, e) => e
  | _ => EngineState.initial

/-- A sequence of `Engine_SetKeyState(keyCode, isDown, isPressed)` calls, in
order. -/
def setKeyStates {α : Type} (e : EngineState α) (calls : List (Int × Bool × Bool)) :
    EngineState α :=
  calls.foldl (fun e1 c => Engine_SetKeyState e1 c.1 c.2.1 c.2.2) e

/-- The `isDown` argument of the most recent call for `keyCode` in a sequence
of `Engine_SetKeyState` calls, `none` when there is no such call. -/
def lastIsDown (keyCode : Int) : List (Int × Bool × Bool) → Option Bool
  | [] => none
  | c :: calls =>
    match lastIsDown keyCode calls with
    | some d => some d
    | none => if c.1 = keyCode then some c.2.1 else none

/-- Some point lies strictly inside both boxes `(x1, y1, w1, h1)` and
`(x2, y2, w2, h2)`. -/
def InteriorsMeet {α : Type} [LT α] [Add α] (x1 y1 w1 h1 x2 y2 w2 h2 : α) : Prop :=
  ∃ px py, (x1 < px ∧ px < x1 + w1 ∧ y1 < py ∧ py < y1 + h1)
    ∧ (x2 < px ∧ px < x2 + w2 ∧ y2 < py ∧ py < y2 + h2)

/-- The triangles that a `Draw` call assembles from a vertex list under
`D3D11_PRIMITIVE_TOPOLOGY_TRIANGLELIST`: consecutive triples. -/
def triangleList {β : Type} : List β → List (β × β × β)
  | a :: b :: c :: rest => (a, b, c) :: triangleList rest
  | _ => []

/-- Twice the signed area of a triangle of vertex positions in normalized
device space, with `y` pointing up: negative when the vertices are in clockwise
order. -/
def signedArea2 {α : Type} [Field α] (t : XMFLOAT3 α × XMFLOAT3 α × XMFLOAT3 α) : α :=
  (t.2.1.x - t.1.x) * (t.2.2.y - t.1.y) - (t.2.2.x - t.1.x) * (t.2.1.y - t.1.y)

/-- The culling rule of the Direct3D 11 rasterizer: a triangle is front-facing
when its vertices are counter-clockwise and `FrontCounterClockwise` is set, or
clockwise and it is not; `D3D11_CULL_BACK` removes the triangles that are not
front-facing, `D3D11_CULL_FRONT` those that are. -/
def isCulled {α : Type} [LinearOrderedField α] (desc : D3D11_RASTERIZER_DESC)
    (t : XMFLOAT3 α × XMFLOAT3 α × XMFLOAT3 α) : Bool :=
  let frontFacing : Bool :=
    if desc.FrontCounterClockwise then decide (0 < signedArea2 t)
    else decide (signedArea2 t < 0)
  match desc.CullMode with
  | D3D11_CULL_MODE.D3D11_CULL_NONE => false
  | D3D11_CULL_MODE.D3D11_CULL_FRONT => frontFacing
  | D3D11_CULL_MODE.D3D11_CULL_BACK => !frontFacing

/-- The six positions of a quad with centre `(cx, cy)` and half extents `a`
and `b`, turned by the angle with cosine `c` and sine `s`, in the vertex order
top-left, top-right, bottom-left, top-right, bottom-right, bottom-left. -/
def rotatedQuad {α : Type} [Field α] (cx cy a b c s : α) : List (XMFLOAT3 α) :=
  let p := fun dx dy : α => (⟨cx + (rotate c s dx dy).1, cy + (rotate c s dx dy).2, 0⟩ : XMFLOAT3 α)
  [p (-a) b, p a b, p (-a) (-b), p a b, p a (-b), p (-a) (-b)]

/-- The viewport transform set up by `D3D11Renderer::Initialize` (top-left
corner `(0, 0)`, size `m_width` by `m_height`): the pixel column of a
normalized device `x`. -/
def viewportX {α : Type} [Field α] (m_width : Int) (x : α) : α := (x + 1) / 2 * (m_width : α)

/-- The viewport transform set up by `D3D11Renderer::Initialize`: the pixel row
(counted downward) of a normalized device `y`. -/
def viewportY {α : Type} [Field α] (m_height : Int) (y : α) : α := (1 - y) / 2 * (m_height : α)

/-- An `Initialize` of the Direct3D 12 backend in which the window and the
device are created and `CreateCommandQueue` fails. -/
def D3D12InitEnv.noCommandQueue : D3D12InitEnv :=
  { D3D12InitEnv.allOk 0 with createCommandQueue := false }

/-- An `Initialize` of the Direct3D 12 backend in which the window, the device
and the command queue are created and `CreateSwapChain` fails. -/
def D3D12InitEnv.noSwapChain : D3D12InitEnv :=
  { D3D12InitEnv.allOk 0 with createSwapChain := none }

/-- An `Initialize` of the Direct3D 12 backend in which everything up to the
fence and its event is created and `CreateCommandAllocator` fails. -/
def D3D12InitEnv.noCommandAllocators : D3D12InitEnv :=
  { D3D12InitEnv.allOk 0 with createCommandAllocators := false }

/-- A message of 300 bytes `A` without a NUL. -/
def longMessage : List Nat := List.replicate 300 65

/-- A sample sine and cosine over the rationals, that of the angle zero. -/
def SinCos.zeroAngle : SinCos ℚ := ⟨fun _ => 0, fun _ => 1⟩

/-- The error code and the error buffer of `e1` are those of `e`. -/
def SameErrorFields {α : Type} (e e1 : EngineState α) : Prop :=
  e1.g_lastError = e.g_lastError ∧ e1.g_errorMessage = e.g_errorMessage

/-- The error buffer has its 256 bytes and holds a NUL. -/
def TerminatedBuffer {α : Type} (e : EngineState α) : Prop :=
  e.g_errorMessage.length = 256 ∧ 0 ∈ e.g_errorMessage

/-- A call of an exported function that writes the globals, or a message
delivered to the window procedure of the renderer between two such calls. -/
inductive EngineCall (α : Type) where
  | Engine_Initialize (rendererEnv : Option String) (env : RendererInitEnv)
      (width height : Int) (title : String)
  | Engine_Shutdown
  | Engine_BeginFrame (events : List SDL_Event) (messages : List MSG)
  | Engine_EndFrame
  | Renderer_LoadTexture (env : RendererLoadEnv) (filePath : String)
  | Renderer_UnloadTexture (textureId : Int)
  | Renderer_DrawSprite (env : D3D11DrawEnv) (textureId : Int) (x y width height rotation : α)
  | Renderer_Clear (r g b a : α)
  | Renderer_DrawRect (env : D3D11DrawEnv) (x y width height r g b a : α)
  | Renderer_Present (gpuBeforeFenceCheck : Nat) (backBufferIndex : Fin 2)
  | Engine_RegisterInputCallback (callback : Option Nat)
  | Engine_RegisterCollisionCallback (callback : Option Nat)
  | Engine_SetKeyState (keyCode : Int) (isDown isPressed : Bool)
  | Engine_SetMousePosition (x y : α)
  | Engine_SetMouseButtonState (button : Int) (isDown : Bool)
  | windowMessage (msg : MSG)

section EngineCalls

variable {α : Type} [LinearOrderedField α] [FloorRing α]

/-- The globals after one call: `none` when the call fails. -/
def applyCall (cfg : BuildConfig) (sc : SinCos α) (e : EngineState α) :
    EngineCall α → Option (EngineState α)
  | EngineCall.Engine_Initialize rendererEnv env width height title =>
    (Engine_Initialize cfg e rendererEnv env width height title).map Prod.snd
  | EngineCall.Engine_Shutdown => Engine_Shutdown e
  | EngineCall.Engine_BeginFrame events messages => Engine_BeginFrame cfg e events messages
  | EngineCall.Engine_EndFrame => Engine_EndFrame e
  | EngineCall.Renderer_LoadTexture env filePath => some (Renderer_LoadTexture e env filePath).2
  | EngineCall.Renderer_UnloadTexture textureId => some (Renderer_UnloadTexture e textureId)
  | EngineCall.Renderer_DrawSprite env textureId x y width height rotation =>
    some (Renderer_DrawSprite sc e env textureId x y width height rotation)
  | EngineCall.Renderer_Clear r g b a => Renderer_Clear e r g b a
  | EngineCall.Renderer_DrawRect env x y width height r g b a =>
    some (Renderer_DrawRect e env x y width height r g b a)
  | EngineCall.Renderer_Present gpuBeforeFenceCheck backBufferIndex =>
    Renderer_Present e gpuBeforeFenceCheck backBufferIndex
  | EngineCall.Engine_RegisterInputCallback callback =>
    some (Engine_RegisterInputCallback e callback)
  | EngineCall.Engine_RegisterCollisionCallback callback =>
    some (Engine_RegisterCollisionCallback e callback)
  | EngineCall.Engine_SetKeyState keyCode isDown isPressed =>
    some (Engine_SetKeyState e keyCode isDown isPressed)
  | EngineCall.Engine_SetMousePosition x y => some (Engine_SetMousePosition e x y)
  | EngineCall.Engine_SetMouseButtonState button isDown =>
    some (Engine_SetMouseButtonState e button isDown)
  | EngineCall.windowMessage msg =>
    match e.g_renderer with
    | some (Renderer.d3d11 r) =>
      let x := D3D11Renderer.WindowProc true r e msg.message msg.wParam msg.lParam
      some { x.2 with g_renderer := some (Renderer.d3d11 x.1) }
    | some (Renderer.d3d12 r) =>
      let x := D3D12Renderer.WindowProc true r e msg.message msg.wParam msg.lParam
      some { x.2 with g_renderer := some (Renderer.d3d12 x.1) }
    | _ => some e

/-- The globals after a sequence of calls: `none` when one of them fails. -/
def runCalls (cfg : BuildConfig) (sc : SinCos α) :
    EngineState α → List (EngineCall α) → Option (EngineState α)
  | e, [] => some e
  | e, call :: calls =>
    match applyCall cfg sc e call with
    | none => none
    | some e1 => runCalls cfg sc e1 calls

end EngineCalls

/-! ## Lemmas about `StdMap` -/

namespace StdMap

variable {τ : Type}

theorem findEntries_eq_none_iff (l : List (Int × τ)) (k : Int) :
    findEntries l k = none ↔ k ∉ l.map Prod.fst := by
  induction l with
  | nil => simp [findEntries]
  | cons p l ih =>
    obtain ⟨k', v⟩ := p
    by_cases h : k' = k
    · simp [findEntries, h]
    · have h' : ¬ k = k' := fun e => h e.symm
      simp [findEntries, h, h', ih]

theorem find_eq_none_iff (m : StdMap τ) (k : Int) : m.find k = none ↔ k ∉ m.keys :=
  findEntries_eq_none_iff m.entries k

theorem find_erase_self (m : StdMap τ) (k : Int) : (m.erase k).find k = none := by
  rw [find_eq_none_iff]
  simp [erase, keys]

theorem erase_of_find_eq_none (m : StdMap τ) (k : Int) (h : m.find k = none) :
    m.erase k = m := by
  rw [find_eq_none_iff] at h
  cases m with
  | mk l =>
    simp only [erase, keys] at h ⊢
    congr 1
    rw [List.filter_eq_self]
    intro p hp
    simp only [decide_eq_true_eq]
    intro e
    exact h (List.mem_map.mpr ⟨p, hp, e⟩)

theorem mem_keys_erase (m : StdMap τ) (k j : Int) (h : j ∈ (m.erase k).keys) :
    j ∈ m.keys := by
  simp only [erase, keys, List.mem_map, List.mem_filter] at h ⊢
  obtain ⟨p, ⟨hp, _⟩, e⟩ := h
  exact ⟨p, hp, e⟩

theorem findEntries_assignEntries_self (l : List (Int × τ)) (k : Int) (v : τ) :
    findEntries (assignEntries l k v) k = some v := by
  induction l with
  | nil => simp [assignEntries, findEntries]
  | cons p l ih =>
    obtain ⟨k', v'⟩ := p
    by_cases h1 : k < k'
    · simp [assignEntries, h1, findEntries]
    · by_cases h2 : k = k'
      · simp [assignEntries, h2, findEntries]
      · have h3 : ¬ k' = k := fun e => h2 e.symm
        simp [assignEntries, h1, h2, h3, findEntries, ih]

theorem find_assign_self (m : StdMap τ) (k : Int) (v : τ) :
    (m.assign k v).find k = some v :=
  findEntries_assignEntries_self m.entries k v

theorem mem_keys_assignEntries (l : List (Int × τ)) (k j : Int) (v : τ) :
    j ∈ (assignEntries l k v).map Prod.fst ↔ j = k ∨ j ∈ l.map Prod.fst := by
  induction l with
  | nil => simp [assignEntries]
  | cons p l ih =>
    obtain ⟨k', v'⟩ := p
    by_cases h1 : k < k'
    · simp [assignEntries, h1]
    · by_cases h2 : k = k'
      · subst h2; simp [assignEntries]
      · simp only [assignEntries, h1, h2, if_false, List.map_cons, List.mem_cons, ih]
        tauto

theorem mem_keys_assign (m : StdMap τ) (k j : Int) (v : τ) :
    j ∈ (m.assign k v).keys ↔ j = k ∨ j ∈ m.keys :=
  mem_keys_assignEntries m.entries k j v

end StdMap

/-! ## Direct3D 11: vertex positions of `DrawRect` and `DrawSprite` -/

section D3D11Geometry

open D3D11Renderer

/-- C1. In the Direct3D 11 backend, over real arithmetic and for a window of
positive size, `DrawSprite` with `rotation = 0` computes the six vertex
positions `(L,T)`, `(R,T)`, `(L,B)`, `(R,T)`, `(R,B)`, `(L,B)` at `z = 0` with
`L = (x/W)*2-1`, `R = ((x+w)/W)*2-1`, `T = 1-(y/H)*2`, `B = 1-((y+h)/H)*2`;
these are the positions, in the same order, that `DrawRect` computes for the
same `(x, y, w, h)`, and the two calls leave the same positions in the vertex
buffer. -/
theorem d3d11_drawSprite_rotation_zero_matches_drawRect
    (sc : SinCos ℝ) (s : D3D11Renderer ℝ) (env : D3D11DrawEnv) (textureId : Int)
    (x y w h r g b a : ℝ) (hW : 0 < s.m_width) (hH : 0 < s.m_height) :
    (spriteVertices sc s.m_width s.m_height x y w h 0).map Vertex.position
      = [ ⟨(x / s.m_width) * 2 - 1, 1 - (y / s.m_height) * 2, 0⟩,
          ⟨((x + w) / s.m_width) * 2 - 1, 1 - (y / s.m_height) * 2, 0⟩,
          ⟨(x / s.m_width) * 2 - 1, 1 - ((y + h) / s.m_height) * 2, 0⟩,
          ⟨((x + w) / s.m_width) * 2 - 1, 1 - (y / s.m_height) * 2, 0⟩,
          ⟨((x + w) / s.m_width) * 2 - 1, 1 - ((y + h) / s.m_height) * 2, 0⟩,
          ⟨(x / s.m_width) * 2 - 1, 1 - ((y + h) / s.m_height) * 2, 0⟩ ]
    ∧ (spriteVertices sc s.m_width s.m_height x y w h 0).map Vertex.position
      = (rectVertices s.m_width s.m_height x y w h r g b a).map Vertex.position
    ∧ (DrawSprite sc s env textureId x y w h 0).m_vertexBuffer.map (List.map Vertex.position)
      = (DrawRect s env x y w h r g b a).m_vertexBuffer.map (List.map Vertex.position) := by
  have hW' : (s.m_width : ℝ) ≠ 0 := by exact_mod_cast hW.ne'
  have hH' : (s.m_height : ℝ) ≠ 0 := by exact_mod_cast hH.ne'
  have key : (spriteVertices sc s.m_width s.m_height x y w h 0).map Vertex.position
      = (rectVertices s.m_width s.m_height x y w h r g b a).map Vertex.position := by
    simp [spriteVertices, spriteCorners, rectVertices, XMVector3Transform, XMMatrixIdentity,
      XMVectorSet, XMVectorGetX, XMVectorGetY]
    refine ⟨⟨?_, ?_⟩, ⟨?_, ?_⟩, ⟨?_, ?_⟩, ⟨?_, ?_⟩, ⟨?_, ?_⟩, ?_, ?_⟩ <;> field_simp <;> ring
  refine ⟨?_, key, ?_⟩
  · rw [key]; simp [rectVertices]
  · cases hb : s.m_vertexBuffer with
    | none =>
      cases hc : env.createBufferOk <;>
        simp [DrawSprite, DrawRect, updateVertexBuffer, hb, hc, key]
    | some old =>
      cases hm : env.mapVertexBufferOk <;>
        simp [DrawSprite, DrawRect, updateVertexBuffer, hb, hm, key]

/-- Witness for C1: an 800x600 window and the quad `(100, 100, 50, 50)`. -/
theorem d3d11_drawSprite_rotation_zero_matches_drawRect_witness :
    (spriteVertices ⟨Real.sin, Real.cos⟩ 800 600 (100 : ℝ) 100 50 50 0).map Vertex.position
      = (rectVertices 800 600 (100 : ℝ) 100 50 50 1 0 0 1).map Vertex.position :=
  (d3d11_drawSprite_rotation_zero_matches_drawRect ⟨Real.sin, Real.cos⟩ window800x600
    D3D11DrawEnv.allOk 1 100 100 50 50 1 0 0 1 (by decide) (by decide)).2.1

/-- C2. In the Direct3D 11 backend, over real arithmetic and for a window of
positive size, `DrawRect` computes `left = (x/W)*2-1`, `right = ((x+w)/W)*2-1`,
`top = 1-(y/H)*2`, `bottom = 1-((y+h)/H)*2` and, when the vertex buffer can be
created or mapped, uploads the six vertices `(L,T)`, `(R,T)`, `(L,B)`, `(R,T)`,
`(R,B)`, `(L,B)` at `z = 0`, each with the colour `(r,g,b,a)`, and draws them
with one `Draw(6, 0)`. For `W = 800`, `H = 600` and the rectangle
`(100, 100, 50, 50)`: `left = -0.75`, `right = -0.625`, `top = 2/3` (within
`0.001` of `0.667`), `bottom = 0.5`. -/
theorem d3d11_drawRect_ndc_vertices
    (s : D3D11Renderer ℝ) (env : D3D11DrawEnv) (x y w h r g b a : ℝ)
    (hW : 0 < s.m_width) (hH : 0 < s.m_height)
    (hcreate : s.m_vertexBuffer = none → env.createBufferOk = true)
    (hmap : s.m_vertexBuffer ≠ none → env.mapVertexBufferOk = true) :
    let left := (x / s.m_width) * 2 - 1
    let right := ((x + w) / s.m_width) * 2 - 1
    let top := 1 - (y / s.m_height) * 2
    let bottom := 1 - ((y + h) / s.m_height) * 2
    let six : List (Vertex ℝ) :=
      [ ⟨⟨left, top, 0⟩, ⟨r, g, b, a⟩, ⟨0, 0⟩⟩,
        ⟨⟨right, top, 0⟩, ⟨r, g, b, a⟩, ⟨1, 0⟩⟩,
        ⟨⟨left, bottom, 0⟩, ⟨r, g, b, a⟩, ⟨0, 1⟩⟩,
        ⟨⟨right, top, 0⟩, ⟨r, g, b, a⟩, ⟨1, 0⟩⟩,
        ⟨⟨right, bottom, 0⟩, ⟨r, g, b, a⟩, ⟨1, 1⟩⟩,
        ⟨⟨left, bottom, 0⟩, ⟨r, g, b, a⟩, ⟨0, 1⟩⟩ ]
    (DrawRect s env x y w h r g b a).m_vertexBuffer = some six
    ∧ (DrawRect s env x y w h r g b a).draws
        = s.draws ++ [⟨6, 0, six, some ShaderResourceView.whiteTexture⟩]
    ∧ (s.m_width = 800 → s.m_height = 600 → x = 100 → y = 100 → w = 50 → h = 50 →
        left = -0.75 ∧ right = -0.625 ∧ top = 2 / 3 ∧ |top - 0.667| < 0.001
          ∧ bottom = 0.5) := by
  intro left right top bottom six
  have hW' : (s.m_width : ℝ) ≠ 0 := by exact_mod_cast hW.ne'
  have hH' : (s.m_height : ℝ) ≠ 0 := by exact_mod_cast hH.ne'
  refine ⟨?_, ?_, ?_⟩
  · cases hb : s.m_vertexBuffer with
    | none =>
      simp [DrawRect, updateVertexBuffer, hb, hcreate hb, rectVertices, six, left, right,
        top, bottom]
    | some old =>
      have := hmap (by simp [hb])
      simp [DrawRect, updateVertexBuffer, hb, this, rectVertices, six, left, right, top,
        bottom]
  · cases hb : s.m_vertexBuffer with
    | none =>
      simp [DrawRect, updateVertexBuffer, hb, hcreate hb, rectVertices, six, left, right,
        top, bottom]
    | some old =>
      have := hmap (by simp [hb])
      simp [DrawRect, updateVertexBuffer, hb, this, rectVertices, six, left, right, top,
        bottom]
  · intro h1 h2 h3 h4 h5 h6
    simp only [left, right, top, bottom, h1, h2, h3, h4, h5, h6]
    refine ⟨by norm_num, by norm_num, by norm_num, ?_, by norm_num⟩
    rw [abs_lt]; constructor <;> norm_num

/-- Witness for C2: the first `DrawRect(100, 100, 50, 50, 1, 0, 0, 1)` in an
800x600 window draws the quad with corners `(-0.75, 2/3)` and `(-0.625, 0.5)`. -/
theorem d3d11_drawRect_ndc_vertices_witness :
    (DrawRect (window800x600 : D3D11Renderer ℝ) D3D11DrawEnv.allOk 100 100 50 50 1 0 0 1).draws
      = [⟨6, 0,
          [ ⟨⟨-0.75, 2 / 3, 0⟩, ⟨1, 0, 0, 1⟩, ⟨0, 0⟩⟩,
            ⟨⟨-0.625, 2 / 3, 0⟩, ⟨1, 0, 0, 1⟩, ⟨1, 0⟩⟩,
            ⟨⟨-0.75, 0.5, 0⟩, ⟨1, 0, 0, 1⟩, ⟨0, 1⟩⟩,
            ⟨⟨-0.625, 2 / 3, 0⟩, ⟨1, 0, 0, 1⟩, ⟨1, 0⟩⟩,
            ⟨⟨-0.625, 0.5, 0⟩, ⟨1, 0, 0, 1⟩, ⟨1, 1⟩⟩,
            ⟨⟨-0.75, 0.5, 0⟩, ⟨1, 0, 0, 1⟩, ⟨0, 1⟩⟩ ],
          some ShaderResourceView.whiteTexture⟩] := by
  have h := d3d11_drawRect_ndc_vertices (window800x600 : D3D11Renderer ℝ) D3D11DrawEnv.allOk
    100 100 50 50 1 0 0 1 (by decide) (by decide) (fun _ => rfl) (fun _ => rfl)
  obtain ⟨-, hd, hv⟩ := h
  obtain ⟨hl, hr, ht, -, hb⟩ := hv rfl rfl rfl rfl rfl rfl
  rw [hd, hl, hr, ht, hb]
  rfl

/-- C3. In the Direct3D 11 backend, over real arithmetic, for every rotation
angle `t` and a window of positive size, `DrawSprite` rotates about the centre
of the quad and then translates: each corner is the centre
`((x+w/2)/W*2-1, 1-(y+h/2)/H*2)` plus the rotation by `t` of the unrotated
offset `(±w/W, ±h/H)` of that corner; the six vertices are these corners in the
order TL, TR, BL, TR, BR, BL, and the mean of the four corners is the centre. -/
theorem d3d11_drawSprite_rotates_about_centre (s : D3D11Renderer ℝ) (x y w h t : ℝ)
    (hW : 0 < s.m_width) (hH : 0 < s.m_height) :
    let cx := ((x + w / 2) / s.m_width) * 2 - 1
    let cy := 1 - ((y + h / 2) / s.m_height) * 2
    let rot := fun a b : ℝ => rotate (Real.cos t) (Real.sin t) a b
    let tl : XMVECTOR ℝ :=
      ⟨cx + (rot (-(w / s.m_width)) (h / s.m_height)).1,
       cy + (rot (-(w / s.m_width)) (h / s.m_height)).2, 0, 1⟩
    let tr : XMVECTOR ℝ :=
      ⟨cx + (rot (w / s.m_width) (h / s.m_height)).1,
       cy + (rot (w / s.m_width) (h / s.m_height)).2, 0, 1⟩
    let bl : XMVECTOR ℝ :=
      ⟨cx + (rot (-(w / s.m_width)) (-(h / s.m_height))).1,
       cy + (rot (-(w / s.m_width)) (-(h / s.m_height))).2, 0, 1⟩
    let br : XMVECTOR ℝ :=
      ⟨cx + (rot (w / s.m_width) (-(h / s.m_height))).1,
       cy + (rot (w / s.m_width) (-(h / s.m_height))).2, 0, 1⟩
    spriteCorners ⟨Real.sin, Real.cos⟩ s.m_width s.m_height x y w h t = [tl, tr, bl, br]
    ∧ (spriteVertices ⟨Real.sin, Real.cos⟩ s.m_width s.m_height x y w h t).map Vertex.position
        = [ ⟨tl.x, tl.y, 0⟩, ⟨tr.x, tr.y, 0⟩, ⟨bl.x, bl.y, 0⟩,
            ⟨tr.x, tr.y, 0⟩, ⟨br.x, br.y, 0⟩, ⟨bl.x, bl.y, 0⟩ ]
    ∧ (tl.x + tr.x + bl.x + br.x) / 4 = cx ∧ (tl.y + tr.y + bl.y + br.y) / 4 = cy := by
  intro cx cy rot tl tr bl br
  have hW' : (s.m_width : ℝ) ≠ 0 := by exact_mod_cast hW.ne'
  have hH' : (s.m_height : ℝ) ≠ 0 := by exact_mod_cast hH.ne'
  have hc : spriteCorners ⟨Real.sin, Real.cos⟩ s.m_width s.m_height x y w h t
      = [tl, tr, bl, br] := by
    by_cases ht : t = 0
    · subst ht
      simp [spriteCorners, XMVector3Transform, XMMatrixIdentity, XMVectorSet, XMVectorGetX,
        XMVectorGetY, tl, tr, bl, br, rot, rotate, cx, cy]
      refine ⟨⟨?_, ?_⟩, ⟨?_, ?_⟩, ⟨?_, ?_⟩, ?_, ?_⟩ <;> ring
    · simp [spriteCorners, ht, XMVector3Transform, XMMatrixRotationZ, XMVectorSet,
        XMVectorGetX, XMVectorGetY, tl, tr, bl, br, rot, rotate, cx, cy]
      refine ⟨⟨?_, ?_⟩, ⟨?_, ?_⟩, ⟨?_, ?_⟩, ?_, ?_⟩ <;> ring
  refine ⟨hc, ?_, ?_, ?_⟩
  · simp [spriteVertices, hc, XMVectorGetX, XMVectorGetY]
  · simp only [tl, tr, bl, br, rot, rotate]; ring
  · simp only [tl, tr, bl, br, rot, rotate]; ring

/-- Witness for C3: a half turn (`t = π`) of the quad `(100, 100, 50, 50)` in an
800x600 window sends the top-left corner to the place of the unrotated
bottom-right corner, `(-0.625, 0.5)`. -/
theorem d3d11_drawSprite_rotates_about_centre_witness :
    (spriteCorners ⟨Real.sin, Real.cos⟩ 800 600 (100 : ℝ) 100 50 50 Real.pi).head?
      = some ⟨-0.625, 0.5, 0, 1⟩ := by
  have h := (d3d11_drawSprite_rotates_about_centre (window800x600 : D3D11Renderer ℝ)
    100 100 50 50 Real.pi (by decide) (by decide)).1
  have e1 : (window800x600 : D3D11Renderer ℝ).m_width = 800 := rfl
  have e2 : (window800x600 : D3D11Renderer ℝ).m_height = 600 := rfl
  rw [e1, e2] at h
  rw [h]
  simp [rotate]
  constructor <;> norm_num

end D3D11Geometry

/-! ## Textures: fallback, unknown ids and id allocation -/

section Textures

variable {α : Type}

theorem d3d11_find_unloadTexture [Field α] [DecidableEq α] (s : D3D11Renderer α) (id : Int) :
    (D3D11Renderer.UnloadTexture s id).m_textures.find id = none := by
  unfold D3D11Renderer.UnloadTexture
  cases h : s.m_textures.find id with
  | none => simpa using h
  | some t => simpa using StdMap.find_erase_self s.m_textures id

theorem sdl2_find_unloadTexture [LinearOrderedField α] [FloorRing α] (s : SDL2Renderer α)
    (id : Int) : (SDL2Renderer.UnloadTexture s id).m_textures.find id = none := by
  unfold SDL2Renderer.UnloadTexture
  cases h : s.m_textures.find id with
  | none => simpa using h
  | some t => simpa using StdMap.find_erase_self s.m_textures id

theorem d3d12_find_unloadTexture (s : D3D12Renderer) (id : Int) :
    (D3D12Renderer.UnloadTexture s id).m_textures.find id = none := by
  unfold D3D12Renderer.UnloadTexture
  cases h : s.m_textures.find id with
  | none => simpa using h
  | some t => simpa using StdMap.find_erase_self s.m_textures id

/-- C4. In the Direct3D 11 backend, after `UnloadTexture(id)` the id is not a
key of the texture table, and for every id that is not a key (unloaded or never
issued) `DrawSprite(id, ...)` binds the white fallback texture; the vertex
buffer and the vertex data of the draw calls are the same as when the id names
a loaded texture; and when the vertex buffer can be created the call issues one
`Draw(6, 0)` with the white texture bound, on the six sprite vertices when the
buffer is new or can be mapped. -/
theorem d3d11_drawSprite_unloaded_id_binds_white_texture [Field α] [DecidableEq α]
    (sc : SinCos α) (s0 : D3D11Renderer α) (env : D3D11DrawEnv) (textureId : Int)
    (x y w h rotation : α) :
    (D3D11Renderer.UnloadTexture s0 textureId).m_textures.find textureId = none
    ∧ ∀ s : D3D11Renderer α, s.m_textures.find textureId = none →
      (D3D11Renderer.DrawSprite sc s env textureId x y w h rotation).psShaderResource
          = some ShaderResourceView.whiteTexture
      ∧ (∀ t : D3D11Texture,
          (D3D11Renderer.DrawSprite sc s env textureId x y w h rotation).m_vertexBuffer
            = (D3D11Renderer.DrawSprite sc { s with m_textures := s.m_textures.assign textureId t }
                env textureId x y w h rotation).m_vertexBuffer
          ∧ (D3D11Renderer.DrawSprite sc s env textureId x y w h rotation).draws.map
                (fun d => (d.vertexCount, d.startVertexLocation, d.vertices))
            = (D3D11Renderer.DrawSprite sc { s with m_textures := s.m_textures.assign textureId t }
                env textureId x y w h rotation).draws.map
                (fun d => (d.vertexCount, d.startVertexLocation, d.vertices)))
      ∧ ((s.m_vertexBuffer = none → env.createBufferOk = true) →
          ∃ buf, (D3D11Renderer.DrawSprite sc s env textureId x y w h rotation).draws
              = s.draws ++ [⟨6, 0, buf, some ShaderResourceView.whiteTexture⟩]
            ∧ (D3D11Renderer.DrawSprite sc s env textureId x y w h rotation).m_vertexBuffer
              = some buf
            ∧ ((s.m_vertexBuffer ≠ none → env.mapVertexBufferOk = true) →
                buf = D3D11Renderer.spriteVertices sc s.m_width s.m_height x y w h rotation)) := by
  refine ⟨d3d11_find_unloadTexture s0 textureId, ?_⟩
  intro s hs
  refine ⟨?_, ?_, ?_⟩
  · cases hb : s.m_vertexBuffer with
    | none =>
      cases hc : env.createBufferOk <;>
        simp [D3D11Renderer.DrawSprite, D3D11Renderer.updateVertexBuffer, hs, hb, hc]
    | some old =>
      cases hm : env.mapVertexBufferOk <;>
        simp [D3D11Renderer.DrawSprite, D3D11Renderer.updateVertexBuffer, hs, hb, hm]
  · intro t
    have ht := StdMap.find_assign_self s.m_textures textureId t
    cases hb : s.m_vertexBuffer with
    | none =>
      cases hc : env.createBufferOk <;>
        simp [D3D11Renderer.DrawSprite, D3D11Renderer.updateVertexBuffer, hs, ht, hb, hc]
    | some old =>
      cases hm : env.mapVertexBufferOk <;>
        simp [D3D11Renderer.DrawSprite, D3D11Renderer.updateVertexBuffer, hs, ht, hb, hm]
  · intro hcreate
    cases hb : s.m_vertexBuffer with
    | none =>
      simp [D3D11Renderer.DrawSprite, D3D11Renderer.updateVertexBuffer, hs, hb, hcreate hb]
    | some old =>
      cases hm : env.mapVertexBufferOk <;>
        simp [D3D11Renderer.DrawSprite, D3D11Renderer.updateVertexBuffer, hs, hb, hm]

/-- Witness for C4: a texture is loaded into an 800x600 renderer and unloaded;
drawing it then binds the white texture. -/
theorem d3d11_drawSprite_unloaded_id_binds_white_texture_witness :
    (D3D11Renderer.DrawSprite (⟨fun _ => 0, fun _ => 1⟩ : SinCos ℚ)
        (D3D11Renderer.UnloadTexture
          (D3D11Renderer.LoadTexture (D3D11Renderer.window800x600 : D3D11Renderer ℚ)
            (D3D11LoadEnv.allOk 10 11)).2 1)
        D3D11DrawEnv.allOk 1 100 100 50 50 0).psShaderResource
      = some ShaderResourceView.whiteTexture :=
  ((d3d11_drawSprite_unloaded_id_binds_white_texture (⟨fun _ => 0, fun _ => 1⟩ : SinCos ℚ)
      (D3D11Renderer.LoadTexture (D3D11Renderer.window800x600 : D3D11Renderer ℚ)
        (D3D11LoadEnv.allOk 10 11)).2 D3D11DrawEnv.allOk 1 100 100 50 50 0).2 _
    (d3d11_drawSprite_unloaded_id_binds_white_texture (⟨fun _ => 0, fun _ => 1⟩ : SinCos ℚ)
      (D3D11Renderer.LoadTexture (D3D11Renderer.window800x600 : D3D11Renderer ℚ)
        (D3D11LoadEnv.allOk 10 11)).2 D3D11DrawEnv.allOk 1 100 100 50 50 0).1).1

/-- Counterexample to C5: in the SDL2 backend a texture is loaded (id 1) and
unloaded; `DrawSprite(1, ...)` then returns the state unchanged, and the only
SDL calls made are those of the load and the unload: no `SDL_RenderCopyEx`, so
no fallback quad is drawn. -/
theorem sdl2_drawSprite_unloaded_id_counterexample :
    (SDL2Renderer.LoadTexture (SDL2Renderer.window800x600 : SDL2Renderer ℚ) (SDL2LoadEnv.allOk 5 9)).1 = 1
    ∧ SDL2Renderer.DrawSprite
        (SDL2Renderer.UnloadTexture
          (SDL2Renderer.LoadTexture (SDL2Renderer.window800x600 : SDL2Renderer ℚ)
            (SDL2LoadEnv.allOk 5 9)).2 1) 1 100 100 50 50 0
      = SDL2Renderer.UnloadTexture
          (SDL2Renderer.LoadTexture (SDL2Renderer.window800x600 : SDL2Renderer ℚ)
            (SDL2LoadEnv.allOk 5 9)).2 1
    ∧ (SDL2Renderer.DrawSprite
        (SDL2Renderer.UnloadTexture
          (SDL2Renderer.LoadTexture (SDL2Renderer.window800x600 : SDL2Renderer ℚ)
            (SDL2LoadEnv.allOk 5 9)).2 1) 1 100 100 50 50 0).calls
      = [SDLCall.FreeSurface 5, SDLCall.DestroyTexture (some 9)] := by
  refine ⟨rfl, rfl, rfl⟩

/-- C5, amended. In the SDL2 backend, after `UnloadTexture(id)` the id is not a
key of the texture table; `DrawSprite` with an id that is not a key (unloaded or
never issued) makes no SDL call and leaves the renderer state unchanged; with an
id that is a key it makes exactly one `SDL_RenderCopyEx` call, with that
texture, the destination rectangle `(x, y, w, h)` truncated to integers, the
angle in degrees and the pivot at the centre of the quad. -/
theorem sdl2_drawSprite_unknown_id_draws_nothing [LinearOrderedField α] [FloorRing α]
    (s : SDL2Renderer α) (textureId : Int) (x y w h rotation : α) :
    (SDL2Renderer.UnloadTexture s textureId).m_textures.find textureId = none
    ∧ (s.m_textures.find textureId = none →
        SDL2Renderer.DrawSprite s textureId x y w h rotation = s)
    ∧ (∀ texture, s.m_textures.find textureId = some texture →
        SDL2Renderer.DrawSprite s textureId x y w h rotation
          = { s with calls := s.calls ++
                [SDLCall.RenderCopyEx s.m_renderer texture
                  ⟨SDL2Renderer.floatToInt x, SDL2Renderer.floatToInt y,
                   SDL2Renderer.floatToInt w, SDL2Renderer.floatToInt h⟩
                  (rotation * (180 / 3.14159265359))
                  ⟨SDL2Renderer.floatToInt (w / 2), SDL2Renderer.floatToInt (h / 2)⟩] }) := by
  refine ⟨sdl2_find_unloadTexture s textureId, ?_, ?_⟩
  · intro hs
    simp [SDL2Renderer.DrawSprite, hs]
  · intro texture hs
    simp [SDL2Renderer.DrawSprite, hs]

/-- Witness for C5, amended: id 7 was never issued in a fresh 800x600 renderer. -/
theorem sdl2_drawSprite_unknown_id_draws_nothing_witness :
    SDL2Renderer.DrawSprite (SDL2Renderer.window800x600 : SDL2Renderer ℚ) 7 100 100 50 50 0
      = SDL2Renderer.window800x600 :=
  (sdl2_drawSprite_unknown_id_draws_nothing (SDL2Renderer.window800x600 : SDL2Renderer ℚ)
    7 100 100 50 50 0).2.1 rfl

/-- C6. In each of the three backends, `UnloadTexture(id)` for an id that is not
a key of the texture table returns the renderer state unchanged (texture table,
next-id counter, running flag and every other field); in particular a second
`UnloadTexture(id)` right after a first one changes nothing. -/
theorem unloadTexture_unknown_id_is_noop [LinearOrderedField α] [FloorRing α]
    (sdl : SDL2Renderer α) (d3d11 : D3D11Renderer α) (d3d12 : D3D12Renderer) (textureId : Int) :
    (sdl.m_textures.find textureId = none → SDL2Renderer.UnloadTexture sdl textureId = sdl)
    ∧ (d3d11.m_textures.find textureId = none →
        D3D11Renderer.UnloadTexture d3d11 textureId = d3d11)
    ∧ (d3d12.m_textures.find textureId = none →
        D3D12Renderer.UnloadTexture d3d12 textureId = d3d12)
    ∧ SDL2Renderer.UnloadTexture (SDL2Renderer.UnloadTexture sdl textureId) textureId
        = SDL2Renderer.UnloadTexture sdl textureId
    ∧ D3D11Renderer.UnloadTexture (D3D11Renderer.UnloadTexture d3d11 textureId) textureId
        = D3D11Renderer.UnloadTexture d3d11 textureId
    ∧ D3D12Renderer.UnloadTexture (D3D12Renderer.UnloadTexture d3d12 textureId) textureId
        = D3D12Renderer.UnloadTexture d3d12 textureId := by
  have h1 : ∀ s : SDL2Renderer α, s.m_textures.find textureId = none →
      SDL2Renderer.UnloadTexture s textureId = s := by
    intro s hs; simp [SDL2Renderer.UnloadTexture, hs]
  have h2 : ∀ s : D3D11Renderer α, s.m_textures.find textureId = none →
      D3D11Renderer.UnloadTexture s textureId = s := by
    intro s hs; simp [D3D11Renderer.UnloadTexture, hs]
  have h3 : ∀ s : D3D12Renderer, s.m_textures.find textureId = none →
      D3D12Renderer.UnloadTexture s textureId = s := by
    intro s hs; simp [D3D12Renderer.UnloadTexture, hs]
  exact ⟨h1 sdl, h2 d3d11, h3 d3d12,
    h1 _ (sdl2_find_unloadTexture sdl textureId),
    h2 _ (d3d11_find_unloadTexture d3d11 textureId),
    h3 _ (d3d12_find_unloadTexture d3d12 textureId)⟩

/-- Witness for C6: id 3 was never issued in freshly initialised renderers. -/
theorem unloadTexture_unknown_id_is_noop_witness :
    SDL2Renderer.UnloadTexture (SDL2Renderer.window800x600 : SDL2Renderer ℚ) 3
        = SDL2Renderer.window800x600
    ∧ D3D11Renderer.UnloadTexture (D3D11Renderer.window800x600 : D3D11Renderer ℚ) 3
        = D3D11Renderer.window800x600
    ∧ D3D12Renderer.UnloadTexture
          (D3D12Renderer.Initialize D3D12Renderer.new (D3D12InitEnv.allOk 0) 800 600).2 3
        = (D3D12Renderer.Initialize D3D12Renderer.new (D3D12InitEnv.allOk 0) 800 600).2 :=
  have h := unloadTexture_unknown_id_is_noop (SDL2Renderer.window800x600 : SDL2Renderer ℚ)
    (D3D11Renderer.window800x600 : D3D11Renderer ℚ)
    (D3D12Renderer.Initialize D3D12Renderer.new (D3D12InitEnv.allOk 0) 800 600).2 3
  ⟨h.1 rfl, h.2.1 rfl, h.2.2.1 rfl⟩

theorem wrapInt32_succ (c : Int) (h1 : 1 ≤ c) (h2 : c < 2147483647) :
    wrapInt32 (c + 1) = c + 1 := by
  unfold wrapInt32
  omega

theorem predictedIds_filter {Env : Type} (succeeds : Env → Bool) (ops : List (TextureOp Env))
    (c : Int) (hc : 0 ≤ c) :
    (predictedIds succeeds c ops).filter (fun i => decide (i ≠ -1))
      = (List.range (successfulLoads succeeds ops)).map (fun i : Nat => c + i) := by
  induction ops generalizing c with
  | nil => simp [predictedIds, successfulLoads]
  | cons op ops ih =>
    cases op with
    | unload id => simpa [predictedIds, successfulLoads] using ih c hc
    | load env =>
      cases he : succeeds env with
      | false => simpa [predictedIds, successfulLoads, he] using ih c hc
      | true =>
        have hne : c ≠ -1 := by omega
        simp only [predictedIds, successfulLoads, he, if_true]
        rw [List.filter_cons_of_pos (by simpa using hne), ih (c + 1) (by omega),
          List.range_succ_eq_map]
        simp only [List.map_cons, List.map_map, Nat.cast_zero, add_zero]
        congr 1
        apply List.map_congr_left
        intro i _
        simp only [Function.comp, Nat.cast_succ]
        ring

theorem sdl2_runTextureOps_spec [LinearOrderedField α] [FloorRing α]
    (ops : List (TextureOp SDL2LoadEnv)) (s : SDL2Renderer α)
    (h1 : 1 ≤ s.m_nextTextureId)
    (h2 : s.m_nextTextureId + successfulLoads SDL2Renderer.loadSucceeds ops ≤ 2147483647) :
    (SDL2Renderer.runTextureOps s ops).1
        = predictedIds SDL2Renderer.loadSucceeds s.m_nextTextureId ops
    ∧ (SDL2Renderer.runTextureOps s ops).2.m_nextTextureId
        = s.m_nextTextureId + successfulLoads SDL2Renderer.loadSucceeds ops := by
  induction ops generalizing s with
  | nil => simp [SDL2Renderer.runTextureOps, predictedIds, successfulLoads]
  | cons op ops ih =>
    cases op with
    | unload id =>
      have hn : (SDL2Renderer.UnloadTexture s id).m_nextTextureId = s.m_nextTextureId := by
        unfold SDL2Renderer.UnloadTexture
        cases s.m_textures.find id <;> rfl
      have := ih (SDL2Renderer.UnloadTexture s id) (by rw [hn]; exact h1)
        (by rw [hn]; simpa [successfulLoads] using h2)
      simpa [SDL2Renderer.runTextureOps, predictedIds, successfulLoads, hn] using this
    | load env =>
      obtain ⟨bmp, tex⟩ := env
      cases bmp with
      | none =>
        have := ih s h1 (by simpa [successfulLoads, SDL2Renderer.loadSucceeds] using h2)
        simpa [SDL2Renderer.runTextureOps, SDL2Renderer.LoadTexture, predictedIds,
          successfulLoads, SDL2Renderer.loadSucceeds] using this
      | some surface =>
        cases tex with
        | none =>
          have := ih { s with calls := s.calls ++ [SDLCall.FreeSurface surface] } h1
            (by simpa [successfulLoads, SDL2Renderer.loadSucceeds] using h2)
          simpa [SDL2Renderer.runTextureOps, SDL2Renderer.LoadTexture, predictedIds,
            successfulLoads, SDL2Renderer.loadSucceeds] using this
        | some texture =>
          have hs : successfulLoads SDL2Renderer.loadSucceeds
              (TextureOp.load ⟨some surface, some texture⟩ :: ops)
              = successfulLoads SDL2Renderer.loadSucceeds ops + 1 := by
            simp [successfulLoads, SDL2Renderer.loadSucceeds]
          rw [hs] at h2
          push_cast at h2
          have hw := wrapInt32_succ s.m_nextTextureId h1 (by omega)
          have := ih
            { s with
              calls := s.calls ++ [SDLCall.FreeSurface surface]
              m_nextTextureId := s.m_nextTextureId + 1
              m_textures := s.m_textures.assign s.m_nextTextureId (some texture) }
            (by simp; omega) (by simp; omega)
          simp only [SDL2Renderer.runTextureOps, SDL2Renderer.LoadTexture, predictedIds,
            SDL2Renderer.loadSucceeds, hw, hs, Option.isSome_some, Bool.and_self, if_true]
          refine ⟨by rw [this.1], ?_⟩
          rw [this.2]; push_cast; ring

theorem d3d11_loadTexture_of_fails [Field α] [DecidableEq α] (s : D3D11Renderer α)
    (env : D3D11LoadEnv) (h : D3D11Renderer.loadSucceeds env = false) :
    D3D11Renderer.LoadTexture s env = (-1, s) := by
  obtain ⟨a, b, c, w, ht, d, e, f, g, i⟩ := env
  cases a <;> cases b <;> cases c <;> cases d <;> cases e <;> cases f <;> cases g <;>
    cases i <;> simp_all [D3D11Renderer.loadSucceeds, D3D11Renderer.LoadTexture]

theorem d3d11_loadTexture_of_succeeds [Field α] [DecidableEq α] (s : D3D11Renderer α)
    (env : D3D11LoadEnv) (h : D3D11Renderer.loadSucceeds env = true) :
    ∃ t : D3D11Texture, D3D11Renderer.LoadTexture s env =
      (s.m_nextTextureId,
        { s with m_nextTextureId := wrapInt32 (s.m_nextTextureId + 1)
                 m_textures := s.m_textures.assign s.m_nextTextureId t }) := by
  obtain ⟨a, b, c, w, ht, d, e, f, g, i⟩ := env
  cases a <;> cases b <;> cases c <;> cases d <;> cases e <;> cases f <;> cases g <;>
    cases i <;> simp_all [D3D11Renderer.loadSucceeds, D3D11Renderer.LoadTexture]

theorem sdl2_loadTexture_of_fails [LinearOrderedField α] [FloorRing α]
    (s : SDL2Renderer α) (env : SDL2LoadEnv) (h : SDL2Renderer.loadSucceeds env = false) :
    (SDL2Renderer.LoadTexture s env).1 = -1
    ∧ (SDL2Renderer.LoadTexture s env).2.m_textures = s.m_textures
    ∧ (SDL2Renderer.LoadTexture s env).2.m_nextTextureId = s.m_nextTextureId := by
  obtain ⟨a, b⟩ := env
  cases a <;> cases b <;> simp_all [SDL2Renderer.loadSucceeds, SDL2Renderer.LoadTexture]

theorem sdl2_loadTexture_of_succeeds [LinearOrderedField α] [FloorRing α]
    (s : SDL2Renderer α) (env : SDL2LoadEnv) (h : SDL2Renderer.loadSucceeds env = true) :
    ∃ t, (SDL2Renderer.LoadTexture s env).1 = s.m_nextTextureId
    ∧ (SDL2Renderer.LoadTexture s env).2.m_textures = s.m_textures.assign s.m_nextTextureId t
    ∧ (SDL2Renderer.LoadTexture s env).2.m_nextTextureId = wrapInt32 (s.m_nextTextureId + 1) := by
  obtain ⟨a, b⟩ := env
  cases a <;> cases b <;> simp_all [SDL2Renderer.loadSucceeds, SDL2Renderer.LoadTexture]

theorem d3d11_runTextureOps_spec [Field α] [DecidableEq α]
    (ops : List (TextureOp D3D11LoadEnv)) (s : D3D11Renderer α)
    (h1 : 1 ≤ s.m_nextTextureId)
    (h2 : s.m_nextTextureId + successfulLoads D3D11Renderer.loadSucceeds ops ≤ 2147483647) :
    (D3D11Renderer.runTextureOps s ops).1
        = predictedIds D3D11Renderer.loadSucceeds s.m_nextTextureId ops
    ∧ (D3D11Renderer.runTextureOps s ops).2.m_nextTextureId
        = s.m_nextTextureId + successfulLoads D3D11Renderer.loadSucceeds ops := by
  induction ops generalizing s with
  | nil => simp [D3D11Renderer.runTextureOps, predictedIds, successfulLoads]
  | cons op ops ih =>
    cases op with
    | unload id =>
      have hn : (D3D11Renderer.UnloadTexture s id).m_nextTextureId = s.m_nextTextureId := by
        unfold D3D11Renderer.UnloadTexture
        cases s.m_textures.find id <;> rfl
      have := ih (D3D11Renderer.UnloadTexture s id) (by rw [hn]; exact h1)
        (by rw [hn]; simpa [successfulLoads] using h2)
      simpa [D3D11Renderer.runTextureOps, predictedIds, successfulLoads, hn] using this
    | load env =>
      cases he : D3D11Renderer.loadSucceeds env with
      | false =>
        have := ih s h1 (by simpa [successfulLoads, he] using h2)
        simpa [D3D11Renderer.runTextureOps, d3d11_loadTexture_of_fails s env he,
          predictedIds, successfulLoads, he] using this
      | true =>
        obtain ⟨t, ht⟩ := d3d11_loadTexture_of_succeeds s env he
        have hs : successfulLoads D3D11Renderer.loadSucceeds (TextureOp.load env :: ops)
            = successfulLoads D3D11Renderer.loadSucceeds ops + 1 := by
          simp [successfulLoads, he]
        rw [hs] at h2
        push_cast at h2
        have hw := wrapInt32_succ s.m_nextTextureId h1 (by omega)
        rw [hw] at ht
        have := ih
          { s with
            m_nextTextureId := s.m_nextTextureId + 1
            m_textures := s.m_textures.assign s.m_nextTextureId t }
          (by simp; omega) (by simp; omega)
        simp only [D3D11Renderer.runTextureOps, ht, predictedIds, he, hs, if_true]
        refine ⟨by rw [this.1], ?_⟩
        rw [this.2]; push_cast; ring

/-- C7. In the SDL2 and Direct3D 11 backends, starting from a new renderer, for
every sequence of loads (successful or failed) and unloads with fewer than
`2^31 - 1` successful loads, the values returned by `LoadTexture` are the
predicted ones: a failed load returns `-1` and consumes no id, an unload does
not lower the counter, and the successful loads return `1, 2, 3, ...` in
order. -/
theorem loadTexture_kth_success_returns_k [LinearOrderedField α] [FloorRing α]
    (sdlOps : List (TextureOp SDL2LoadEnv)) (d3d11Ops : List (TextureOp D3D11LoadEnv))
    (hsdl : successfulLoads SDL2Renderer.loadSucceeds sdlOps < 2147483647)
    (hd3d11 : successfulLoads D3D11Renderer.loadSucceeds d3d11Ops < 2147483647) :
    ((SDL2Renderer.runTextureOps (SDL2Renderer.new : SDL2Renderer α) sdlOps).1
        = predictedIds SDL2Renderer.loadSucceeds 1 sdlOps
      ∧ (SDL2Renderer.runTextureOps (SDL2Renderer.new : SDL2Renderer α) sdlOps).1.filter
          (fun i => decide (i ≠ -1))
        = (List.range (successfulLoads SDL2Renderer.loadSucceeds sdlOps)).map
            (fun k : Nat => (1 : Int) + k))
    ∧ ((D3D11Renderer.runTextureOps (D3D11Renderer.new : D3D11Renderer α) d3d11Ops).1
        = predictedIds D3D11Renderer.loadSucceeds 1 d3d11Ops
      ∧ (D3D11Renderer.runTextureOps (D3D11Renderer.new : D3D11Renderer α) d3d11Ops).1.filter
          (fun i => decide (i ≠ -1))
        = (List.range (successfulLoads D3D11Renderer.loadSucceeds d3d11Ops)).map
            (fun k : Nat => (1 : Int) + k)) := by
  have h1 := (sdl2_runTextureOps_spec sdlOps (SDL2Renderer.new : SDL2Renderer α)
    (by simp [SDL2Renderer.new]) (by simp [SDL2Renderer.new]; omega)).1
  have h2 := (d3d11_runTextureOps_spec d3d11Ops (D3D11Renderer.new : D3D11Renderer α)
    (by simp [D3D11Renderer.new]) (by simp [D3D11Renderer.new]; omega)).1
  have e1 : (SDL2Renderer.new : SDL2Renderer α).m_nextTextureId = 1 := rfl
  have e2 : (D3D11Renderer.new : D3D11Renderer α).m_nextTextureId = 1 := rfl
  rw [e1] at h1
  rw [e2] at h2
  refine ⟨⟨h1, ?_⟩, ⟨h2, ?_⟩⟩
  · rw [h1]; exact predictedIds_filter _ _ 1 (by decide)
  · rw [h2]; exact predictedIds_filter _ _ 1 (by decide)

/-- Witness for C7: a load, a failed load, an unload of id 1 and another load
return `1`, `-1` and `2` in both backends. -/
theorem loadTexture_kth_success_returns_k_witness :
    (SDL2Renderer.runTextureOps (SDL2Renderer.new : SDL2Renderer ℚ) SDL2Renderer.sampleOps).1
        = [1, -1, 2]
    ∧ (D3D11Renderer.runTextureOps (D3D11Renderer.new : D3D11Renderer ℚ)
          D3D11Renderer.sampleOps).1 = [1, -1, 2] :=
  have h := loadTexture_kth_success_returns_k (α := ℚ) SDL2Renderer.sampleOps
    D3D11Renderer.sampleOps (by decide) (by decide)
  ⟨h.1.1.trans rfl, h.2.1.trans rfl⟩

/-- C8. In the SDL2 and Direct3D 11 backends the next-id counter is at least 1
and every key of the texture table is at least 1 and below the counter: this
holds for a new renderer and is preserved by `LoadTexture` (while the counter is
below `INT_MAX`, so that the increment does not overflow), by `UnloadTexture`
and by `Shutdown`; hence the id returned by a successful `LoadTexture` is not a
key of the texture table at the time of the call. -/
theorem texture_ids_stay_in_range [LinearOrderedField α] [FloorRing α]
    (sdl : SDL2Renderer α) (d3d11 : D3D11Renderer α)
    (sdlEnv : SDL2LoadEnv) (d3d11Env : D3D11LoadEnv) (textureId : Int)
    (hsdl : KeysInRange sdl.m_textures sdl.m_nextTextureId)
    (hd3d11 : KeysInRange d3d11.m_textures d3d11.m_nextTextureId) :
    (KeysInRange (SDL2Renderer.new : SDL2Renderer α).m_textures
        (SDL2Renderer.new : SDL2Renderer α).m_nextTextureId
      ∧ (sdl.m_nextTextureId < 2147483647 →
          KeysInRange (SDL2Renderer.LoadTexture sdl sdlEnv).2.m_textures
            (SDL2Renderer.LoadTexture sdl sdlEnv).2.m_nextTextureId)
      ∧ KeysInRange (SDL2Renderer.UnloadTexture sdl textureId).m_textures
          (SDL2Renderer.UnloadTexture sdl textureId).m_nextTextureId
      ∧ KeysInRange (SDL2Renderer.Shutdown sdl).m_textures
          (SDL2Renderer.Shutdown sdl).m_nextTextureId
      ∧ (SDL2Renderer.loadSucceeds sdlEnv = true →
          (SDL2Renderer.LoadTexture sdl sdlEnv).1 ∉ sdl.m_textures.keys
          ∧ sdl.m_textures.find (SDL2Renderer.LoadTexture sdl sdlEnv).1 = none))
    ∧ (KeysInRange (D3D11Renderer.new : D3D11Renderer α).m_textures
        (D3D11Renderer.new : D3D11Renderer α).m_nextTextureId
      ∧ (d3d11.m_nextTextureId < 2147483647 →
          KeysInRange (D3D11Renderer.LoadTexture d3d11 d3d11Env).2.m_textures
            (D3D11Renderer.LoadTexture d3d11 d3d11Env).2.m_nextTextureId)
      ∧ KeysInRange (D3D11Renderer.UnloadTexture d3d11 textureId).m_textures
          (D3D11Renderer.UnloadTexture d3d11 textureId).m_nextTextureId
      ∧ KeysInRange (D3D11Renderer.Shutdown d3d11).m_textures
          (D3D11Renderer.Shutdown d3d11).m_nextTextureId
      ∧ (D3D11Renderer.loadSucceeds d3d11Env = true →
          (D3D11Renderer.LoadTexture d3d11 d3d11Env).1 ∉ d3d11.m_textures.keys
          ∧ d3d11.m_textures.find (D3D11Renderer.LoadTexture d3d11 d3d11Env).1 = none)) := by
  have assign_ok : ∀ {τ : Type} (m : StdMap τ) (next : Int) (v : τ),
      KeysInRange m next → next < 2147483647 →
      KeysInRange (m.assign next v) (wrapInt32 (next + 1)) := by
    intro τ m next v h hlt
    rw [wrapInt32_succ next h.1 hlt]
    refine ⟨by have := h.1; omega, ?_⟩
    intro k hk
    rcases (StdMap.mem_keys_assign m next k v).mp hk with e | hk'
    · subst e; exact ⟨h.1, by omega⟩
    · have := h.2 k hk'; exact ⟨this.1, by omega⟩
  have erase_ok : ∀ {τ : Type} (m : StdMap τ) (next : Int) (k : Int),
      KeysInRange m next → KeysInRange (m.erase k) next := by
    intro τ m next k h
    exact ⟨h.1, fun j hj => h.2 j (StdMap.mem_keys_erase m k j hj)⟩
  have clear_ok : ∀ {τ : Type} (m : StdMap τ) (next : Int),
      KeysInRange m next → KeysInRange m.clear next := by
    intro τ m next h
    exact ⟨h.1, by simp [StdMap.clear, StdMap.keys]⟩
  have fresh : ∀ {τ : Type} (m : StdMap τ) (next : Int),
      KeysInRange m next → next ∉ m.keys := by
    intro τ m next h hmem
    have := (h.2 next hmem).2
    omega
  refine ⟨⟨?_, ?_, ?_, ?_, ?_⟩, ⟨?_, ?_, ?_, ?_, ?_⟩⟩
  · exact ⟨by simp [SDL2Renderer.new], by simp [SDL2Renderer.new, StdMap.empty, StdMap.keys]⟩
  · intro hlt
    cases he : SDL2Renderer.loadSucceeds sdlEnv with
    | false =>
      obtain ⟨-, e2, e3⟩ := sdl2_loadTexture_of_fails sdl sdlEnv he
      rw [e2, e3]; exact hsdl
    | true =>
      obtain ⟨t, -, e2, e3⟩ := sdl2_loadTexture_of_succeeds sdl sdlEnv he
      rw [e2, e3]; exact assign_ok _ _ _ hsdl hlt
  · unfold SDL2Renderer.UnloadTexture
    cases sdl.m_textures.find textureId with
    | none => exact hsdl
    | some t => exact erase_ok _ _ _ hsdl
  · unfold SDL2Renderer.Shutdown
    cases hr : sdl.m_renderer with
    | none => exact hsdl
    | some r =>
      cases hw : sdl.m_window <;> simpa [hw] using clear_ok _ _ hsdl
  · intro he
    obtain ⟨t, e1, -, -⟩ := sdl2_loadTexture_of_succeeds sdl sdlEnv he
    rw [e1]
    exact ⟨fresh _ _ hsdl, (StdMap.find_eq_none_iff _ _).mpr (fresh _ _ hsdl)⟩
  · exact ⟨by simp [D3D11Renderer.new], by simp [D3D11Renderer.new, StdMap.empty, StdMap.keys]⟩
  · intro hlt
    cases he : D3D11Renderer.loadSucceeds d3d11Env with
    | false =>
      rw [d3d11_loadTexture_of_fails d3d11 d3d11Env he]; exact hd3d11
    | true =>
      obtain ⟨t, ht⟩ := d3d11_loadTexture_of_succeeds d3d11 d3d11Env he
      rw [ht]; exact assign_ok _ _ _ hd3d11 hlt
  · unfold D3D11Renderer.UnloadTexture
    cases d3d11.m_textures.find textureId with
    | none => exact hd3d11
    | some t => exact erase_ok _ _ _ hd3d11
  · unfold D3D11Renderer.Shutdown
    cases hr : d3d11.m_isRunning with
    | false => simpa using hd3d11
    | true =>
      cases hw : d3d11.m_hwnd <;> simpa [hw] using clear_ok _ _ hd3d11
  · intro he
    obtain ⟨t, ht⟩ := d3d11_loadTexture_of_succeeds d3d11 d3d11Env he
    rw [ht]
    exact ⟨fresh _ _ hd3d11, (StdMap.find_eq_none_iff _ _).mpr (fresh _ _ hd3d11)⟩


/-- Witness for C8: the freshly initialised 800x600 renderers. -/
theorem texture_ids_stay_in_range_witness :
    KeysInRange
      (SDL2Renderer.LoadTexture (SDL2Renderer.window800x600 : SDL2Renderer ℚ)
        (SDL2LoadEnv.allOk 5 9)).2.m_textures
      (SDL2Renderer.LoadTexture (SDL2Renderer.window800x600 : SDL2Renderer ℚ)
        (SDL2LoadEnv.allOk 5 9)).2.m_nextTextureId
    ∧ KeysInRange
      (D3D11Renderer.LoadTexture (D3D11Renderer.window800x600 : D3D11Renderer ℚ)
        (D3D11LoadEnv.allOk 10 11)).2.m_textures
      (D3D11Renderer.LoadTexture (D3D11Renderer.window800x600 : D3D11Renderer ℚ)
        (D3D11LoadEnv.allOk 10 11)).2.m_nextTextureId :=
  have h := texture_ids_stay_in_range (SDL2Renderer.window800x600 : SDL2Renderer ℚ)
    (D3D11Renderer.window800x600 : D3D11Renderer ℚ) (SDL2LoadEnv.allOk 5 9)
    (D3D11LoadEnv.allOk 10 11) 1 (by decide) (by decide)
  ⟨h.1.2.1 (by decide), h.2.2.1 (by decide)⟩

end Textures

/-! ## Direct3D 12: the fence-driven frame loop -/

section D3D12Frames

theorem signalValues_nil : signalValues [] = [] := rfl

theorem signalValues_cons_signal (v : Nat) (rest : List QueueItem) :
    signalValues (QueueItem.signal v :: rest) = v :: signalValues rest := by
  simp [signalValues]

theorem signalValues_cons_execute (a : Fin 2) (rest : List QueueItem) :
    signalValues (QueueItem.executeCommandList a :: rest) = signalValues rest := by
  simp [signalValues]

theorem signalValues_append (l₁ l₂ : List QueueItem) :
    signalValues (l₁ ++ l₂) = signalValues l₁ ++ signalValues l₂ := by
  simp [signalValues, List.filterMap_append]

theorem gpuOrdered_tail_signal {n v c : Nat} {rest : List QueueItem}
    (h : GpuOrdered n (QueueItem.signal v :: rest) c) : GpuOrdered n rest v ∧ c ≤ v := by
  obtain ⟨hp, hb⟩ := h
  rw [signalValues_cons_signal] at hp hb
  rw [List.pairwise_cons] at hp
  refine ⟨⟨hp.2, ?_⟩, hp.1 v (by simp)⟩
  intro w hw
  exact hb w (List.mem_cons_of_mem _ hw)

theorem gpuOrdered_tail_execute {n c : Nat} {a : Fin 2} {rest : List QueueItem}
    (h : GpuOrdered n (QueueItem.executeCommandList a :: rest) c) : GpuOrdered n rest c := by
  simpa [GpuOrdered, signalValues_cons_execute] using h

theorem gpuExecute_spec (n k : Nat) (pending : List QueueItem) (completed : Nat)
    (h : GpuOrdered n pending completed) :
    GpuOrdered n (gpuExecute k pending completed).1 (gpuExecute k pending completed).2
    ∧ completed ≤ (gpuExecute k pending completed).2
    ∧ ∀ t, FenceCanReach t pending completed →
        FenceCanReach t (gpuExecute k pending completed).1 (gpuExecute k pending completed).2 := by
  induction k generalizing pending completed with
  | zero => exact ⟨h, le_refl _, fun _ ht => ht⟩
  | succ k ih =>
    cases pending with
    | nil => exact ⟨h, le_refl _, fun _ ht => ht⟩
    | cons item rest =>
      cases item with
      | executeCommandList a =>
        have h' := gpuOrdered_tail_execute h
        obtain ⟨i1, i2, i3⟩ := ih rest completed h'
        refine ⟨i1, i2, fun t ht => i3 t ?_⟩
        simpa [FenceCanReach, signalValues_cons_execute] using ht
      | signal v =>
        obtain ⟨h', hcv⟩ := gpuOrdered_tail_signal h
        obtain ⟨i1, i2, i3⟩ := ih rest v h'
        refine ⟨i1, le_trans hcv i2, fun t ht => i3 t ?_⟩
        rcases ht with ht | ⟨w, hw, htw⟩
        · exact Or.inl (le_trans ht hcv)
        · rw [signalValues_cons_signal, List.mem_cons] at hw
          rcases hw with e | hw
          · subst e; exact Or.inl htw
          · exact Or.inr ⟨w, hw, htw⟩

theorem gpuRunUntil_spec (n target : Nat) (pending : List QueueItem) (completed : Nat)
    (h : GpuOrdered n pending completed) (hr : FenceCanReach target pending completed) :
    ∃ pending' completed', gpuRunUntil target pending completed = some (pending', completed')
      ∧ target ≤ completed' ∧ completed ≤ completed' ∧ GpuOrdered n pending' completed' := by
  induction pending generalizing completed with
  | nil =>
    rcases hr with hr | ⟨w, hw, _⟩
    · exact ⟨[], completed, by simp [gpuRunUntil, hr], hr, le_refl _, h⟩
    · simp [signalValues] at hw
  | cons item rest ih =>
    by_cases hc : target ≤ completed
    · exact ⟨item :: rest, completed, by simp [gpuRunUntil, hc], hc, le_refl _, h⟩
    · cases item with
      | executeCommandList a =>
        have h' := gpuOrdered_tail_execute h
        have hr' : FenceCanReach target rest completed := by
          simpa [FenceCanReach, signalValues_cons_execute] using hr
        obtain ⟨p', c', e, i1, i2, i3⟩ := ih completed h' hr'
        exact ⟨p', c', by simp [gpuRunUntil, hc, e], i1, i2, i3⟩
      | signal v =>
        obtain ⟨h', hcv⟩ := gpuOrdered_tail_signal h
        have hr' : FenceCanReach target rest v := by
          rcases hr with hr | ⟨w, hw, htw⟩
          · exact absurd hr hc
          · rw [signalValues_cons_signal, List.mem_cons] at hw
            rcases hw with e | hw
            · subst e; exact Or.inl htw
            · exact Or.inr ⟨w, hw, htw⟩
        obtain ⟨p', c', e, i1, i2, i3⟩ := ih v h' hr'
        exact ⟨p', c', by simp [gpuRunUntil, hc, e], i1, le_trans hcv i2, i3⟩

theorem gpuOrdered_submit_execute {n c : Nat} {pending : List QueueItem} (a : Fin 2)
    (h : GpuOrdered n pending c) :
    GpuOrdered n (pending ++ [QueueItem.executeCommandList a]) c := by
  simpa [GpuOrdered, signalValues_append, signalValues_cons_execute, signalValues] using h

theorem gpuOrdered_submit_signal {n c : Nat} {pending : List QueueItem}
    (h : GpuOrdered n pending c) :
    GpuOrdered n (pending ++ [QueueItem.signal n]) c := by
  obtain ⟨hp, hb⟩ := h
  have e : signalValues (pending ++ [QueueItem.signal n]) = signalValues pending ++ [n] := by
    simp [signalValues_append, signalValues]
  refine ⟨?_, ?_⟩
  · rw [e, ← List.cons_append, List.pairwise_append]
    refine ⟨hp, List.pairwise_singleton _ _, ?_⟩
    intro a ha b hb'
    rw [List.mem_singleton] at hb'
    subst hb'
    exact hb a ha
  · intro v hv
    rw [e, ← List.cons_append, List.mem_append] at hv
    rcases hv with hv | hv
    · exact hb v hv
    · rw [List.mem_singleton] at hv; omega

theorem gpuOrdered_mono {n m c : Nat} {pending : List QueueItem} (hnm : n ≤ m)
    (h : GpuOrdered n pending c) : GpuOrdered m pending c :=
  ⟨h.1, fun v hv => le_trans (h.2 v hv) hnm⟩

theorem signalAfterLastUse_of_boundary (j : Fin 2) (log : List QueueItem) (next : Option Nat)
    (h : log = [] ∨ ∃ v rest, log = QueueItem.signal v :: rest) :
    signalAfterLastUse j log next = signalAfterLastUse j log none := by
  rcases h with h | ⟨v, rest, h⟩
  · subst h; rfl
  · subst h; rfl


theorem gpuRunUntil_of_le (target : Nat) (pending : List QueueItem) (completed : Nat)
    (h : target ≤ completed) : gpuRunUntil target pending completed = some (pending, completed) := by
  cases pending <;> simp [gpuRunUntil, h]

theorem d3d12_gpuAdvance_inv (n k : Nat) (s : D3D12Renderer) (q : CommandQueue) (f : Fence)
    (h : FrameInv n s q f) :
    FrameInv n (D3D12Renderer.gpuAdvance k s)
      { q with pending := (gpuExecute k q.pending f.completedValue).1 }
      ⟨(gpuExecute k q.pending f.completedValue).2⟩ := by
  obtain ⟨g1, g2, -⟩ := gpuExecute_spec n k q.pending f.completedValue h.gpu
  have e : D3D12Renderer.gpuAdvance k s =
      { s with
        m_commandQueue := some { q with pending := (gpuExecute k q.pending f.completedValue).1 },
        m_fence := some ⟨(gpuExecute k q.pending f.completedValue).2⟩ } := by
    simp [D3D12Renderer.gpuAdvance, h.queue, h.fence]
  rw [e]
  exact
    { queue := rfl, fence := rfl, allocators := h.allocators, rootSignature := h.rootSignature,
      renderTargets := h.renderTargets, descriptorHeaps := h.descriptorHeaps,
      swapChain := h.swapChain, commandList := h.commandList, fenceEvent := h.fenceEvent,
      signalled := h.signalled, current := h.current, bound := h.bound,
      boundary := h.boundary,
      lastUse := fun j v hv =>
        ⟨fun hj => le_trans ((h.lastUse j v hv).1 hj) g2, (h.lastUse j v hv).2⟩,
      gpu := g1 }

theorem d3d12_frameCycle_inv (n : Nat) (s : D3D12Renderer) (q : CommandQueue) (f : Fence)
    (env : FrameEnv) (h : FrameInv n s q f) (hn : n + 1 < 18446744073709551616) :
    ∃ s1 q1 f1, D3D12Renderer.frameCycle s env = some s1 ∧ FrameInv (n + 1) s1 q1 f1 := by
  obtain ⟨hq, hf, hal, hrs, hrt, hdh, hsc, ⟨cl, hcl⟩, ⟨ev, hfe⟩, hsig, hcur, hbd, hshape, hlast,
    hgpu⟩ := h
  have g1 : GpuOrdered n
      (q.pending ++ [QueueItem.executeCommandList s.m_frameIndex, QueueItem.signal n])
      f.completedValue := by
    have := gpuOrdered_submit_signal (gpuOrdered_submit_execute s.m_frameIndex hgpu)
    rwa [List.append_assoc] at this
  obtain ⟨g2, -, g3⟩ := gpuExecute_spec n env.gpuBeforeFenceCheck _ _ g1
  have reach : FenceCanReach (s.m_fenceValues env.backBufferIndex)
      (q.pending ++ [QueueItem.executeCommandList s.m_frameIndex, QueueItem.signal n])
      f.completedValue :=
    Or.inr ⟨n, by simp [signalValues_append, signalValues], hbd _⟩
  obtain ⟨p', c', hrun, ht, -, hord⟩ := gpuRunUntil_spec n _ _ _ g2 (g3 _ reach)
  have hwrap : wrapUInt64 (n + 1) = n + 1 := Nat.mod_eq_of_lt hn
  refine ⟨{ s with
      m_commandList := some ⟨s.m_frameIndex⟩,
      m_commandQueue := some ⟨p', QueueItem.signal n ::
        QueueItem.executeCommandList s.m_frameIndex :: q.submitted⟩,
      m_fence := some ⟨c'⟩,
      m_frameIndex := env.backBufferIndex,
      m_fenceValues := Function.update s.m_fenceValues env.backBufferIndex (n + 1) },
    ⟨p', QueueItem.signal n :: QueueItem.executeCommandList s.m_frameIndex :: q.submitted⟩,
    ⟨c'⟩, ?_, ?_⟩
  · by_cases hlt : (gpuExecute env.gpuBeforeFenceCheck
        (q.pending ++ [QueueItem.executeCommandList s.m_frameIndex, QueueItem.signal n])
        f.completedValue).2 < s.m_fenceValues env.backBufferIndex
    · simp [D3D12Renderer.frameCycle, D3D12Renderer.BeginFrame, D3D12Renderer.Clear,
        D3D12Renderer.EndFrame, D3D12Renderer.Present, D3D12Renderer.MoveToNextFrame,
        D3D12Renderer.gpuAdvance, D3D12Renderer.waitForFence, CommandQueue.submit,
        hq, hf, hal, hrs, hrt, hdh, hsc, hcl, hfe, hcur, hwrap, hlt, hrun]
    · have hle := Nat.le_of_not_lt hlt
      rw [gpuRunUntil_of_le _ _ _ hle] at hrun
      simp only [Option.some.injEq, Prod.mk.injEq] at hrun
      obtain ⟨e1, e2⟩ := hrun
      subst e1 e2
      simp [D3D12Renderer.frameCycle, D3D12Renderer.BeginFrame, D3D12Renderer.Clear,
        D3D12Renderer.EndFrame, D3D12Renderer.Present, D3D12Renderer.MoveToNextFrame,
        D3D12Renderer.gpuAdvance, D3D12Renderer.waitForFence, CommandQueue.submit,
        hq, hf, hal, hrs, hrt, hdh, hsc, hcl, hfe, hcur, hwrap, hlt]
  · have hscan : ∀ j, signalAfterLastUse j
        (QueueItem.signal n :: QueueItem.executeCommandList s.m_frameIndex :: q.submitted) none
        = if s.m_frameIndex = j then some n else signalAfterLastUse j q.submitted none := by
      intro j
      by_cases e : s.m_frameIndex = j
      · simp [signalAfterLastUse, e]
      · simp only [signalAfterLastUse, e, if_false]
        exact signalAfterLastUse_of_boundary j q.submitted (some n) hshape
    refine
      { queue := rfl, fence := rfl, allocators := hal, rootSignature := hrs,
        renderTargets := hrt, descriptorHeaps := hdh, swapChain := hsc,
        commandList := ⟨_, rfl⟩, fenceEvent := ⟨ev, hfe⟩,
        signalled := ?_, current := ?_, bound := ?_,
        boundary := Or.inr ⟨_, _, rfl⟩, lastUse := ?_, gpu := gpuOrdered_mono (Nat.le_succ n) hord }
    · have := hsig
      simp only [CommandQueue.signalled] at this ⊢
      simp only [List.reverse_cons, signalValues_append, this, signalValues_cons_execute,
        signalValues_cons_signal, signalValues_nil, List.append_nil, List.range_succ]
    · simp
    · intro j
      by_cases e : j = env.backBufferIndex
      · subst e; simp
      · simp only [Function.update_noteq e]
        exact Nat.le_succ_of_le (hbd j)
    · intro j v hv
      rw [hscan j] at hv
      by_cases e : s.m_frameIndex = j
      · rw [if_pos e] at hv
        have hv' : n = v := by simpa using hv
        subst hv'
        subst e
        constructor
        · intro hj
          show n ≤ c'
          rw [← hcur, hj]
          exact ht
        · intro hj
          show n ≤ Function.update s.m_fenceValues env.backBufferIndex (n + 1) s.m_frameIndex
          rw [Function.update_noteq hj]
          exact le_of_eq hcur.symm
      · rw [if_neg e] at hv
        have old := (hlast j v hv).2 (fun e' => e e'.symm)
        constructor
        · intro hj
          show v ≤ c'
          subst hj
          exact le_trans old ht
        · intro hj
          show v ≤ Function.update s.m_fenceValues env.backBufferIndex (n + 1) j
          rw [Function.update_noteq hj]
          exact old


theorem d3d12_initialize_inv (env : D3D12InitEnv) (width height : Int)
    (h : (D3D12Renderer.Initialize D3D12Renderer.new env width height).1 = true) :
    FrameInv 0 (D3D12Renderer.Initialize D3D12Renderer.new env width height).2 ⟨[], []⟩ ⟨0⟩ := by
  obtain ⟨a1, a2, a3, a4, a5, a6, a7, a8, a9, a10, a11, a12, a13, a14⟩ := env
  cases a1 with
  | none => simp [D3D12Renderer.Initialize] at h
  | some hwnd =>
  cases a2 with
  | false => simp [D3D12Renderer.Initialize] at h
  | true =>
  cases a3 with
  | false => simp [D3D12Renderer.Initialize] at h
  | true =>
  cases a4 with
  | none => simp [D3D12Renderer.Initialize] at h
  | some idx =>
  cases a5 with
  | false => simp [D3D12Renderer.Initialize] at h
  | true =>
  cases a6 with
  | false => simp [D3D12Renderer.Initialize] at h
  | true =>
  cases a7 with
  | false => simp [D3D12Renderer.Initialize] at h
  | true =>
  cases a8 with
  | false => simp [D3D12Renderer.Initialize] at h
  | true =>
  cases a9 with
  | false => simp [D3D12Renderer.Initialize] at h
  | true =>
  cases a10 with
  | false => simp [D3D12Renderer.Initialize] at h
  | true =>
  cases a11 with
  | none => simp [D3D12Renderer.Initialize] at h
  | some ev =>
  cases a12 with
  | false => simp [D3D12Renderer.Initialize] at h
  | true =>
  cases a13 with
  | false => simp [D3D12Renderer.Initialize] at h
  | true =>
  cases a14 with
  | false => simp [D3D12Renderer.Initialize] at h
  | true =>
    exact
      { queue := rfl, fence := rfl, allocators := rfl, rootSignature := rfl,
        renderTargets := rfl, descriptorHeaps := rfl, swapChain := rfl,
        commandList := ⟨_, rfl⟩, fenceEvent := ⟨ev, rfl⟩,
        signalled := rfl, current := rfl, bound := fun _ => le_refl _,
        boundary := Or.inl rfl,
        lastUse := fun j v hv => by simp [signalAfterLastUse] at hv,
        gpu := ⟨by simp [signalValues], by simp [signalValues]⟩ }

theorem d3d12_runFrames_inv (envs : List FrameEnv) (n : Nat) (s : D3D12Renderer)
    (q : CommandQueue) (f : Fence) (h : FrameInv n s q f)
    (hn : n + envs.length < 18446744073709551616) :
    ∃ resets final qf ff, D3D12Renderer.runFrames s envs = some (resets, final)
      ∧ FrameInv (n + envs.length) final qf ff
      ∧ ∀ r ∈ resets, ∃ m qr fr, FrameInv m r qr fr := by
  induction envs generalizing n s q f with
  | nil => exact ⟨[], s, q, f, rfl, h, by simp⟩
  | cons env envs ih =>
    have hlen : (env :: envs).length = envs.length + 1 := rfl
    rw [hlen] at hn
    have h0 := d3d12_gpuAdvance_inv n env.gpuBeforeBegin s q f h
    obtain ⟨s1, q1, f1, hc, h1⟩ := d3d12_frameCycle_inv n _ _ _ env h0 (by omega)
    obtain ⟨resets, final, qf, ff, hr, hfin, hres⟩ := ih (n + 1) s1 q1 f1 h1 (by omega)
    refine ⟨D3D12Renderer.gpuAdvance env.gpuBeforeBegin s :: resets, final, qf, ff, ?_, ?_, ?_⟩
    · simp [D3D12Renderer.runFrames, hc, hr]
    · rw [hlen]
      have e : n + (envs.length + 1) = n + 1 + envs.length := by omega
      rw [e]; exact hfin
    · intro r hr'
      rw [List.mem_cons] at hr'
      rcases hr' with e | hr'
      · subst e; exact ⟨n, _, _, h0⟩
      · exact hres r hr'

/-- C9. In the Direct3D 12 backend, after a successful `Initialize`, for every
run of fewer than `2^64` frame cycles and every sequence of back-buffer indices
reported by the swap chain (and every progress of the GPU), no call fails or
blocks forever and the values passed to `Signal` by `MoveToNextFrame` are
`0, 1, 2, ...`: the first cycle signals 0 and each later cycle signals the
value of the cycle before plus 1. -/
theorem d3d12_fence_signal_value_increases_by_one (initEnv : D3D12InitEnv) (width height : Int)
    (envs : List FrameEnv)
    (hinit : (D3D12Renderer.Initialize D3D12Renderer.new initEnv width height).1 = true)
    (hlen : envs.length < 18446744073709551616) :
    ∃ resets final q,
      D3D12Renderer.runFrames (D3D12Renderer.Initialize D3D12Renderer.new initEnv width height).2
          envs = some (resets, final)
      ∧ final.m_commandQueue = some q
      ∧ q.signalled = List.range envs.length
      ∧ (0 < envs.length → q.signalled[0]? = some 0)
      ∧ ∀ k, k + 1 < envs.length →
          ∃ v, q.signalled[k]? = some v ∧ q.signalled[k + 1]? = some (v + 1) := by
  obtain ⟨resets, final, qf, ff, hr, hfin, -⟩ :=
    d3d12_runFrames_inv envs 0 _ _ _
      (d3d12_initialize_inv initEnv width height hinit) (by omega)
  rw [Nat.zero_add] at hfin
  refine ⟨resets, final, qf, hr, hfin.queue, hfin.signalled, ?_, ?_⟩
  · intro h0
    rw [hfin.signalled]
    exact List.getElem?_range h0
  · intro k hk
    refine ⟨k, ?_, ?_⟩
    · rw [hfin.signalled]; exact List.getElem?_range (by omega)
    · rw [hfin.signalled]; exact List.getElem?_range hk

/-- C10. In the Direct3D 12 backend, after a successful `Initialize`, for every
run of fewer than `2^64` frame cycles, every sequence of back-buffer indices
(so also two alternating ones) and every progress of the GPU, no call fails or
blocks forever, and whenever `BeginFrame` resets the command allocator of the
current back buffer, the completed value of the fence is at least the value
that was signalled right after the last command list recorded with that
allocator was submitted. -/
theorem d3d12_beginFrame_resets_allocator_after_fence (initEnv : D3D12InitEnv)
    (width height : Int) (envs : List FrameEnv)
    (hinit : (D3D12Renderer.Initialize D3D12Renderer.new initEnv width height).1 = true)
    (hlen : envs.length < 18446744073709551616) :
    ∃ resets final,
      D3D12Renderer.runFrames (D3D12Renderer.Initialize D3D12Renderer.new initEnv width height).2
          envs = some (resets, final)
      ∧ ∀ r ∈ resets, ∃ q f, r.m_commandQueue = some q ∧ r.m_fence = some f
          ∧ ∀ v, signalAfterLastUse r.m_frameIndex q.submitted none = some v →
              v ≤ f.completedValue := by
  obtain ⟨resets, final, qf, ff, hr, -, hres⟩ :=
    d3d12_runFrames_inv envs 0 _ _ _
      (d3d12_initialize_inv initEnv width height hinit) (by omega)
  refine ⟨resets, final, hr, ?_⟩
  intro r hmem
  obtain ⟨m, qr, fr, hinv⟩ := hres r hmem
  exact ⟨qr, fr, hinv.queue, hinv.fence, fun v hv => (hinv.lastUse _ v hv).1 rfl⟩



/-- Witness for C9: four cycles with alternating back buffers signal
`0, 1, 2, 3`. -/
theorem d3d12_fence_signal_value_increases_by_one_witness :
    ((D3D12Renderer.runFrames
        (D3D12Renderer.Initialize D3D12Renderer.new (D3D12InitEnv.allOk 0) 800 600).2
        FrameEnv.alternating4).bind fun r => r.2.m_commandQueue.map CommandQueue.signalled)
      = some [0, 1, 2, 3] := by
  obtain ⟨resets, final, q, h1, h2, h3, -⟩ :=
    d3d12_fence_signal_value_increases_by_one (D3D12InitEnv.allOk 0) 800 600
      FrameEnv.alternating4 rfl (by decide)
  rw [h1]
  simp [h2, h3, FrameEnv.alternating4, List.range_succ]

/-- Witness for C10: four cycles with alternating back buffers and a GPU that
executes nothing unless waited for. -/
theorem d3d12_beginFrame_resets_allocator_after_fence_witness :
    ∃ resets final,
      D3D12Renderer.runFrames
          (D3D12Renderer.Initialize D3D12Renderer.new (D3D12InitEnv.allOk 0) 800 600).2
          FrameEnv.alternating4 = some (resets, final)
      ∧ ∀ r ∈ resets, ∃ q f, r.m_commandQueue = some q ∧ r.m_fence = some f
          ∧ ∀ v, signalAfterLastUse r.m_frameIndex q.submitted none = some v →
              v ≤ f.completedValue :=
  d3d12_beginFrame_resets_allocator_after_fence (D3D12InitEnv.allOk 0) 800 600
    FrameEnv.alternating4 rfl (by decide)

end D3D12Frames

/-! ## Shutdown -/

section Lifecycle

variable {α : Type}

/-- C11, evaluated on a failing input. A Direct3D 11 renderer is initialised
(800x600) and holds one texture (id 1). After the window procedure has handled
`WM_CLOSE`, or after `BeginFrame` has received `WM_QUIT`, the running flag is
false and `Shutdown` returns at its first test: the texture table still holds
id 1 and the window handle is still set. Without the close, `Shutdown` empties
the table and clears the handle. -/
theorem d3d11_shutdown_after_window_close_releases_nothing :
    ((D3D11Renderer.WindowProc true (D3D11Renderer.loaded800x600 : D3D11Renderer ℚ)
        EngineState.initial WindowMessage.WM_CLOSE 0 0).1.m_isRunning = false
      ∧ (D3D11Renderer.Shutdown
          (D3D11Renderer.WindowProc true (D3D11Renderer.loaded800x600 : D3D11Renderer ℚ)
            EngineState.initial WindowMessage.WM_CLOSE 0 0).1).m_textures.keys = [1]
      ∧ (D3D11Renderer.Shutdown
          (D3D11Renderer.WindowProc true (D3D11Renderer.loaded800x600 : D3D11Renderer ℚ)
            EngineState.initial WindowMessage.WM_CLOSE 0 0).1).m_hwnd = some 1)
    ∧ ((D3D11Renderer.BeginFrame (D3D11Renderer.loaded800x600 : D3D11Renderer ℚ)
          EngineState.initial [⟨WindowMessage.WM_QUIT, 0, 0⟩]).1.m_isRunning = false
      ∧ (D3D11Renderer.Shutdown
          (D3D11Renderer.BeginFrame (D3D11Renderer.loaded800x600 : D3D11Renderer ℚ)
            EngineState.initial [⟨WindowMessage.WM_QUIT, 0, 0⟩]).1).m_textures.keys = [1]
      ∧ (D3D11Renderer.Shutdown
          (D3D11Renderer.BeginFrame (D3D11Renderer.loaded800x600 : D3D11Renderer ℚ)
            EngineState.initial [⟨WindowMessage.WM_QUIT, 0, 0⟩]).1).m_hwnd = some 1)
    ∧ ((D3D11Renderer.Shutdown
          (D3D11Renderer.loaded800x600 : D3D11Renderer ℚ)).m_textures.keys = []
      ∧ (D3D11Renderer.Shutdown
          (D3D11Renderer.loaded800x600 : D3D11Renderer ℚ)).m_hwnd = none) := by
  refine ⟨⟨rfl, rfl, rfl⟩, ⟨rfl, rfl, rfl⟩, rfl, rfl⟩

/-- C12. In the SDL2 and Direct3D 11 backends, for every renderer state, a
second `Shutdown` right after a first one returns the state that the first one
left: in the SDL2 backend the renderer pointer is null after the first call, so
the second call returns at its first test and the log of SDL calls does not
grow; in the Direct3D 11 backend the running flag is false after the first
call, so the second call returns at its first test. -/
theorem shutdown_twice_same_as_once (sdl : SDL2Renderer α) (d3d11 : D3D11Renderer α) :
    (SDL2Renderer.Shutdown (SDL2Renderer.Shutdown sdl) = SDL2Renderer.Shutdown sdl
      ∧ (SDL2Renderer.Shutdown (SDL2Renderer.Shutdown sdl)).calls
          = (SDL2Renderer.Shutdown sdl).calls
      ∧ (SDL2Renderer.Shutdown sdl).m_renderer = none)
    ∧ (D3D11Renderer.Shutdown (D3D11Renderer.Shutdown d3d11) = D3D11Renderer.Shutdown d3d11
      ∧ (D3D11Renderer.Shutdown d3d11).m_isRunning = false) := by
  have h1 : (SDL2Renderer.Shutdown sdl).m_renderer = none := by
    unfold SDL2Renderer.Shutdown
    cases hr : sdl.m_renderer with
    | none => simpa using hr
    | some r => cases hw : sdl.m_window <;> simp [hw]
  have h2 : SDL2Renderer.Shutdown (SDL2Renderer.Shutdown sdl) = SDL2Renderer.Shutdown sdl := by
    generalize SDL2Renderer.Shutdown sdl = t at h1 ⊢
    simp [SDL2Renderer.Shutdown, h1]
  have h3 : (D3D11Renderer.Shutdown d3d11).m_isRunning = false := by
    unfold D3D11Renderer.Shutdown
    cases hr : d3d11.m_isRunning with
    | false => simpa using hr
    | true => cases hw : d3d11.m_hwnd <;> simp [hw]
  have h4 : D3D11Renderer.Shutdown (D3D11Renderer.Shutdown d3d11)
      = D3D11Renderer.Shutdown d3d11 := by
    generalize D3D11Renderer.Shutdown d3d11 = t at h3 ⊢
    simp [D3D11Renderer.Shutdown, h3]
  exact ⟨⟨h2, by rw [h2], h1⟩, h4, h3⟩

/-- C13, evaluated on a failing input. A Direct3D 12 renderer is initialised
(800x600, back buffer 0). The first `Shutdown` signals the fence value 0 and
leaves `m_fenceValues[0] = 1`, and `m_device` is still set. The second
`Shutdown` therefore runs `WaitForGPU` again: it signals the fence value 1 and
leaves `m_fenceValues[0] = 2`. -/
theorem d3d12_second_shutdown_signals_again :
    ((D3D12Renderer.Shutdown D3D12Renderer.window800x600).map
      fun s => (s.m_device, s.m_fenceValues 0, s.m_commandQueue.map CommandQueue.signalled))
      = some (true, 1, some [0])
    ∧ (((D3D12Renderer.Shutdown D3D12Renderer.window800x600).bind
          D3D12Renderer.Shutdown).map
      fun s => (s.m_device, s.m_fenceValues 0, s.m_commandQueue.map CommandQueue.signalled))
      = some (true, 2, some [0, 1]) := by
  constructor <;> decide

end Lifecycle

/-! ## Direct3D 12 stubs and the Direct3D 11 vertex buffer -/

section Stubs

variable {α : Type}

theorem d3d12_loadTextures_spec (paths : List String) (s : D3D12Renderer)
    (h1 : 1 ≤ s.m_nextTextureId)
    (h2 : s.m_nextTextureId + paths.length ≤ 2147483647) :
    (D3D12Renderer.loadTextures s paths).1
        = (List.range paths.length).map (fun k : Nat => s.m_nextTextureId + k)
    ∧ (D3D12Renderer.loadTextures s paths).2.m_textures = s.m_textures := by
  induction paths generalizing s with
  | nil => simp [D3D12Renderer.loadTextures]
  | cons p ps ih =>
    have hl : (p :: ps).length = ps.length + 1 := rfl
    rw [hl] at h2
    push_cast at h2
    have hw := wrapInt32_succ s.m_nextTextureId h1 (by omega)
    have := ih { s with m_nextTextureId := s.m_nextTextureId + 1 } (by simp; omega)
      (by simp; omega)
    simp only [D3D12Renderer.loadTextures, D3D12Renderer.LoadTexture, hw, hl]
    refine ⟨?_, this.2⟩
    rw [this.1, List.range_succ_eq_map]
    simp only [List.map_cons, List.map_map, Nat.cast_zero, add_zero]
    congr 1
    apply List.map_congr_left
    intro i _
    simp only [Function.comp, Nat.cast_succ]
    ring

/-- C14. In the Direct3D 12 backend `DrawRect` and `DrawSprite` return the
renderer state unchanged for all arguments; `LoadTexture` returns the current
next-id for every file path and leaves the texture table as it was; and
successive `LoadTexture` calls starting at next-id `n >= 1` return
`n, n + 1, n + 2, ...` (so `1, 2, 3, ...` after `Initialize`), never `-1`,
as long as the counter stays within the range of `int`. -/
theorem d3d12_draw_and_load_are_stubs (s : D3D12Renderer) (textureId : Int)
    (x y w h rotation r g b a : α) (filePath : String) (paths : List String)
    (hnext : 1 ≤ s.m_nextTextureId)
    (hbound : s.m_nextTextureId + paths.length ≤ 2147483647) :
    D3D12Renderer.DrawRect s x y w h r g b a = s
    ∧ D3D12Renderer.DrawSprite s textureId x y w h rotation = s
    ∧ (D3D12Renderer.LoadTexture s filePath).1 = s.m_nextTextureId
    ∧ (D3D12Renderer.LoadTexture s filePath).2.m_textures = s.m_textures
    ∧ (D3D12Renderer.loadTextures s paths).1
        = (List.range paths.length).map (fun k : Nat => s.m_nextTextureId + k)
    ∧ (∀ id ∈ (D3D12Renderer.loadTextures s paths).1, id ≠ -1)
    ∧ (D3D12Renderer.loadTextures s paths).2.m_textures = s.m_textures := by
  obtain ⟨e1, e2⟩ := d3d12_loadTextures_spec paths s hnext hbound
  refine ⟨rfl, rfl, rfl, rfl, e1, ?_, e2⟩
  intro id hid
  rw [e1, List.mem_map] at hid
  obtain ⟨k, -, hk⟩ := hid
  omega

/-- Witness for C14: three loads after `Initialize`, none of an existing file,
return 1, 2 and 3. -/
theorem d3d12_draw_and_load_are_stubs_witness :
    (D3D12Renderer.loadTextures D3D12Renderer.window800x600
        ["missing.png", "hero.bmp", ""]).1 = [1, 2, 3] :=
  (d3d12_draw_and_load_are_stubs (α := ℚ) D3D12Renderer.window800x600
    0 0 0 0 0 0 0 0 0 0 "missing.png" ["missing.png", "hero.bmp", ""]
    (by decide) (by decide)).2.2.2.2.1.trans (by decide)

/-- C15, evaluated on a failing input. In an initialised 800x600 Direct3D 11
renderer a first `DrawRect(100, 100, 50, 50, red)` creates the vertex buffer.
A second `DrawRect(0, 0, 800, 600, green)`, or a `DrawSprite`, during which
`Map` on the vertex buffer fails, still issues its `Draw(6, 0)`: the second
draw call is recorded, and its vertices are those of the first rectangle. -/
theorem d3d11_draw_after_failed_map_uses_stale_vertices :
    (D3D11Renderer.DrawRect
        (D3D11Renderer.DrawRect (D3D11Renderer.window800x600 : D3D11Renderer ℚ)
          D3D11DrawEnv.allOk 100 100 50 50 1 0 0 1)
        D3D11DrawEnv.mapFails 0 0 800 600 0 1 0 1).draws
      = [ ⟨6, 0, D3D11Renderer.rectVertices 800 600 100 100 50 50 1 0 0 1,
            some ShaderResourceView.whiteTexture⟩,
          ⟨6, 0, D3D11Renderer.rectVertices 800 600 100 100 50 50 1 0 0 1,
            some ShaderResourceView.whiteTexture⟩ ]
    ∧ (D3D11Renderer.DrawSprite (⟨fun _ => 0, fun _ => 1⟩ : SinCos ℚ)
        (D3D11Renderer.DrawRect (D3D11Renderer.window800x600 : D3D11Renderer ℚ)
          D3D11DrawEnv.allOk 100 100 50 50 1 0 0 1)
        D3D11DrawEnv.mapFails 7 0 0 800 600 0).draws
      = [ ⟨6, 0, D3D11Renderer.rectVertices 800 600 100 100 50 50 1 0 0 1,
            some ShaderResourceView.whiteTexture⟩,
          ⟨6, 0, D3D11Renderer.rectVertices 800 600 100 100 50 50 1 0 0 1,
            some ShaderResourceView.whiteTexture⟩ ] := by
  constructor <;> rfl

end Stubs

/-! ## The backend selector and `Engine_Initialize` -/

section Selector

variable {α : Type}

theorem setError_message_nonempty (e : EngineState α) (message : List Nat)
    (h : message.headD 0 ≠ 0) : Engine_GetErrorMessage (SetError e message) ≠ [] := by
  cases message with
  | nil => simp at h
  | cons b rest =>
    simp only [List.headD_cons] at h
    have hlen : 1 ≤ strlen (b :: rest) := by
      simp [strlen, List.takeWhile_cons, h]
    have hcopy : ∃ n, (if strlen (b :: rest) < 256 - 1 then strlen (b :: rest) else 256 - 1)
        = n + 1 := by
      split
      · exact ⟨strlen (b :: rest) - 1, by omega⟩
      · exact ⟨254, rfl⟩
    obtain ⟨n, hn⟩ := hcopy
    simp only [Engine_GetErrorMessage, SetError, hn, List.take_succ_cons, List.cons_append,
      List.set_cons_succ, List.takeWhile_cons]
    simp [h]

/-- C16. On a build without `_WIN32` and with `HAS_SDL2`, `GetRendererBackend`
returns the SDL2 backend when `CHRONICLES_RENDERER` is unset and when it is one
of `dx11`, `directx11`, `d3d11`, `dx12`, `directx12`, `d3d12`; `Engine_Initialize`
then constructs an `SDL2Renderer`, and its result is that of
`SDL2Renderer::Initialize`: `true` with the SDL2 renderer held in `g_renderer`,
or `false` with the message "Renderer initialization failed". -/
theorem selector_falls_back_to_sdl2 (cfg : BuildConfig) (hw : cfg.win32 = false)
    (hs : cfg.hasSDL2 = true) (rendererEnv : Option String)
    (henv : rendererEnv = none ∨ rendererEnv ∈
      [some "dx11", some "directx11", some "d3d11", some "dx12", some "directx12",
        some "d3d12"])
    (e : EngineState α) (hinit : e.g_isInitialized = false) (hr : e.g_renderer = none)
    (env : RendererInitEnv) (width height : Int) (title : String) :
    GetRendererBackend cfg rendererEnv = RendererBackend.SDL2
    ∧ (createRenderer cfg (GetRendererBackend cfg rendererEnv) : Except _ (Renderer α))
        = Except.ok (Renderer.sdl2 SDL2Renderer.new)
    ∧ Engine_Initialize cfg e rendererEnv env width height title
        = some
          (if (SDL2Renderer.Initialize (SDL2Renderer.new : SDL2Renderer α) env.sdl2
                width height).1 = true then
            (true,
              { e with
                g_renderer := some (Renderer.sdl2
                  (SDL2Renderer.Initialize SDL2Renderer.new env.sdl2 width height).2),
                g_windowWidth := width, g_windowHeight := height,
                g_isInitialized := true, g_isRunning := true })
          else
            (false,
              { SetError e (cBytes "Renderer initialization failed") with
                g_renderer := none })) := by
  have hb : GetRendererBackend cfg rendererEnv = RendererBackend.SDL2 := by
    rcases henv with h | h
    · subst h; simp [GetRendererBackend, hw, hs]
    · simp only [List.mem_cons, List.mem_singleton, List.not_mem_nil, or_false] at h
      rcases h with h | h | h | h | h | h <;> subst h <;>
        simp [GetRendererBackend, hw, hs]
  have hc : (createRenderer cfg RendererBackend.SDL2 : Except _ (Renderer α))
      = Except.ok (Renderer.sdl2 SDL2Renderer.new) := by
    simp [createRenderer, hs]
  refine ⟨hb, by rw [hb, hc], ?_⟩
  cases hi : (SDL2Renderer.Initialize (SDL2Renderer.new : SDL2Renderer α) env.sdl2
      width height).1 <;>
    simp [Engine_Initialize, hinit, hr, hb, hc, Renderer.Initialize, Renderer.Shutdown, hi]

/-- Witness for C16: a request for `dx12` on a build with SDL2 only. -/
theorem selector_falls_back_to_sdl2_witness :
    GetRendererBackend ⟨false, true⟩ (some "dx12") = RendererBackend.SDL2 :=
  (selector_falls_back_to_sdl2 (α := ℚ) ⟨false, true⟩ rfl rfl (some "dx12") (by simp)
    EngineState.initial rfl rfl RendererInitEnv.allOk 800 600 "Test").1

/-- C17, evaluated on a failing input. On a build without `_WIN32` and with
`HAS_SDL2`, the request `CHRONICLES_RENDERER=sdl2` makes `GetRendererBackend`
return the DirectX 11 backend, and `Engine_Initialize(800, 600, "Test")` returns
`false` with no renderer and the message "DirectX 11 not available on this
platform", although every SDL call would succeed. -/
theorem selector_rejects_sdl2_request_without_gpu_backends :
    GetRendererBackend ⟨false, true⟩ (some "sdl2") = RendererBackend.DirectX11
    ∧ ((Engine_Initialize ⟨false, true⟩ (EngineState.initial : EngineState ℚ) (some "sdl2")
          RendererInitEnv.allOk 800 600 "Test").map
        fun r => (r.1, r.2.g_isInitialized, r.2.g_renderer.isSome, Engine_GetErrorMessage r.2))
      = some (false, false, false, cBytes "DirectX 11 not available on this platform") := by
  constructor
  · decide
  · decide

/-- C18. On a build with `_WIN32`, `GetRendererBackend` maps `dx12`,
`directx12` and `d3d12` to the DirectX 12 backend, and `dx11`, `directx11`,
`d3d11`, an unset variable and every other string to the DirectX 11 backend. -/
theorem selector_on_windows (cfg : BuildConfig) (hw : cfg.win32 = true)
    (rendererEnv : Option String) :
    GetRendererBackend cfg rendererEnv =
      match rendererEnv with
      | some backend =>
        if backend = "dx12" ∨ backend = "directx12" ∨ backend = "d3d12" then
          RendererBackend.DirectX12
        else RendererBackend.DirectX11
      | none => RendererBackend.DirectX11 := by
  cases rendererEnv with
  | none => simp [GetRendererBackend, hw]
  | some backend =>
    simp only [GetRendererBackend, hw, if_true]
    by_cases h11 : backend = "dx11" ∨ backend = "directx11" ∨ backend = "d3d11"
    · have h12 : ¬ (backend = "dx12" ∨ backend = "directx12" ∨ backend = "d3d12") := by
        rcases h11 with h | h | h <;> subst h <;> decide
      rw [if_pos h11, if_neg h12]
    · rw [if_neg h11]

/-- Witness for C18: `d3d12`, `sdl2` and an unset variable on Windows builds. -/
theorem selector_on_windows_witness :
    GetRendererBackend ⟨true, true⟩ (some "d3d12") = RendererBackend.DirectX12
    ∧ GetRendererBackend ⟨true, true⟩ (some "sdl2") = RendererBackend.DirectX11
    ∧ GetRendererBackend ⟨true, false⟩ none = RendererBackend.DirectX11 :=
  ⟨(selector_on_windows ⟨true, true⟩ rfl (some "d3d12")).trans (by decide),
   (selector_on_windows ⟨true, true⟩ rfl (some "sdl2")).trans (by decide),
   (selector_on_windows ⟨true, false⟩ rfl none).trans rfl⟩

/-- C19. On a build with neither `_WIN32` nor `HAS_SDL2`, when the engine is not
initialised and holds no renderer, `Engine_Initialize(800, 600, "Test")` returns
`false` for every value of `CHRONICLES_RENDERER` (unset included); afterwards
the engine is still not initialised, holds no renderer, and
`Engine_GetErrorMessage` returns a non-empty string. -/
theorem engine_initialize_fails_without_any_backend (cfg : BuildConfig)
    (hw : cfg.win32 = false) (hs : cfg.hasSDL2 = false) (e : EngineState α)
    (hinit : e.g_isInitialized = false) (hr : e.g_renderer = none)
    (rendererEnv : Option String) (env : RendererInitEnv) :
    ∃ e', Engine_Initialize cfg e rendererEnv env 800 600 "Test" = some (false, e')
      ∧ e'.g_isInitialized = false ∧ e'.g_renderer = none
      ∧ Engine_GetErrorMessage e' ≠ [] := by
  have hcases : GetRendererBackend cfg rendererEnv = RendererBackend.SDL2
      ∨ GetRendererBackend cfg rendererEnv = RendererBackend.DirectX11 := by
    cases rendererEnv with
    | none => left; simp [GetRendererBackend, hw]
    | some backend =>
      simp only [GetRendererBackend, hw, hs]
      by_cases h11 : backend = "dx11" ∨ backend = "directx11" ∨ backend = "d3d11"
      · left; simp [h11]
      · by_cases h12 : backend = "dx12" ∨ backend = "directx12" ∨ backend = "d3d12"
        · left; simp [h11, h12]
        · right; simp [h11, h12]
  rcases hcases with hb | hb
  · refine ⟨SetError e (cBytes
      "SDL2 not available. Install SDL2 development libraries or use DirectX on Windows."),
      ?_, hinit, hr, setError_message_nonempty e _ (by decide)⟩
    simp [Engine_Initialize, hinit, hb, createRenderer, hs]
  · refine ⟨SetError e (cBytes "DirectX 11 not available on this platform"),
      ?_, hinit, hr, setError_message_nonempty e _ (by decide)⟩
    simp [Engine_Initialize, hinit, hb, createRenderer, hw]

/-- Witness for C19: the engine at program start, with `CHRONICLES_RENDERER`
unset. -/
theorem engine_initialize_fails_without_any_backend_witness :
    ∃ e', Engine_Initialize ⟨false, false⟩ (EngineState.initial : EngineState ℚ) none
        RendererInitEnv.allOk 800 600 "Test" = some (false, e')
      ∧ e'.g_isInitialized = false ∧ e'.g_renderer = none
      ∧ Engine_GetErrorMessage e' ≠ [] :=
  engine_initialize_fails_without_any_backend ⟨false, false⟩ rfl rfl EngineState.initial
    rfl rfl none RendererInitEnv.allOk

end Selector

/-! ## Keyboard messages -/

section Keys

variable {α : Type}

/-- C20. In the window procedures of the Direct3D 11 and Direct3D 12 backends,
a `WM_KEYDOWN` whose `lParam` has bit 30 set (auto-repeat) leaves the renderer
and every global of the engine unchanged (held keys, pressed and released sets,
callback calls); a `WM_KEYDOWN` with bit 30 clear applies
`Engine_SetKeyState(code, true, true)`; every `WM_KEYUP` applies
`Engine_SetKeyState(code, false, false)`, with `code = static_cast<int>(wParam)`. -/
theorem windowProc_suppresses_key_repeat [IntCast α] (hasRenderer : Bool)
    (d3d11 : D3D11Renderer α) (d3d12 : D3D12Renderer) (e : EngineState α)
    (wParam lParam : Int) :
    ((lParam.testBit 30 = true →
        D3D11Renderer.WindowProc hasRenderer d3d11 e WindowMessage.WM_KEYDOWN wParam lParam
          = (d3d11, e))
      ∧ (lParam.testBit 30 = false →
        D3D11Renderer.WindowProc hasRenderer d3d11 e WindowMessage.WM_KEYDOWN wParam lParam
          = (d3d11, Engine_SetKeyState e (wrapInt32 wParam) true true))
      ∧ D3D11Renderer.WindowProc hasRenderer d3d11 e WindowMessage.WM_KEYUP wParam lParam
          = (d3d11, Engine_SetKeyState e (wrapInt32 wParam) false false))
    ∧ ((lParam.testBit 30 = true →
        D3D12Renderer.WindowProc hasRenderer d3d12 e WindowMessage.WM_KEYDOWN wParam lParam
          = (d3d12, e))
      ∧ (lParam.testBit 30 = false →
        D3D12Renderer.WindowProc hasRenderer d3d12 e WindowMessage.WM_KEYDOWN wParam lParam
          = (d3d12, Engine_SetKeyState e (wrapInt32 wParam) true true))
      ∧ D3D12Renderer.WindowProc hasRenderer d3d12 e WindowMessage.WM_KEYUP wParam lParam
          = (d3d12, Engine_SetKeyState e (wrapInt32 wParam) false false)) := by
  refine ⟨⟨?_, ?_, rfl⟩, ⟨?_, ?_, rfl⟩⟩
  · intro h; simp [D3D11Renderer.WindowProc, maskRepeatBit, h]
  · intro h; simp [D3D11Renderer.WindowProc, maskRepeatBit, h]
  · intro h; simp [D3D12Renderer.WindowProc, maskRepeatBit, h]
  · intro h; simp [D3D12Renderer.WindowProc, maskRepeatBit, h]

/-- Witness for C20: key `A` (code 65) with `lParam = 0x401E0001` (repeat) and
with `lParam = 0x001E0001` (first press), at program start. -/
theorem windowProc_suppresses_key_repeat_witness :
    (D3D11Renderer.WindowProc true (D3D11Renderer.window800x600 : D3D11Renderer ℚ)
        EngineState.initial WindowMessage.WM_KEYDOWN 65 1075707905).2.g_keyStates.keys = []
    ∧ (D3D11Renderer.WindowProc true (D3D11Renderer.window800x600 : D3D11Renderer ℚ)
        EngineState.initial WindowMessage.WM_KEYDOWN 65 1966081).2.g_keyPressed.keys
          = [65] := by
  have h := windowProc_suppresses_key_repeat true
    (D3D11Renderer.window800x600 : D3D11Renderer ℚ) D3D12Renderer.window800x600
    EngineState.initial 65
  constructor
  · rw [(h 1075707905).1.1 (by decide)]; rfl
  · rw [(h 1966081).1.2.1 (by decide)]; rfl

end Keys

/-! ## Input: mouse buttons, the per-frame reset and the queries -/

section Input

variable {α : Type}

theorem stdMap_findEntries_assignEntries_ne {τ : Type} (m : List (Int × τ)) (k k' : Int) (v : τ)
    (h : k ≠ k') : StdMap.findEntries (StdMap.assignEntries m k v) k' = StdMap.findEntries m k' := by
  induction m with
  | nil => simp [StdMap.assignEntries, StdMap.findEntries, h]
  | cons p m ih =>
    obtain ⟨k0, v0⟩ := p
    by_cases h1 : k < k0
    · simp [StdMap.assignEntries, StdMap.findEntries, h1, h]
    · by_cases h2 : k = k0
      · subst h2
        simp [StdMap.assignEntries, StdMap.findEntries, h]
      · simp [StdMap.assignEntries, StdMap.findEntries, h1, h2, ih]

theorem stdMap_find_assign (m : StdMap Bool) (k k' : Int) (v : Bool) :
    (m.assign k v).find k' = if k = k' then some v else m.find k' := by
  by_cases h : k = k'
  · subst h
    simp [StdMap.find_assign_self]
  · simp [h, StdMap.find, StdMap.assign, stdMap_findEntries_assignEntries_ne _ _ _ _ h]

theorem stdMap_find_clear (m : StdMap Bool) (k : Int) : m.clear.find k = none := rfl

theorem input_isKeyDown_setKeyState (e : EngineState α) (k k' : Int) (d p : Bool) :
    Input_IsKeyDown (Engine_SetKeyState e k d p) k'
      = if k = k' then d else Input_IsKeyDown e k' := by
  have h : (Engine_SetKeyState e k d p).g_keyStates = e.g_keyStates.assign k d := by
    unfold Engine_SetKeyState
    cases d <;> cases p <;> cases e.g_inputCallback <;> rfl
  unfold Input_IsKeyDown
  rw [h, stdMap_find_assign]
  by_cases hk : k = k' <;> simp [hk]

theorem input_isKeyDown_setKeyStates (calls : List (Int × Bool × Bool)) (e : EngineState α)
    (k : Int) :
    Input_IsKeyDown (setKeyStates e calls) k
      = (lastIsDown k calls).getD (Input_IsKeyDown e k) := by
  induction calls generalizing e with
  | nil => rfl
  | cons c calls ih =>
    have h : setKeyStates e (c :: calls)
        = setKeyStates (Engine_SetKeyState e c.1 c.2.1 c.2.2) calls := rfl
    rw [h, ih, input_isKeyDown_setKeyState]
    cases hl : lastIsDown k calls with
    | some d => simp [lastIsDown, hl]
    | none =>
      by_cases hk : c.1 = k <;> simp [lastIsDown, hl, hk]

/-- The input maps after an `Engine_BeginFrame` in which no event and no
message arrives. -/
theorem engine_beginFrame_without_events [IntCast α] (cfg : BuildConfig) (e e' : EngineState α)
    (h : Engine_BeginFrame cfg e [] [] = some e') :
    e'.g_keyStates = e.g_keyStates ∧ e'.g_keyPressed = e.g_keyPressed.clear
      ∧ e'.g_keyReleased = e.g_keyReleased.clear
      ∧ e'.g_mouseButtonStates = e.g_mouseButtonStates
      ∧ e'.g_mouseButtonPressed = e.g_mouseButtonPressed.clear
      ∧ e'.g_mouseButtonReleased = e.g_mouseButtonReleased.clear := by
  unfold Engine_BeginFrame beginRendererFrame at h
  simp only [List.foldl_nil, ite_self] at h
  have hr : (clearPreviousFrameInput e).g_renderer = e.g_renderer := rfl
  cases hq : e.g_renderer with
  | none =>
    rw [hr, hq] at h
    simp only [Option.some.injEq] at h
    subst h
    exact ⟨rfl, rfl, rfl, rfl, rfl, rfl⟩
  | some renderer =>
    rw [hr, hq] at h
    cases renderer with
    | sdl2 r =>
      simp only [Option.some.injEq] at h
      subst h
      exact ⟨rfl, rfl, rfl, rfl, rfl, rfl⟩
    | d3d11 r =>
      simp only [D3D11Renderer.BeginFrame, Option.some.injEq] at h
      subst h
      exact ⟨rfl, rfl, rfl, rfl, rfl, rfl⟩
    | d3d12 r =>
      simp only [Option.map_eq_some'] at h
      obtain ⟨r1, -, h⟩ := h
      subst h
      exact ⟨rfl, rfl, rfl, rfl, rfl, rfl⟩

/-- C23. The per-frame reset of `Engine_BeginFrame` clears the edge flags and
keeps the held-key state: after a sequence of `Engine_SetKeyState` calls from
any input state and an `Engine_BeginFrame` in which no event arrives,
`Input_IsKeyPressed(k)` and `Input_IsKeyReleased(k)` are false for every key
`k`, and `Input_IsKeyDown(k)` has the value it had before the reset, which is
the `isDown` argument of the most recent `Engine_SetKeyState` for `k` (the
value before the calls when there was none). The SDL event loop makes the same
writes as `Engine_SetKeyState` for a key-down that is not a repeat and for a
key-up. -/
theorem beginFrame_reset_clears_edges_keeps_held_keys [IntCast α] (cfg : BuildConfig)
    (e e' : EngineState α) (calls : List (Int × Bool × Bool)) (k : Int)
    (h : Engine_BeginFrame cfg (setKeyStates e calls) [] [] = some e') :
    Input_IsKeyPressed e' k = false ∧ Input_IsKeyReleased e' k = false
      ∧ Input_IsKeyDown e' k = Input_IsKeyDown (setKeyStates e calls) k
      ∧ Input_IsKeyDown e' k = (lastIsDown k calls).getD (Input_IsKeyDown e k)
      ∧ Input_IsKeyPressed (clearPreviousFrameInput (setKeyStates e calls)) k = false
      ∧ Input_IsKeyReleased (clearPreviousFrameInput (setKeyStates e calls)) k = false
      ∧ Input_IsKeyDown (clearPreviousFrameInput (setKeyStates e calls)) k
          = Input_IsKeyDown (setKeyStates e calls) k
      ∧ (∀ (e0 : EngineState α) (sym : Int) (isPressed : Bool),
          handleSDLEvent e0 (SDL_Event.SDL_KEYDOWN sym 0) = Engine_SetKeyState e0 sym true true
            ∧ handleSDLEvent e0 (SDL_Event.SDL_KEYUP sym)
                = Engine_SetKeyState e0 sym false isPressed) := by
  obtain ⟨h1, h2, h3, -⟩ := engine_beginFrame_without_events cfg _ _ h
  have hd : Input_IsKeyDown e' k = Input_IsKeyDown (setKeyStates e calls) k := by
    unfold Input_IsKeyDown
    rw [h1]
  refine ⟨?_, ?_, hd, ?_, rfl, rfl, rfl, ?_⟩
  · unfold Input_IsKeyPressed
    rw [h2]
    rfl
  · unfold Input_IsKeyReleased
    rw [h3]
    rfl
  · rw [hd, input_isKeyDown_setKeyStates]
  · intro e0 sym isPressed
    constructor
    · unfold handleSDLEvent Engine_SetKeyState
      cases e0.g_inputCallback <;> rfl
    · unfold handleSDLEvent Engine_SetKeyState
      cases e0.g_inputCallback <;> rfl

/-- Witness for C23: at program start, without a renderer, after `A` (65) went
down and up and `B` (66) went down, the next frame reports `B` held, `A` not
held, and no key pressed or released. -/
theorem beginFrame_reset_clears_edges_keeps_held_keys_witness :
    Input_IsKeyDown
        (clearPreviousFrameInput
          (setKeyStates (EngineState.initial : EngineState ℚ)
            [(65, true, true), (65, false, false), (66, true, true)])) 66
      = (lastIsDown 66 [(65, true, true), (65, false, false), (66, true, true)]).getD
          (Input_IsKeyDown (EngineState.initial : EngineState ℚ) 66) :=
  (beginFrame_reset_clears_edges_keeps_held_keys BuildConfig.sdl2Only
    (EngineState.initial : EngineState ℚ) _
    [(65, true, true), (65, false, false), (66, true, true)] 66 rfl).2.2.2.1

/-- C30. The held state of a mouse button cannot be observed: after
`Engine_SetMouseButtonState(b, true)`, `Input_IsMouseButtonPressed(b)` is true
until the next `Engine_BeginFrame`; after an `Engine_BeginFrame` in which no
event arrives it is false, although `g_mouseButtonStates[b]` is still `true`,
and replacing `g_mouseButtonStates` by any other map changes the answer of no
query. -/
theorem mouse_button_held_state_not_observable [IntCast α] (cfg : BuildConfig)
    (e e' : EngineState α) (b : Int)
    (h : Engine_BeginFrame cfg (Engine_SetMouseButtonState e b true) [] [] = some e') :
    Input_IsMouseButtonPressed (Engine_SetMouseButtonState e b true) b = true
      ∧ Input_IsMouseButtonPressed e' b = false
      ∧ e'.g_mouseButtonStates.find b = some true
      ∧ ∀ m : StdMap Bool,
          (∀ k, Input_IsMouseButtonPressed { e' with g_mouseButtonStates := m } k
              = Input_IsMouseButtonPressed e' k)
          ∧ (∀ k, Input_IsKeyPressed { e' with g_mouseButtonStates := m } k
              = Input_IsKeyPressed e' k)
          ∧ (∀ k, Input_IsKeyDown { e' with g_mouseButtonStates := m } k = Input_IsKeyDown e' k)
          ∧ (∀ k, Input_IsKeyReleased { e' with g_mouseButtonStates := m } k
              = Input_IsKeyReleased e' k)
          ∧ Input_GetMousePosition { e' with g_mouseButtonStates := m }
              = Input_GetMousePosition e'
          ∧ Engine_IsRunning { e' with g_mouseButtonStates := m } = Engine_IsRunning e' := by
  obtain ⟨-, -, -, h4, h5, -⟩ := engine_beginFrame_without_events cfg _ _ h
  refine ⟨?_, ?_, ?_, ?_⟩
  · simp [Input_IsMouseButtonPressed, Engine_SetMouseButtonState, StdMap.find_assign_self]
  · unfold Input_IsMouseButtonPressed
    rw [h5]
    rfl
  · rw [h4]
    simp [Engine_SetMouseButtonState, StdMap.find_assign_self]
  · intro m
    exact ⟨fun _ => rfl, fun _ => rfl, fun _ => rfl, fun _ => rfl, rfl, rfl⟩

/-- Witness for C30: at program start, without a renderer, the left button
goes down and the next frame begins without an event. -/
theorem mouse_button_held_state_not_observable_witness :
    Input_IsMouseButtonPressed
        (clearPreviousFrameInput
          (Engine_SetMouseButtonState (EngineState.initial : EngineState ℚ) 0 true)) 0 = false :=
  (mouse_button_held_state_not_observable BuildConfig.sdl2Only
    (EngineState.initial : EngineState ℚ) _ 0 rfl).2.1

/-- C21. The window procedures of the Direct3D 11 and Direct3D 12 backends
forward a down or up message of the left, right and middle button as
`Engine_SetMouseButtonState(0, 1, 2, isDown)`, so that
`Input_IsMouseButtonPressed` is true after a button-down message. The event
loop of `Engine_BeginFrame`, which serves the SDL2 backend, has no case for
`SDL_MOUSEBUTTONDOWN` and `SDL_MOUSEBUTTONUP`: such an event leaves the globals
unchanged, and in an SDL2 build with the SDL2 renderer running, a frame that
receives a button-down event of the left button ends with
`Input_IsMouseButtonPressed(0)` false and an empty `g_mouseButtonStates`. -/
theorem sdl2_event_loop_drops_mouse_button_events :
    (∀ (s : D3D11Renderer ℚ) (e : EngineState ℚ) (wParam lParam : Int),
      (D3D11Renderer.WindowProc true s e WindowMessage.WM_LBUTTONDOWN wParam lParam).2
          = Engine_SetMouseButtonState e 0 true
        ∧ (D3D11Renderer.WindowProc true s e WindowMessage.WM_LBUTTONUP wParam lParam).2
          = Engine_SetMouseButtonState e 0 false
        ∧ (D3D11Renderer.WindowProc true s e WindowMessage.WM_RBUTTONDOWN wParam lParam).2
          = Engine_SetMouseButtonState e 1 true
        ∧ (D3D11Renderer.WindowProc true s e WindowMessage.WM_RBUTTONUP wParam lParam).2
          = Engine_SetMouseButtonState e 1 false
        ∧ (D3D11Renderer.WindowProc true s e WindowMessage.WM_MBUTTONDOWN wParam lParam).2
          = Engine_SetMouseButtonState e 2 true
        ∧ (D3D11Renderer.WindowProc true s e WindowMessage.WM_MBUTTONUP wParam lParam).2
          = Engine_SetMouseButtonState e 2 false)
    ∧ (∀ (s : D3D12Renderer) (e : EngineState ℚ) (wParam lParam : Int),
      (D3D12Renderer.WindowProc true s e WindowMessage.WM_LBUTTONDOWN wParam lParam).2
          = Engine_SetMouseButtonState e 0 true
        ∧ (D3D12Renderer.WindowProc true s e WindowMessage.WM_LBUTTONUP wParam lParam).2
          = Engine_SetMouseButtonState e 0 false
        ∧ (D3D12Renderer.WindowProc true s e WindowMessage.WM_RBUTTONDOWN wParam lParam).2
          = Engine_SetMouseButtonState e 1 true
        ∧ (D3D12Renderer.WindowProc true s e WindowMessage.WM_RBUTTONUP wParam lParam).2
          = Engine_SetMouseButtonState e 1 false
        ∧ (D3D12Renderer.WindowProc true s e WindowMessage.WM_MBUTTONDOWN wParam lParam).2
          = Engine_SetMouseButtonState e 2 true
        ∧ (D3D12Renderer.WindowProc true s e WindowMessage.WM_MBUTTONUP wParam lParam).2
          = Engine_SetMouseButtonState e 2 false)
    ∧ (∀ (e : EngineState ℚ) (button : Int),
        Input_IsMouseButtonPressed (Engine_SetMouseButtonState e button true) button = true)
    ∧ (∀ (e : EngineState ℚ) (button : Nat),
        handleSDLEvent e (SDL_Event.SDL_MOUSEBUTTONDOWN button) = e
          ∧ handleSDLEvent e (SDL_Event.SDL_MOUSEBUTTONUP button) = e)
    ∧ Engine_IsRunning (EngineState.initialized BuildConfig.sdl2Only none) = true
    ∧ (Engine_BeginFrame BuildConfig.sdl2Only (EngineState.initialized BuildConfig.sdl2Only none)
          [SDL_Event.SDL_MOUSEBUTTONDOWN 1] []).map
        (fun e' => (Input_IsMouseButtonPressed e' 0, e'.g_mouseButtonStates))
        = some (false, StdMap.empty) := by
  refine ⟨fun _ _ _ _ => ⟨rfl, rfl, rfl, rfl, rfl, rfl⟩,
    fun _ _ _ _ => ⟨rfl, rfl, rfl, rfl, rfl, rfl⟩, ?_, fun _ _ => ⟨rfl, rfl⟩, rfl, rfl⟩
  intro e button
  simp [Input_IsMouseButtonPressed, Engine_SetMouseButtonState, StdMap.find_assign_self]

end Input

/-! ## Calls without a renderer, and `Shutdown` after a failed `Initialize` -/

section NoRenderer

variable {α : Type} [LinearOrderedField α] [FloorRing α]

/-- C22. When `g_renderer` is null, `Renderer_LoadTexture` returns `-1` for
every path and leaves the globals unchanged, and `Renderer_UnloadTexture`,
`Renderer_DrawSprite`, `Renderer_Clear`, `Renderer_DrawRect` and
`Renderer_Present` return with the globals unchanged, for all arguments.
`g_renderer` is null at program start, stays null through an
`Engine_Initialize` that returns `false`, and is null after an
`Engine_Shutdown` of an initialized engine. -/
theorem renderer_calls_without_renderer_do_nothing (cfg : BuildConfig) (sc : SinCos α)
    (e : EngineState α) (h : e.g_renderer = none) :
    (∀ env filePath, Renderer_LoadTexture e env filePath = (-1, e))
      ∧ (∀ textureId, Renderer_UnloadTexture e textureId = e)
      ∧ (∀ env textureId x y width height rotation,
          Renderer_DrawSprite sc e env textureId x y width height rotation = e)
      ∧ (∀ r g b a, Renderer_Clear e r g b a = some e)
      ∧ (∀ env x y width height r g b a,
          Renderer_DrawRect e env x y width height r g b a = e)
      ∧ (∀ gpuBeforeFenceCheck backBufferIndex,
          Renderer_Present e gpuBeforeFenceCheck backBufferIndex = some e)
      ∧ (EngineState.initial : EngineState α).g_renderer = none
      ∧ (∀ rendererEnv env width height title e',
          Engine_Initialize cfg e rendererEnv env width height title = some (false, e') →
            e'.g_renderer = none)
      ∧ (∀ e0 e' : EngineState α, e0.g_isInitialized = true → Engine_Shutdown e0 = some e' →
            e'.g_renderer = none) := by
  refine ⟨?_, ?_, ?_, ?_, ?_, ?_, rfl, ?_, ?_⟩
  · intro env filePath
    simp [Renderer_LoadTexture, h]
  · intro textureId
    simp [Renderer_UnloadTexture, h]
  · intros
    simp [Renderer_DrawSprite, h]
  · intros
    simp [Renderer_Clear, h]
  · intros
    simp [Renderer_DrawRect, h]
  · intros
    simp [Renderer_Present, h]
  · intro rendererEnv env width height title e' hi
    unfold Engine_Initialize at hi
    by_cases hinit : e.g_isInitialized = true
    · simp [hinit] at hi
    · simp only [hinit] at hi
      cases hc : createRenderer cfg (GetRendererBackend cfg rendererEnv) with
      | error message =>
        rw [hc] at hi
        simp at hi
        rw [← hi]
        exact h
      | ok renderer =>
        rw [hc] at hi
        simp only [h] at hi
        by_cases hr : (Renderer.Initialize renderer env width height).1 = true
        · simp [hr] at hi
        · simp only [hr] at hi
          cases hs : Renderer.Shutdown (Renderer.Initialize renderer env width height).2 with
          | none => simp [hs] at hi
          | some r1 =>
            simp [hs] at hi
            rw [← hi]
  · intro e0 e' hinit hs
    unfold Engine_Shutdown at hs
    simp only [hinit] at hs
    cases hq : e0.g_renderer with
    | none =>
      simp [hq] at hs
      rw [← hs]
    | some renderer =>
      simp only [hq] at hs
      cases h1 : Renderer.Shutdown renderer with
      | none => simp [h1] at hs
      | some r1 =>
        cases h2 : Renderer.Shutdown r1 with
        | none => simp [h1, h2] at hs
        | some r2 =>
          simp [h1, h2] at hs
          rw [← hs]

end NoRenderer

/-- Witness for C22: at program start `Renderer_LoadTexture` returns `-1`. -/
theorem renderer_calls_without_renderer_do_nothing_witness :
    (Renderer_LoadTexture (EngineState.initial : EngineState ℚ)
        ⟨SDL2LoadEnv.allOk 5 9, D3D11LoadEnv.allOk 10 11⟩ "player.bmp").1 = -1 :=
  congrArg Prod.fst
    ((renderer_calls_without_renderer_do_nothing BuildConfig.sdl2Only ⟨fun _ => 0, fun _ => 1⟩
      (EngineState.initial : EngineState ℚ) rfl).1
      ⟨SDL2LoadEnv.allOk 5 9, D3D11LoadEnv.allOk 10 11⟩ "player.bmp")

/-! ## Collision test -/

section Physics

/-- C24. Over real arithmetic and for boxes of positive width and height,
`Physics_CheckCollision` returns `true` exactly when some point lies strictly
inside both boxes; it returns `false` when a side of one box lies on the line
of the opposite side of the other (touching along an edge or at a corner), and
swapping the two boxes does not change the result. -/
theorem physics_checkCollision_iff_interiors_meet (x1 y1 w1 h1 x2 y2 w2 h2 : ℝ)
    (hw1 : 0 < w1) (hh1 : 0 < h1) (hw2 : 0 < w2) (hh2 : 0 < h2) :
    (Physics_CheckCollision x1 y1 w1 h1 x2 y2 w2 h2 = true
        ↔ InteriorsMeet x1 y1 w1 h1 x2 y2 w2 h2)
      ∧ (x1 + w1 = x2 ∨ x2 + w2 = x1 ∨ y1 + h1 = y2 ∨ y2 + h2 = y1 →
          Physics_CheckCollision x1 y1 w1 h1 x2 y2 w2 h2 = false)
      ∧ Physics_CheckCollision x2 y2 w2 h2 x1 y1 w1 h1
          = Physics_CheckCollision x1 y1 w1 h1 x2 y2 w2 h2 := by
  have hiff : ∀ a1 b1 c1 d1 a2 b2 c2 d2 : ℝ,
      Physics_CheckCollision a1 b1 c1 d1 a2 b2 c2 d2 = true
        ↔ (a1 < a2 + c2 ∧ a2 < a1 + c1) ∧ (b1 < b2 + d2 ∧ b2 < b1 + d1) := by
    intro a1 b1 c1 d1 a2 b2 c2 d2
    simp only [Physics_CheckCollision, Bool.and_eq_true, decide_eq_true_eq, gt_iff_lt]
    tauto
  refine ⟨?_, ?_, ?_⟩
  · rw [hiff]
    constructor
    · rintro ⟨⟨ha, hb⟩, hc, hd⟩
      refine ⟨(max x1 x2 + min (x1 + w1) (x2 + w2)) / 2,
        (max y1 y2 + min (y1 + h1) (y2 + h2)) / 2, ?_, ?_⟩
      · have hx : max x1 x2 < min (x1 + w1) (x2 + w2) := by
          rw [max_lt_iff, lt_min_iff, lt_min_iff]
          exact ⟨⟨by linarith, ha⟩, hb, by linarith⟩
        have hy : max y1 y2 < min (y1 + h1) (y2 + h2) := by
          rw [max_lt_iff, lt_min_iff, lt_min_iff]
          exact ⟨⟨by linarith, hc⟩, hd, by linarith⟩
        have := le_max_left x1 x2
        have := min_le_left (x1 + w1) (x2 + w2)
        have := le_max_left y1 y2
        have := min_le_left (y1 + h1) (y2 + h2)
        refine ⟨by linarith, by linarith, by linarith, by linarith⟩
      · have hx : max x1 x2 < min (x1 + w1) (x2 + w2) := by
          rw [max_lt_iff, lt_min_iff, lt_min_iff]
          exact ⟨⟨by linarith, ha⟩, hb, by linarith⟩
        have hy : max y1 y2 < min (y1 + h1) (y2 + h2) := by
          rw [max_lt_iff, lt_min_iff, lt_min_iff]
          exact ⟨⟨by linarith, hc⟩, hd, by linarith⟩
        have := le_max_right x1 x2
        have := min_le_right (x1 + w1) (x2 + w2)
        have := le_max_right y1 y2
        have := min_le_right (y1 + h1) (y2 + h2)
        refine ⟨by linarith, by linarith, by linarith, by linarith⟩
    · rintro ⟨px, py, ⟨a1, a2, a3, a4⟩, b1, b2, b3, b4⟩
      exact ⟨⟨by linarith, by linarith⟩, by linarith, by linarith⟩
  · intro htouch
    rw [← Bool.not_eq_true, hiff]
    rintro ⟨⟨ha, hb⟩, hc, hd⟩
    rcases htouch with h | h | h | h <;> linarith
  · rw [Bool.eq_iff_iff, hiff, hiff]
    tauto

/-- Witness for C24: the boxes `(0, 0, 2, 2)` and `(1, 1, 2, 2)` overlap, the
boxes `(0, 0, 2, 2)` and `(2, 0, 2, 2)` share an edge only. -/
theorem physics_checkCollision_iff_interiors_meet_witness :
    InteriorsMeet (0 : ℝ) 0 2 2 1 1 2 2
      ∧ Physics_CheckCollision (0 : ℝ) 0 2 2 2 0 2 2 = false :=
  ⟨(physics_checkCollision_iff_interiors_meet 0 0 2 2 1 1 2 2 (by norm_num) (by norm_num)
      (by norm_num) (by norm_num)).1.mp (by simp [Physics_CheckCollision]; norm_num),
    (physics_checkCollision_iff_interiors_meet 0 0 2 2 2 0 2 2 (by norm_num) (by norm_num)
      (by norm_num) (by norm_num)).2.1 (Or.inl (by norm_num))⟩

end Physics

/-! ## Direct3D 12: `Shutdown` after a failed `Initialize` -/

section FailedInitialize

/-- C25. In the Direct3D 12 backend, when `Initialize` fails in
`CreateCommandQueue` the device is set while the command queue, the fence and
the fence event are missing, and when it fails in `CreateSwapChain` the fence
and the fence event are missing. `Shutdown` passes its guard `!m_device` in
both states and `WaitForGPU` then uses the missing object: `Shutdown` fails.
`Engine_Initialize` runs this `Shutdown` through the destructor when it resets
`g_renderer` after the failed `Initialize`, so it fails as well. A failure
after the fence has been created leaves `Shutdown` working. -/
theorem d3d12_shutdown_after_failed_initialize_uses_missing_objects :
    ((D3D12Renderer.Initialize D3D12Renderer.new D3D12InitEnv.noCommandQueue 800 600).1 = false
        ∧ (D3D12Renderer.Initialize D3D12Renderer.new D3D12InitEnv.noCommandQueue 800 600).2
            = { D3D12Renderer.new with m_width := 800, m_height := 600, m_hwnd := some 1,
                                       m_device := true }
        ∧ (D3D12Renderer.WaitForGPU
            (D3D12Renderer.Initialize D3D12Renderer.new D3D12InitEnv.noCommandQueue
              800 600).2).isNone = true
        ∧ (D3D12Renderer.Shutdown
            (D3D12Renderer.Initialize D3D12Renderer.new D3D12InitEnv.noCommandQueue
              800 600).2).isNone = true)
      ∧ ((D3D12Renderer.Initialize D3D12Renderer.new D3D12InitEnv.noSwapChain 800 600).1 = false
        ∧ (D3D12Renderer.Initialize D3D12Renderer.new D3D12InitEnv.noSwapChain 800 600).2
            = { D3D12Renderer.new with m_width := 800, m_height := 600, m_hwnd := some 1,
                                       m_device := true, m_commandQueue := some ⟨[], []⟩ }
        ∧ (D3D12Renderer.WaitForGPU
            (D3D12Renderer.Initialize D3D12Renderer.new D3D12InitEnv.noSwapChain
              800 600).2).isNone = true
        ∧ (D3D12Renderer.Shutdown
            (D3D12Renderer.Initialize D3D12Renderer.new D3D12InitEnv.noSwapChain
              800 600).2).isNone = true)
      ∧ (Engine_Initialize BuildConfig.windowsOnly (EngineState.initial : EngineState ℚ)
            (some "dx12")
            ⟨SDL2InitEnv.allOk, D3D11InitEnv.allOk, D3D12InitEnv.noCommandQueue⟩
            800 600 "Chronicles").isNone = true
      ∧ (∀ (env : D3D12InitEnv) (width height : Int),
          (D3D12Renderer.Initialize D3D12Renderer.new env width height).2.m_device = true →
          (D3D12Renderer.Initialize D3D12Renderer.new env width height).2.m_fence = none →
          (D3D12Renderer.Shutdown
            (D3D12Renderer.Initialize D3D12Renderer.new env width height).2).isNone = true)
      ∧ (D3D12Renderer.Shutdown
          (D3D12Renderer.Initialize D3D12Renderer.new
            D3D12InitEnv.noCommandAllocators 800 600).2).isSome
          = true := by
  refine ⟨⟨rfl, rfl, rfl, rfl⟩, ⟨rfl, rfl, rfl, rfl⟩, rfl, ?_, rfl⟩
  intro env width height hd hf
  unfold D3D12Renderer.Shutdown D3D12Renderer.WaitForGPU
  rw [hd, hf]
  cases (D3D12Renderer.Initialize D3D12Renderer.new env width height).2.m_commandQueue <;> rfl

end FailedInitialize

/-! ## Direct3D 11: winding and the space of the rotation -/

section D3D11Winding

open D3D11Renderer

/-- The vertex positions that `DrawSprite` uploads are those of the quad turned
by the rotation matrix it uses: the identity for the angle zero. -/
theorem d3d11_spriteVertices_positions (sc : SinCos ℝ) (W H : Int) (x y w h t : ℝ) :
    (spriteVertices sc W H x y w h t).map Vertex.position
      = rotatedQuad (((x + w / 2) / W) * 2 - 1) (1 - ((y + h / 2) / H) * 2) (w / W) (h / H)
          (if t ≠ 0 then sc.cos t else 1) (if t ≠ 0 then sc.sin t else 0) := by
  by_cases ht : t = 0
  · subst ht
    simp [spriteVertices, spriteCorners, XMVector3Transform, XMMatrixIdentity, XMVectorSet,
      XMVectorGetX, XMVectorGetY, rotatedQuad, rotate]
    refine ⟨⟨?_, ?_⟩, ⟨?_, ?_⟩, ⟨?_, ?_⟩, ⟨?_, ?_⟩, ⟨?_, ?_⟩, ?_, ?_⟩ <;> ring
  · simp [spriteVertices, spriteCorners, ht, XMVector3Transform, XMMatrixRotationZ, XMVectorSet,
      XMVectorGetX, XMVectorGetY, rotatedQuad, rotate]
    refine ⟨⟨?_, ?_⟩, ⟨?_, ?_⟩, ⟨?_, ?_⟩, ⟨?_, ?_⟩, ⟨?_, ?_⟩, ?_, ?_⟩ <;> ring

/-- Both triangles of a turned quad have twice the signed area
`-(4 * a * b) * (c ^ 2 + s ^ 2)`. -/
theorem rotatedQuad_signedArea2 {α : Type} [Field α] (cx cy a b c s : α) :
    (triangleList (rotatedQuad cx cy a b c s)).length = 2
      ∧ ∀ tri ∈ triangleList (rotatedQuad cx cy a b c s),
          signedArea2 tri = -(4 * a * b) * (c ^ 2 + s ^ 2) := by
  refine ⟨rfl, ?_⟩
  intro tri htri
  simp only [rotatedQuad, triangleList, List.mem_cons, List.mem_singleton, List.not_mem_nil,
    or_false] at htri
  rcases htri with h | h <;> subst h <;> simp only [signedArea2, rotate] <;> ring

/-- C26. In the Direct3D 11 backend, over real arithmetic, for a window of
positive size, a quad of positive width and height and every rotation angle,
the six vertices of `DrawSprite` form two triangles (TL, TR, BL and TR, BR, BL),
each with twice the signed area `-(4 * (w / W) * (h / H))` in normalized device
space with `y` up, hence clockwise; the same holds for the two triangles of
`DrawRect`. The rasterizer state has `CullMode = D3D11_CULL_BACK` and
`FrontCounterClockwise = FALSE`, under which none of these triangles is
culled. -/
theorem d3d11_quads_wind_clockwise (W H : Int) (x y w h t r g b a : ℝ)
    (hW : 0 < W) (hH : 0 < H) (hw : 0 < w) (hh : 0 < h) :
    ((triangleList
          ((spriteVertices ⟨Real.sin, Real.cos⟩ W H x y w h t).map Vertex.position)).length = 2
        ∧ ∀ tri ∈ triangleList
            ((spriteVertices ⟨Real.sin, Real.cos⟩ W H x y w h t).map Vertex.position),
          signedArea2 tri = -(4 * (w / W) * (h / H)) ∧ signedArea2 tri < 0
            ∧ isCulled rasterizerDesc tri = false)
      ∧ ((triangleList
            ((rectVertices W H x y w h r g b a).map Vertex.position)).length = 2
        ∧ ∀ tri ∈ triangleList ((rectVertices W H x y w h r g b a).map Vertex.position),
          signedArea2 tri = -(4 * (w / W) * (h / H)) ∧ signedArea2 tri < 0
            ∧ isCulled rasterizerDesc tri = false)
      ∧ rasterizerDesc.CullMode = D3D11_CULL_MODE.D3D11_CULL_BACK
      ∧ rasterizerDesc.FrontCounterClockwise = false := by
  have hW' : (0 : ℝ) < W := by exact_mod_cast hW
  have hH' : (0 : ℝ) < H := by exact_mod_cast hH
  have hneg : -(4 * (w / W) * (h / H)) < 0 := by
    have := mul_pos (div_pos hw hW') (div_pos hh hH')
    linarith
  have hcull : ∀ tri : XMFLOAT3 ℝ × XMFLOAT3 ℝ × XMFLOAT3 ℝ,
      signedArea2 tri < 0 → isCulled rasterizerDesc tri = false := by
    intro tri htri
    simp [isCulled, rasterizerDesc, htri]
  have hunit : (if t ≠ 0 then Real.cos t else 1) ^ 2 + (if t ≠ 0 then Real.sin t else 0) ^ 2
      = 1 := by
    by_cases ht : t = 0
    · simp [ht]
    · simp [ht, Real.cos_sq_add_sin_sq]
  refine ⟨?_, ?_, rfl, rfl⟩
  · rw [d3d11_spriteVertices_positions]
    obtain ⟨hlen, harea⟩ := rotatedQuad_signedArea2 (((x + w / 2) / W) * 2 - 1)
      (1 - ((y + h / 2) / H) * 2) (w / W) (h / H)
      (if t ≠ 0 then Real.cos t else 1) (if t ≠ 0 then Real.sin t else 0)
    refine ⟨hlen, ?_⟩
    intro tri htri
    have h1 : signedArea2 tri = -(4 * (w / W) * (h / H)) := by
      rw [harea tri htri, hunit, mul_one]
    exact ⟨h1, h1 ▸ hneg, hcull tri (h1 ▸ hneg)⟩
  · refine ⟨rfl, ?_⟩
    intro tri htri
    simp only [rectVertices, List.map, triangleList, List.mem_cons, List.mem_singleton,
      List.not_mem_nil, or_false] at htri
    have h1 : signedArea2 tri = -(4 * (w / W) * (h / H)) := by
      rcases htri with h | h <;> subst h <;> simp only [signedArea2] <;> ring
    exact ⟨h1, h1 ▸ hneg, hcull tri (h1 ▸ hneg)⟩

/-- Witness for C26: the sprite `(100, 100, 50, 50)` turned by `π / 3` in an
800x600 window. -/
theorem d3d11_quads_wind_clockwise_witness :
    (triangleList
        ((spriteVertices ⟨Real.sin, Real.cos⟩ 800 600 (100 : ℝ) 100 50 50
          (Real.pi / 3)).map Vertex.position)).length = 2 :=
  (d3d11_quads_wind_clockwise 800 600 100 100 50 50 (Real.pi / 3) 1 0 0 1 (by decide)
    (by decide) (by norm_num) (by norm_num)).1.1

/-- C27. In the Direct3D 11 backend, over real arithmetic, `DrawSprite` rotates
in normalized device space: for a quarter turn (`cos t = 0`, `sin t = 1`) the
four corners are `(cx ∓ h/H, cy ∓ w/W)`, so that after the viewport transform
they span `h * W / H` pixels horizontally and `w * H / W` pixels vertically,
while the corners for the angle zero span `w` and `h` pixels. For `W = 800`,
`H = 600`, `w = h = 100` the spans of the turned quad are `400 / 3` and `75`,
not `100`. -/
theorem d3d11_quarter_turn_is_taken_in_ndc (W H : Int) (x y w h t : ℝ)
    (hW : 0 < W) (hH : 0 < H) (hcos : Real.cos t = 0) (hsin : Real.sin t = 1) :
    ∃ cx cy : ℝ, cx = ((x + w / 2) / W) * 2 - 1 ∧ cy = 1 - ((y + h / 2) / H) * 2
      ∧ spriteCorners ⟨Real.sin, Real.cos⟩ W H x y w h t
        = [ ⟨cx - h / H, cy - w / W, 0, 1⟩, ⟨cx - h / H, cy + w / W, 0, 1⟩,
            ⟨cx + h / H, cy - w / W, 0, 1⟩, ⟨cx + h / H, cy + w / W, 0, 1⟩ ]
      ∧ viewportX W (cx + h / H) - viewportX W (cx - h / H) = h * W / H
      ∧ viewportY H (cy - w / W) - viewportY H (cy + w / W) = w * H / W
      ∧ spriteCorners ⟨Real.sin, Real.cos⟩ W H x y w h 0
        = [ ⟨cx - w / W, cy + h / H, 0, 1⟩, ⟨cx + w / W, cy + h / H, 0, 1⟩,
            ⟨cx - w / W, cy - h / H, 0, 1⟩, ⟨cx + w / W, cy - h / H, 0, 1⟩ ]
      ∧ viewportX W (cx + w / W) - viewportX W (cx - w / W) = w
      ∧ viewportY H (cy - h / H) - viewportY H (cy + h / H) = h
      ∧ (W = 800 → H = 600 → w = 100 → h = 100 →
          h * W / H = 400 / 3 ∧ w * H / W = 75 ∧ h * W / H ≠ w ∧ w * H / W ≠ h) := by
  have hW' : (W : ℝ) ≠ 0 := by exact_mod_cast hW.ne'
  have hH' : (H : ℝ) ≠ 0 := by exact_mod_cast hH.ne'
  have ht : t ≠ 0 := by
    rintro rfl
    simp at hcos
  refine ⟨_, _, rfl, rfl, ?_, ?_, ?_, ?_, ?_, ?_, ?_⟩
  · simp [spriteCorners, ht, hcos, hsin, XMVector3Transform, XMMatrixRotationZ, XMVectorSet,
      XMVectorGetX, XMVectorGetY]
    refine ⟨⟨?_, ?_⟩, ⟨?_, ?_⟩, ⟨?_, ?_⟩, ?_, ?_⟩ <;> ring
  · simp only [viewportX]
    field_simp
    ring
  · simp only [viewportY]
    field_simp
    ring
  · simp [spriteCorners, XMVector3Transform, XMMatrixIdentity, XMVectorSet,
      XMVectorGetX, XMVectorGetY]
    refine ⟨⟨?_, ?_⟩, ⟨?_, ?_⟩, ⟨?_, ?_⟩, ?_, ?_⟩ <;> ring
  · simp only [viewportX]
    field_simp
    ring
  · simp only [viewportY]
    field_simp
    ring
  · intro h1 h2 h3 h4
    subst h1 h2 h3 h4
    norm_num

/-- Witness for C27: the quarter turn `t = π / 2` of a 100x100 sprite in an
800x600 window spans `400 / 3` pixels horizontally. -/
theorem d3d11_quarter_turn_is_taken_in_ndc_witness :
    (100 : ℝ) * ((800 : Int) : ℝ) / ((600 : Int) : ℝ) = 400 / 3 := by
  obtain ⟨cx, cy, -, -, -, -, -, -, -, -, hspan⟩ :=
    d3d11_quarter_turn_is_taken_in_ndc 800 600 0 0 100 100 (Real.pi / 2) (by decide)
      (by decide) Real.cos_pi_div_two Real.sin_pi_div_two
  exact (hspan rfl rfl rfl rfl).1

end D3D11Winding

/-! ## The error code and the error buffer -/

section ErrorFields

variable {α : Type}

theorem sameErrorFields_refl (e : EngineState α) : SameErrorFields e e := ⟨rfl, rfl⟩

theorem sameErrorFields_trans {e e1 e2 : EngineState α} (h1 : SameErrorFields e e1)
    (h2 : SameErrorFields e1 e2) : SameErrorFields e e2 :=
  ⟨h2.1.trans h1.1, h2.2.trans h1.2⟩

theorem engine_setKeyState_sameErrorFields (e : EngineState α) (k : Int) (d p : Bool) :
    SameErrorFields e (Engine_SetKeyState e k d p) := by
  unfold Engine_SetKeyState
  cases d <;> cases p <;> cases e.g_inputCallback <;> exact ⟨rfl, rfl⟩

theorem engine_setMouseButtonState_sameErrorFields (e : EngineState α) (b : Int) (d : Bool) :
    SameErrorFields e (Engine_SetMouseButtonState e b d) := by
  unfold Engine_SetMouseButtonState
  cases d <;> exact ⟨rfl, rfl⟩

theorem d3d11_windowProc_sameErrorFields [IntCast α] (hasRenderer : Bool) (s : D3D11Renderer α)
    (e : EngineState α) (message : WindowMessage) (wParam lParam : Int) :
    SameErrorFields e (D3D11Renderer.WindowProc hasRenderer s e message wParam lParam).2 := by
  unfold D3D11Renderer.WindowProc
  cases message <;>
    first
    | exact ⟨rfl, rfl⟩
    | exact engine_setKeyState_sameErrorFields _ _ _ _
    | exact engine_setMouseButtonState_sameErrorFields _ _ _
    | (dsimp only
       split
       · exact engine_setKeyState_sameErrorFields _ _ _ _
       · exact ⟨rfl, rfl⟩)

theorem d3d12_windowProc_sameErrorFields [IntCast α] (hasRenderer : Bool) (s : D3D12Renderer)
    (e : EngineState α) (message : WindowMessage) (wParam lParam : Int) :
    SameErrorFields e (D3D12Renderer.WindowProc hasRenderer s e message wParam lParam).2 := by
  unfold D3D12Renderer.WindowProc
  cases message <;>
    first
    | exact ⟨rfl, rfl⟩
    | exact engine_setKeyState_sameErrorFields _ _ _ _
    | exact engine_setMouseButtonState_sameErrorFields _ _ _
    | (dsimp only
       split
       · exact engine_setKeyState_sameErrorFields _ _ _ _
       · exact ⟨rfl, rfl⟩)

theorem d3d11_beginFrame_sameErrorFields [IntCast α] (messages : List MSG)
    (s : D3D11Renderer α) (e : EngineState α) :
    SameErrorFields e (D3D11Renderer.BeginFrame s e messages).2 := by
  induction messages generalizing s e with
  | nil => exact ⟨rfl, rfl⟩
  | cons msg rest ih =>
    unfold D3D11Renderer.BeginFrame
    split
    · exact ih _ _
    · exact sameErrorFields_trans (d3d11_windowProc_sameErrorFields _ _ _ _ _ _) (ih _ _)

theorem handleSDLEvent_sameErrorFields [IntCast α] (e : EngineState α) (event : SDL_Event) :
    SameErrorFields e (handleSDLEvent e event) := by
  unfold handleSDLEvent
  cases event with
  | SDL_QUIT =>
    dsimp only
    cases e.g_renderer <;> exact ⟨rfl, rfl⟩
  | SDL_KEYDOWN sym keyRepeat =>
    dsimp only
    split
    · cases e.g_inputCallback <;> exact ⟨rfl, rfl⟩
    · exact ⟨rfl, rfl⟩
  | SDL_KEYUP sym =>
    dsimp only
    cases e.g_inputCallback <;> exact ⟨rfl, rfl⟩
  | SDL_MOUSEMOTION x y => exact ⟨rfl, rfl⟩
  | SDL_MOUSEBUTTONDOWN button => exact ⟨rfl, rfl⟩
  | SDL_MOUSEBUTTONUP button => exact ⟨rfl, rfl⟩
  | other type => exact ⟨rfl, rfl⟩

theorem handleSDLEvents_sameErrorFields [IntCast α] (events : List SDL_Event)
    (e : EngineState α) : SameErrorFields e (events.foldl handleSDLEvent e) := by
  induction events generalizing e with
  | nil => exact ⟨rfl, rfl⟩
  | cons event rest ih =>
    exact sameErrorFields_trans (handleSDLEvent_sameErrorFields e event) (ih _)

theorem beginRendererFrame_sameErrorFields [IntCast α] (e e' : EngineState α)
    (messages : List MSG) (h : beginRendererFrame e messages = some e') :
    SameErrorFields e e' := by
  unfold beginRendererFrame at h
  cases hq : e.g_renderer with
  | none =>
    rw [hq] at h
    simp only [Option.some.injEq] at h
    subst h
    exact ⟨rfl, rfl⟩
  | some renderer =>
    rw [hq] at h
    cases renderer with
    | sdl2 r =>
      simp only [Option.some.injEq] at h
      subst h
      exact ⟨rfl, rfl⟩
    | d3d11 r =>
      simp only [Option.some.injEq] at h
      subst h
      exact d3d11_beginFrame_sameErrorFields messages r e
    | d3d12 r =>
      simp only [Option.map_eq_some'] at h
      obtain ⟨r1, -, h⟩ := h
      subst h
      exact ⟨rfl, rfl⟩

theorem engine_beginFrame_sameErrorFields [IntCast α] (cfg : BuildConfig) (e e' : EngineState α)
    (events : List SDL_Event) (messages : List MSG)
    (h : Engine_BeginFrame cfg e events messages = some e') : SameErrorFields e e' := by
  unfold Engine_BeginFrame at h
  have h2 := beginRendererFrame_sameErrorFields _ _ _ h
  refine sameErrorFields_trans ?_ h2
  split
  · exact sameErrorFields_trans ⟨rfl, rfl⟩ (handleSDLEvents_sameErrorFields events _)
  · exact ⟨rfl, rfl⟩

theorem engine_shutdown_sameErrorFields (e e' : EngineState α) (h : Engine_Shutdown e = some e') :
    SameErrorFields e e' := by
  unfold Engine_Shutdown at h
  split at h
  · simp only [Option.some.injEq] at h
    subst h
    exact ⟨rfl, rfl⟩
  · simp only [Option.map_eq_some'] at h
    obtain ⟨e1, h1, h⟩ := h
    subst h
    have : SameErrorFields e e1 := by
      cases hq : e.g_renderer with
      | none =>
        rw [hq] at h1
        simp only [Option.some.injEq] at h1
        subst h1
        exact ⟨rfl, rfl⟩
      | some renderer =>
        rw [hq] at h1
        dsimp only at h1
        split at h1
        · exact absurd h1 (by simp)
        · split at h1
          · exact absurd h1 (by simp)
          · simp only [Option.some.injEq] at h1
            subst h1
            exact ⟨rfl, rfl⟩
    exact ⟨this.1, this.2⟩

theorem engine_initialize_error_fields (cfg : BuildConfig) (e e' : EngineState α)
    (rendererEnv : Option String) (env : RendererInitEnv) (width height : Int) (title : String)
    (b : Bool) (h : Engine_Initialize cfg e rendererEnv env width height title = some (b, e')) :
    e'.g_lastError = e.g_lastError
      ∧ (b = true → e'.g_errorMessage = e.g_errorMessage)
      ∧ (b = false → ∃ message, e'.g_errorMessage = (SetError e message).g_errorMessage) := by
  unfold Engine_Initialize at h
  split at h
  · simp only [Option.some.injEq, Prod.mk.injEq] at h
    obtain ⟨hb, he⟩ := h
    subst hb he
    exact ⟨rfl, fun _ => rfl, fun hf => absurd hf (by simp)⟩
  · split at h
    · simp only [Option.some.injEq, Prod.mk.injEq] at h
      obtain ⟨hb, he⟩ := h
      subst hb he
      exact ⟨rfl, fun hf => absurd hf (by simp), fun _ => ⟨_, rfl⟩⟩
    · dsimp only at h
      split at h
      · exact absurd h (by simp)
      · split at h
        · split at h
          · exact absurd h (by simp)
          · simp only [Option.some.injEq, Prod.mk.injEq] at h
            obtain ⟨hb, he⟩ := h
            subst hb he
            exact ⟨rfl, fun hf => absurd hf (by simp), fun _ => ⟨_, rfl⟩⟩
        · simp only [Option.some.injEq, Prod.mk.injEq] at h
          obtain ⟨hb, he⟩ := h
          subst hb he
          exact ⟨rfl, fun _ => rfl, fun hf => absurd hf (by simp)⟩

end ErrorFields

section ErrorCalls

variable {α : Type} [LinearOrderedField α] [FloorRing α]

/-- A call keeps the error code, and either keeps the error buffer or leaves
it as `SetError` does. -/
theorem applyCall_error_fields (cfg : BuildConfig) (sc : SinCos α) (e e' : EngineState α)
    (call : EngineCall α) (h : applyCall cfg sc e call = some e') :
    e'.g_lastError = e.g_lastError
      ∧ (e'.g_errorMessage = e.g_errorMessage
        ∨ ∃ message, e'.g_errorMessage = (SetError e message).g_errorMessage) := by
  have same : ∀ e1 : EngineState α, SameErrorFields e e1 →
      e1.g_lastError = e.g_lastError
        ∧ (e1.g_errorMessage = e.g_errorMessage
          ∨ ∃ message, e1.g_errorMessage = (SetError e message).g_errorMessage) :=
    fun e1 h1 => ⟨h1.1, Or.inl h1.2⟩
  cases call with
  | Engine_Initialize rendererEnv env width height title =>
    simp only [applyCall, Option.map_eq_some'] at h
    obtain ⟨⟨b, e1⟩, h1, h2⟩ := h
    simp only at h2
    subst h2
    obtain ⟨ha, hb, hc⟩ := engine_initialize_error_fields cfg e e1 rendererEnv env width height
      title b h1
    refine ⟨ha, ?_⟩
    cases b
    · exact Or.inr (hc rfl)
    · exact Or.inl (hb rfl)
  | Engine_Shutdown => exact same _ (engine_shutdown_sameErrorFields e e' h)
  | Engine_BeginFrame events messages =>
    exact same _ (engine_beginFrame_sameErrorFields cfg e e' events messages h)
  | Engine_EndFrame =>
    simp only [applyCall, Engine_EndFrame] at h
    cases hq : e.g_renderer with
    | none =>
      rw [hq] at h
      simp only [Option.some.injEq] at h
      subst h
      exact same _ ⟨rfl, rfl⟩
    | some renderer =>
      rw [hq] at h
      simp only [Option.map_eq_some'] at h
      obtain ⟨r1, -, h⟩ := h
      subst h
      exact same _ ⟨rfl, rfl⟩
  | Renderer_LoadTexture env filePath =>
    simp only [applyCall, Renderer_LoadTexture, Option.some.injEq] at h
    subst h
    cases e.g_renderer <;> exact same _ ⟨rfl, rfl⟩
  | Renderer_UnloadTexture textureId =>
    simp only [applyCall, Renderer_UnloadTexture, Option.some.injEq] at h
    subst h
    cases e.g_renderer <;> exact same _ ⟨rfl, rfl⟩
  | Renderer_DrawSprite env textureId x y width height rotation =>
    simp only [applyCall, Renderer_DrawSprite, Option.some.injEq] at h
    subst h
    cases e.g_renderer <;> exact same _ ⟨rfl, rfl⟩
  | Renderer_Clear r g b a =>
    simp only [applyCall, Renderer_Clear] at h
    cases hq : e.g_renderer with
    | none =>
      rw [hq] at h
      simp only [Option.some.injEq] at h
      subst h
      exact same _ ⟨rfl, rfl⟩
    | some renderer =>
      rw [hq] at h
      simp only [Option.map_eq_some'] at h
      obtain ⟨r1, -, h⟩ := h
      subst h
      exact same _ ⟨rfl, rfl⟩
  | Renderer_DrawRect env x y width height r g b a =>
    simp only [applyCall, Renderer_DrawRect, Option.some.injEq] at h
    subst h
    cases e.g_renderer <;> exact same _ ⟨rfl, rfl⟩
  | Renderer_Present gpuBeforeFenceCheck backBufferIndex =>
    simp only [applyCall, Renderer_Present] at h
    cases hq : e.g_renderer with
    | none =>
      rw [hq] at h
      simp only [Option.some.injEq] at h
      subst h
      exact same _ ⟨rfl, rfl⟩
    | some renderer =>
      rw [hq] at h
      simp only [Option.map_eq_some'] at h
      obtain ⟨r1, -, h⟩ := h
      subst h
      exact same _ ⟨rfl, rfl⟩
  | Engine_RegisterInputCallback callback =>
    simp only [applyCall, Option.some.injEq] at h
    subst h
    exact same _ ⟨rfl, rfl⟩
  | Engine_RegisterCollisionCallback callback =>
    simp only [applyCall, Option.some.injEq] at h
    subst h
    exact same _ ⟨rfl, rfl⟩
  | Engine_SetKeyState keyCode isDown isPressed =>
    simp only [applyCall, Option.some.injEq] at h
    subst h
    exact same _ (engine_setKeyState_sameErrorFields _ _ _ _)
  | Engine_SetMousePosition x y =>
    simp only [applyCall, Option.some.injEq] at h
    subst h
    exact same _ ⟨rfl, rfl⟩
  | Engine_SetMouseButtonState button isDown =>
    simp only [applyCall, Option.some.injEq] at h
    subst h
    exact same _ (engine_setMouseButtonState_sameErrorFields _ _ _)
  | windowMessage msg =>
    simp only [applyCall] at h
    cases hq : e.g_renderer with
    | none =>
      rw [hq] at h
      simp only [Option.some.injEq] at h
      subst h
      exact same _ ⟨rfl, rfl⟩
    | some renderer =>
      rw [hq] at h
      cases renderer with
      | sdl2 r =>
        simp only [Option.some.injEq] at h
        subst h
        exact same _ ⟨rfl, rfl⟩
      | d3d11 r =>
        simp only [Option.some.injEq] at h
        subst h
        exact same _ (d3d11_windowProc_sameErrorFields true r e _ _ _)
      | d3d12 r =>
        simp only [Option.some.injEq] at h
        subst h
        exact same _ (d3d12_windowProc_sameErrorFields true r e _ _ _)

end ErrorCalls

section ErrorBuffer

variable {α : Type}

theorem strlen_take (message : List Nat) (n : Nat) (hn : n ≤ strlen message) :
    (message.take n).length = n ∧ ∀ b ∈ message.take n, b ≠ 0 := by
  induction message generalizing n with
  | nil =>
    simp [strlen] at hn
    subst hn
    simp
  | cons b rest ih =>
    cases n with
    | zero => simp
    | succ n =>
      by_cases hb : b = 0
      · simp [strlen, hb] at hn
      · have hs : strlen (b :: rest) = strlen rest + 1 := by
          simp [strlen, hb]
        rw [hs] at hn
        obtain ⟨h1, h2⟩ := ih n (by omega)
        refine ⟨by simp [h1], ?_⟩
        intro c hc
        simp only [List.take_succ_cons, List.mem_cons] at hc
        rcases hc with hc | hc
        · rw [hc]
          exact hb
        · exact h2 c hc

/-- The buffer that `SetError` leaves. -/
theorem setError_buffer (e : EngineState α) (message : List Nat)
    (h : e.g_errorMessage.length = 256) :
    (SetError e message).g_errorMessage
      = message.take (min (strlen message) 255)
          ++ 0 :: e.g_errorMessage.drop (min (strlen message) 255 + 1) := by
  have hn : (if strlen message < 256 - 1 then strlen message else 256 - 1)
      = min (strlen message) 255 := by
    split <;> omega
  obtain ⟨hlen, -⟩ := strlen_take message (min (strlen message) 255) (min_le_left _ _)
  have hlt : min (strlen message) 255 < e.g_errorMessage.length := by
    rw [h]
    omega
  unfold SetError
  simp only [hn]
  rw [List.set_append_right _ _ (by rw [hlen]), hlen, Nat.sub_self]
  congr 1
  rw [List.drop_eq_getElem_cons hlt]
  rfl

theorem takeWhile_length_lt_of_mem (l : List Nat) (h : 0 ∈ l) :
    (l.takeWhile fun b => decide (b ≠ 0)).length < l.length
      ∧ l[(l.takeWhile fun b => decide (b ≠ 0)).length]? = some 0 := by
  induction l with
  | nil => simp at h
  | cons b rest ih =>
    by_cases hb : b = 0
    · subst hb
      simp
    · have hr : 0 ∈ rest := by
        rcases List.mem_cons.1 h with h0 | h0
        · exact absurd h0.symm hb
        · exact h0
      obtain ⟨h1, h2⟩ := ih hr
      rw [List.takeWhile_cons_of_pos (by simpa using hb)]
      simp only [List.length_cons, List.getElem?_cons_succ]
      exact ⟨by omega, h2⟩

theorem setError_terminatedBuffer (e : EngineState α) (message : List Nat)
    (h : e.g_errorMessage.length = 256) : TerminatedBuffer (SetError e message) := by
  obtain ⟨hlen, -⟩ := strlen_take message (min (strlen message) 255) (min_le_left _ _)
  have hle : min (strlen message) 255 ≤ 255 := min_le_right _ _
  rw [TerminatedBuffer, setError_buffer e message h]
  constructor
  · simp only [List.length_append, List.length_cons, List.length_drop, hlen, h]
    omega
  · simp

theorem terminatedBuffer_initial [Zero α] :
    TerminatedBuffer (EngineState.initial : EngineState α) := by
  constructor
  · show (cBytes "No error" ++ List.replicate 248 0).length = 256
    have h8 : (cBytes "No error").length = 8 := by decide
    rw [List.length_append, List.length_replicate, h8]
  · show 0 ∈ cBytes "No error" ++ List.replicate 248 0
    exact List.mem_append_right _ (List.mem_replicate.2 ⟨by decide, rfl⟩)

end ErrorBuffer

section ErrorReachable

variable {α : Type} [LinearOrderedField α] [FloorRing α]

theorem runCalls_error_invariant (cfg : BuildConfig) (sc : SinCos α) (calls : List (EngineCall α))
    (e e' : EngineState α) (h : runCalls cfg sc e calls = some e') :
    e'.g_lastError = e.g_lastError ∧ (TerminatedBuffer e → TerminatedBuffer e') := by
  induction calls generalizing e with
  | nil =>
    simp only [runCalls, Option.some.injEq] at h
    subst h
    exact ⟨rfl, id⟩
  | cons call rest ih =>
    unfold runCalls at h
    cases h1 : applyCall cfg sc e call with
    | none => simp [h1] at h
    | some e1 =>
      rw [h1] at h
      obtain ⟨ha, hb⟩ := applyCall_error_fields cfg sc e e1 call h1
      obtain ⟨hc, hd⟩ := ih e1 h
      refine ⟨hc.trans ha, fun ht => hd ?_⟩
      rcases hb with hb | ⟨message, hb⟩
      · unfold TerminatedBuffer
        rw [hb]
        exact ht
      · have := setError_terminatedBuffer e message ht.1
        unfold TerminatedBuffer at this ⊢
        rw [hb]
        exact this

/-- C28. The error code is never written: after every sequence of calls from
program start that returns, `Engine_GetLastError` returns `0`; this includes
the state left by an `Engine_Initialize` that returns `false`, which has set
the error message through `SetError`. -/
theorem engine_getLastError_is_always_zero (cfg : BuildConfig) (sc : SinCos α)
    (calls : List (EngineCall α)) (e : EngineState α)
    (h : runCalls cfg sc EngineState.initial calls = some e) :
    Engine_GetLastError e = 0
      ∧ ∀ rendererEnv env width height title e',
          Engine_Initialize cfg e rendererEnv env width height title = some (false, e') →
            Engine_GetLastError e' = 0
              ∧ ∃ message, e'.g_errorMessage = (SetError e message).g_errorMessage := by
  have h0 : e.g_lastError = 0 := (runCalls_error_invariant cfg sc calls _ e h).1
  refine ⟨h0, ?_⟩
  intro rendererEnv env width height title e' hi
  obtain ⟨ha, -, hc⟩ := engine_initialize_error_fields cfg e e' rendererEnv env width height
    title false hi
  exact ⟨ha.trans h0, hc rfl⟩

/-- C29. For every message, `SetError` leaves in the 256-byte buffer the first
`min(strlen(message), 255)` bytes of the message, none of them NUL, followed by
a NUL, and the bytes after that NUL as they were; the buffer keeps its 256
bytes, and `Engine_GetErrorMessage` then returns exactly those first bytes, at
most 255. After every sequence of calls from program start the buffer has 256
bytes and `Engine_GetErrorMessage` returns at most 255 bytes, followed in the
buffer by a NUL. -/
theorem setError_stores_truncated_message (e : EngineState α) (message : List Nat)
    (h : e.g_errorMessage.length = 256) :
    (SetError e message).g_errorMessage
        = message.take (min (strlen message) 255)
            ++ 0 :: e.g_errorMessage.drop (min (strlen message) 255 + 1)
      ∧ (message.take (min (strlen message) 255)).length = min (strlen message) 255
      ∧ (∀ b ∈ message.take (min (strlen message) 255), b ≠ 0)
      ∧ (SetError e message).g_errorMessage.length = 256
      ∧ Engine_GetErrorMessage (SetError e message) = message.take (min (strlen message) 255)
      ∧ (Engine_GetErrorMessage (SetError e message)).length ≤ 255
      ∧ ∀ (cfg : BuildConfig) (sc : SinCos α) (calls : List (EngineCall α)) (e1 : EngineState α),
          runCalls cfg sc EngineState.initial calls = some e1 →
            e1.g_errorMessage.length = 256 ∧ (Engine_GetErrorMessage e1).length ≤ 255
              ∧ e1.g_errorMessage[(Engine_GetErrorMessage e1).length]? = some 0 := by
  obtain ⟨hlen, hnz⟩ := strlen_take message (min (strlen message) 255) (min_le_left _ _)
  have hbuf := setError_buffer e message h
  have hget : Engine_GetErrorMessage (SetError e message)
      = message.take (min (strlen message) 255) := by
    unfold Engine_GetErrorMessage
    rw [hbuf, List.takeWhile_append_of_pos (by simpa using hnz)]
    simp
  refine ⟨hbuf, hlen, hnz, (setError_terminatedBuffer e message h).1, hget, ?_, ?_⟩
  · rw [hget, hlen]
    exact min_le_right _ _
  · intro cfg sc calls e1 hr
    obtain ⟨h256, hmem⟩ :=
      (runCalls_error_invariant cfg sc calls _ e1 hr).2 terminatedBuffer_initial
    obtain ⟨h1, h2⟩ := takeWhile_length_lt_of_mem e1.g_errorMessage hmem
    refine ⟨h256, ?_, h2⟩
    unfold Engine_GetErrorMessage
    omega

end ErrorReachable

/-- Witness for C28: in a build without any backend, `Engine_Initialize` fails
at program start and the error code is still `0`. -/
theorem engine_getLastError_is_always_zero_witness :
    Engine_GetLastError
        (SetError (EngineState.initial : EngineState ℚ)
          (cBytes
            "SDL2 not available. Install SDL2 development libraries or use DirectX on Windows."))
      = 0 :=
  (engine_getLastError_is_always_zero ⟨false, false⟩ SinCos.zeroAngle
    [EngineCall.Engine_Initialize none RendererInitEnv.allOk 800 600 "Chronicles"] _ rfl).1

/-- Witness for C29: a message of 300 bytes is cut to its first 255 bytes. -/
theorem setError_stores_truncated_message_witness :
    Engine_GetErrorMessage (SetError (EngineState.initial : EngineState ℚ) longMessage)
      = longMessage.take (min (strlen longMessage) 255) :=
  (setError_stores_truncated_message (EngineState.initial : EngineState ℚ) longMessage
    terminatedBuffer_initial.1).2.2.2.2.1

end Chronicles
